import Mathlib

/-!
# Volume state machine, hotplug handling and command handlers of vold
(Volume.cpp, DirectVolume.cpp, CommandListener.cpp)

A shallow embedding of the volume daemon's `Volume` / `DirectVolume` classes and of the
`asec`, `obb`, `iso` and `cryptfs` command handlers of `CommandListener`.

* Object fields become fields of `DirectVolume` (the only concrete subclass, so
  the virtual calls of `Volume` resolve to it).
* Everything that leaves the process (syscalls, helper classes, properties,
  broadcasts, `VolumeManager`) is a `Call`; the calls made are recorded, in
  order, in `Sys.trace`, and what a call returns is decided by an arbitrary
  environment `Env`, a function of the calls made so far and the call itself.
* C `int` values are `Int`; bit patterns (`mPendingPartMap`, `dev_t`) are the
  `Nat` below `2^32` holding the 32-bit two's-complement pattern.
* Log output (`SLOGx`, `ALOGx`) of `Volume` and `DirectVolume` has no effect on the
  program and is left out; the line logged by `CommandListener::dumpArgs` is a `CmdCall`.
-/

namespace Vold

/-! ## Constants -/

def ENOENT : Int := 2
def EBUSY : Int := 16
def EEXIST : Int := 17
def ENODEV : Int := 19
def ENOTDIR : Int := 20
def EINVAL : Int := 22
def ENOSYS : Int := 38

/-- Volume::SEC_STGDIR -/
def SEC_STGDIR : String := "/mnt/secure/staging"
/-- Volume::SEC_ASECDIR_EXT -/
def SEC_ASECDIR_EXT : String := "/mnt/secure/asec"
/-- Volume::BLKID_PATH -/
def BLKID_PATH : String := "/system/bin/blkid"

/-- Modelled from the spec: `UNMOUNT_NOT_MOUNTED_ERR` is declared in Volume.h, which is
not among the sources; the spec only says that unmounting a volume that is not mounted
fails (`NotMounted`), so any non-zero value serves. -/
def UNMOUNT_NOT_MOUNTED_ERR : Int := -2

/-- Volume states, named as the `Volume::State_*` enumerators used in the sources. -/
inductive State
  | State_Init
  | State_NoMedia
  | State_Idle
  | State_Pending
  | State_Checking
  | State_Mounted
  | State_Unmounting
  | State_Formatting
  | State_Shared
  | State_SharedMnt
  deriving DecidableEq, Repr

open State

/-- Modelled from the spec: the numeric values of the `State_*` enumerators live in
Volume.h, which is not among the sources. They only appear as `%d` in the texts of the
state-change broadcasts; they are numbered here in the order in which the spec lists the
states, counting from -1 for Init. No property below depends on the numbers chosen. -/
def stateCode : State → Int
  | State_Init => -1
  | State_NoMedia => 0
  | State_Idle => 1
  | State_Pending => 2
  | State_Checking => 3
  | State_Mounted => 4
  | State_Unmounting => 5
  | State_Formatting => 6
  | State_Shared => 7
  | State_SharedMnt => 8

/-- stateToStr (Volume.cpp:110) -/
def stateToStr : State → String
  | State_Init => "Initializing"
  | State_NoMedia => "No-Media"
  | State_Idle => "Idle-Unmounted"
  | State_Pending => "Pending"
  | State_Mounted => "Mounted"
  | State_Unmounting => "Unmounting"
  | State_Checking => "Checking"
  | State_Formatting => "Formatting"
  | State_Shared => "Shared-Unmounted"
  | State_SharedMnt => "Shared-Mounted"

/-- The response codes the two classes broadcast. -/
inductive ResponseCode
  | VolumeStateChange
  | VolumeMountFailedNoMedia
  | VolumeUuidChange
  | VolumeUserLabelChange
  | VolumeDiskInserted
  | VolumeDiskRemoved
  deriving DecidableEq, Repr

/-- The flag bits tested by the code (`mFlags & VOL_*`), one boolean per bit. -/
structure VolFlags where
  VOL_PROVIDES_ASEC : Bool
  VOL_NONREMOVABLE : Bool
  VOL_ENCRYPTABLE : Bool
  deriving DecidableEq, Repr

/-- struct part_info as filled by initializeMbr. -/
structure part_info where
  name : String
  active : Bool
  type : String
  len_kb : Int
  deriving DecidableEq, Repr

/-- struct disk_info as filled by initializeMbr. -/
structure disk_info where
  device : String
  scheme : String
  sect_size : Nat
  skip_lba : Nat
  num_lba : Nat
  num_parts : Nat
  part_lst : List part_info
  deriving DecidableEq, Repr

/-- The mount(2) flags used. -/
inductive MountFlag
  | MS_MOVE
  | MS_BIND
  deriving DecidableEq, Repr

/-! ## The outside world -/

/-- Every call that leaves the two classes. -/
inductive Call
  | mknod (path : String) (dev : Nat)
  | sendBroadcast (code : ResponseCode) (msg : String)
  | property_get (key : String)
  | property_set (key value : String)
  | fopen_proc_mounts
  | Ntfs_doMount (devicePath target : String) (permMask : Nat)
  | Fat_doMount (devicePath target : String) (permMask : Nat)
  | Extfs_doMount (devicePath target : String) (permMask : Nat)
  | Exfat_doMount (devicePath target : String) (permMask : Nat)
  | mount (src dst : String) (flags : MountFlag)
  | umount (path : String)
  | mkdir (path : String) (mode : Nat)
  | access (path : String)
  | rename (src dst : String)
  | stat (path : String)
  | killProcessesWithOpenFiles (path : String) (action : Int)
  | usleep (usec : Nat)
  | cleanupISO (label : String) (force : Bool)
  | cleanupAsec (label : String) (force : Bool)
  | unshareVolume (label method : String)
  | cryptfs_setup_volume (label : String) (major minor : Nat)
  | cryptfs_revert_volume (label : String)
  | Fat_format (devicePath : String) (numSectors : Nat) (wipe : Bool)
  | apply_disk_config (dinfo : disk_info)
  | refreshVolumeUUIDAfterFormat (mountpoint : String)
  | popen_blkid (cmd : String)
  deriving DecidableEq, Repr

/-- What a call gives back: its return value, the value it stores in `errno` (if it
stores one), and the data it hands out (a property value or sysfs path in `text`, the
lines read from a file or pipe in `lines`, a device number in `major`/`minor`, the
`S_ISDIR` bit of a `stat` in `isDir`). -/
structure Reply where
  ret : Int
  err : Option Int
  text : String
  lines : List String
  major : Int
  minor : Int
  isDir : Bool
  deriving DecidableEq, Repr

/-- The environment: the reply to a call, given the calls made before it. -/
abbrev Env := List Call → Call → Reply

/-- A reply that reports success and carries no data. -/
def Reply.ok : Reply :=
  { ret := 0, err := none, text := "", lines := [], major := 0, minor := 0, isDir := false }

/-- A reply that reports failure with the given `errno`. -/
def Reply.fail (e : Int) : Reply :=
  { ret := -1, err := some e, text := "", lines := [], major := 0, minor := 0, isDir := false }

/-! ## Objects -/

/-- The members of `Volume` (Volume.cpp:135). `mCurrentlyMountedKdev` is a `dev_t`;
the constructor's `-1` is the pattern `0xFFFFFFFF`. -/
structure Volume where
  mLabel : String
  mState : State
  mFlags : VolFlags
  mCurrentlyMountedKdev : Nat
  mPartIdx : Int
  mRetryMount : Bool
  mDebug : Bool
  mUuid : Option String
  mUserLabel : Option String
  deriving DecidableEq, Repr

/-- The members of `DirectVolume` (DirectVolume.cpp:36). Of the array `mPartMinors`
the code reads and writes element 0 and copies the whole. -/
structure DirectVolume extends Volume where
  mPaths : List String
  mMountpoint : String
  mFuseMountpoint : String
  mPartMinors : List Int
  mOrigPartMinors : List Int
  mPendingPartMap : Nat
  mDiskMajor : Int
  mDiskMinor : Int
  mDiskNumParts : Int
  mOrigDiskMajor : Int
  mOrigDiskMinor : Int
  mOrigPartIdx : Int
  mIsDecrypted : Bool
  deriving DecidableEq, Repr

/-- The null value of `mCurrentlyMountedKdev`: `(dev_t) -1`. -/
def KDEV_NULL : Nat := 4294967295

/-- The program state: the volume object, `errno`, and the calls made so far. -/
structure Sys where
  vol : DirectVolume
  errno : Int
  trace : List Call
  deriving DecidableEq, Repr

/-- Perform a call: record it, take the environment's reply, update `errno`. -/
def call (env : Env) (c : Call) (s : Sys) : Reply × Sys :=
  let r := env s.trace c
  (r, { s with errno := r.err.getD s.errno, trace := s.trace ++ [c] })

/-- NetlinkEvent::NlAction* -/
inductive NlAction
  | NlActionUnknown
  | NlActionAdd
  | NlActionRemove
  | NlActionChange
  deriving DecidableEq, Repr

open NlAction

/-- A kernel block uevent as the handlers read it. `DEVPATH`, `DEVTYPE`, `MAJOR` and
`MINOR` are dereferenced unchecked by the code, so an event carries them; `NPARTS` and
`PARTN` may be missing. The numeric parameters hold the value `atoi` gives. -/
structure NetlinkEvent where
  action : NlAction
  DEVPATH : String
  DEVTYPE : String
  MAJOR : Int
  MINOR : Int
  NPARTS : Option Int
  PARTN : Option Int
  deriving DecidableEq, Repr

/-! ## Machine arithmetic -/

/-- The 32-bit pattern of a C `int`. -/
def toU32 (x : Int) : Nat := (x % 4294967296).toNat

/-- The C expression `1 << i` as a 32-bit pattern, for `0 ≤ i ≤ 31`. For a count of 32
or more C defines no value and machines differ; the pattern given here for such a count is
that of a shifter which drops the bits shifted out. -/
def shl1 (i : Nat) : Nat := 2 ^ i % 4294967296

/-- The C expression `~x` on a 32-bit pattern. -/
def not32 (x : Nat) : Nat := 4294967295 - x % 4294967296

/-- MKDEV of linux/kdev_t.h: `((ma) << 8 | (mi))`, as a `dev_t`. -/
def MKDEV (ma mi : Int) : Nat := (toU32 ma * 256 % 4294967296) ||| toU32 mi

/-- MAJOR of linux/kdev_t.h: `((dev) >> 8)`. -/
def MAJOR (dev : Nat) : Nat := dev / 256

/-- MINOR of linux/kdev_t.h: `((dev) & 0xff)`. -/
def MINOR (dev : Nat) : Nat := dev % 256

/-- snprintf into a buffer of `size` bytes: at most `size - 1` characters are kept. -/
def snprintf (size : Nat) (s : String) : String := String.mk (s.data.take (size - 1))

/-- The text `/dev/block/vold/%d:%d`. -/
def nodePath (major minor : Int) : String :=
  "/dev/block/vold/" ++ toString major ++ ":" ++ toString minor

/-! ## Volume.cpp: setState, createDeviceNode -/

/-- The text broadcast by setState. -/
def stateChangedMsg (label fuse : String) (oldState newState : State) : String :=
  "Volume " ++ label ++ " " ++ fuse ++ " state changed from " ++
    toString (stateCode oldState) ++ " (" ++ stateToStr oldState ++ ") to " ++
    toString (stateCode newState) ++ " (" ++ stateToStr newState ++ ")"

/-- Volume::setState (Volume.cpp:296) -/
def Volume.setState (env : Env) (state : State) (s : Sys) : Sys :=
  let oldState := s.vol.mState
  if oldState = state then s
  else
    let s1 : Sys :=
      if oldState = State_Pending ∧ state ≠ State_Idle then
        { s with vol := { s.vol with mRetryMount := false } }
      else s
    let s2 : Sys := { s1 with vol := { s1.vol with mState := state } }
    let msg := snprintf 255
      (stateChangedMsg s2.vol.mLabel s2.vol.mFuseMountpoint oldState s2.vol.mState)
    (call env (Call.sendBroadcast ResponseCode.VolumeStateChange msg) s2).2

/-- Volume::createDeviceNode (Volume.cpp:322) -/
def Volume.createDeviceNode (env : Env) (path : String) (major minor : Int) (s : Sys) :
    Int × Sys :=
  let (r, s1) := call env (Call.mknod path (MKDEV major minor)) s
  if r.ret < 0 then
    if s1.errno ≠ EEXIST then (-1, s1) else (0, s1)
  else (0, s1)

/-! ## Volume.cpp: doMoveMount -/

/-- The value of `action` in the loop of Volume::doMoveMount (Volume.cpp:230-238):
0, or with `force` 2 (SIGKILL) when `retries == 1` and 1 (SIGHUP) when `retries == 2`. -/
def killAction (force : Bool) (retries : Nat) : Int :=
  if force then (if retries = 1 then 2 else if retries = 2 then 1 else 0) else 0

/-- The `while (retries--)` loop of Volume::doMoveMount (Volume.cpp:220); the argument
is the value of `retries` when the loop condition is tested. -/
def Volume.doMoveMountLoop (env : Env) (src dst : String) (force : Bool) :
    Nat → Sys → Int × Sys
  | 0, s => (-1, { s with errno := EBUSY })
  | retries + 1, s =>
    let (r, s1) := call env (Call.mount src dst MountFlag.MS_MOVE) s
    if r.ret = 0 then (0, s1)
    else if s1.errno ≠ EBUSY then (-1, s1)
    else
      let (_, s2) := call env (Call.killProcessesWithOpenFiles src (killAction force retries)) s1
      let (_, s3) := call env (Call.usleep (1000 * 250)) s2
      Volume.doMoveMountLoop env src dst force retries s3

/-- Volume::doMoveMount (Volume.cpp:204); `dst = none` is the NULL pointer. -/
def Volume.doMoveMount (env : Env) (src : String) (dst : Option String) (force : Bool)
    (s : Sys) : Int × Sys :=
  match dst with
  | none => (-1, { s with errno := EINVAL })
  | some d =>
    let (r, s1) := call env (Call.mkdir d 0o074) s
    if r.ret ≠ 0 ∧ s1.errno ≠ EEXIST then (-1, { s1 with errno := EINVAL })
    else Volume.doMoveMountLoop env src d force 5 s1

/-! ## Volume.cpp: setUuid, setUserLabel, extractMetadata -/

/-- The text broadcast by setUuid and setUserLabel. -/
def metadataMsg (label fuse : String) (value : Option String) : String :=
  match value with
  | some v => label ++ " " ++ fuse ++ " \"" ++ v ++ "\""
  | none => label ++ " " ++ fuse

/-- Volume::setUuid (Volume.cpp:256) -/
def Volume.setUuid (env : Env) (uuid : Option String) (s : Sys) : Sys :=
  let s1 : Sys := { s with vol := { s.vol with mUuid := uuid } }
  let msg := snprintf 256 (metadataMsg s1.vol.mLabel s1.vol.mFuseMountpoint s1.vol.mUuid)
  (call env (Call.sendBroadcast ResponseCode.VolumeUuidChange msg) s1).2

/-- Volume::setUserLabel (Volume.cpp:276) -/
def Volume.setUserLabel (env : Env) (userLabel : Option String) (s : Sys) : Sys :=
  let s1 : Sys := { s with vol := { s.vol with mUserLabel := userLabel } }
  let msg := snprintf 256
    (metadataMsg s1.vol.mLabel s1.vol.mFuseMountpoint s1.vol.mUserLabel)
  (call env (Call.sendBroadcast ResponseCode.VolumeUserLabelChange msg) s1).2

/-- strstr: the part of `hay` that starts at the first occurrence of `needle`. -/
def strstr (hay needle : List Char) : Option (List Char) :=
  match hay with
  | [] => if needle = [] then some [] else none
  | c :: rest => if needle.isPrefixOf (c :: rest) then some (c :: rest) else strstr rest needle

/-- The conversion `sscanf(p, "\"%127[^\"]\"", value) == 1`: a double quote, then one
to 127 characters other than a double quote, which are the value. -/
def scanQuoted (p : List Char) : Option String :=
  match p with
  | '"' :: rest =>
    let v := (rest.takeWhile (fun c => c ≠ '"')).take 127
    if v = [] then none else some (String.mk v)
  | _ => none

/-- The value following `key` (`UUID=` or `LABEL=`) in a line of blkid output, as
extractMetadata finds it with strstr and sscanf. -/
def blkidValue (line : String) (key : String) : Option String :=
  match strstr line.data key.data with
  | some start => scanQuoted (start.drop key.length)
  | none => none

/-- The command line extractMetadata runs. -/
def blkidCmd (devicePath : String) : String := BLKID_PATH ++ " -c /dev/null " ++ devicePath

/-- Volume::extractMetadata from the label `done:` on (Volume.cpp:900-905). -/
def Volume.extractMetadataDone (env : Env) (res : Int) (s : Sys) : Int × Sys :=
  if res = -1 then (res, Volume.setUserLabel env none (Volume.setUuid env none s))
  else (res, s)

/-- Volume::extractMetadata (Volume.cpp:860). The reply to `popen_blkid` has `ret ≠ 0`
when popen fails, else its `lines` are what fgets reads from the pipe. -/
def Volume.extractMetadata (env : Env) (devicePath : String) (s : Sys) : Int × Sys :=
  let (r, s1) := call env (Call.popen_blkid (blkidCmd devicePath)) s
  if r.ret ≠ 0 then Volume.extractMetadataDone env (-1) s1
  else
    match r.lines with
    | line :: _ =>
      Volume.extractMetadataDone env 0
        (Volume.setUserLabel env (blkidValue (snprintf 1024 line) "LABEL=")
          (Volume.setUuid env (blkidValue (snprintf 1024 line) "UUID=") s1))
    | [] => Volume.extractMetadataDone env (-1) s1

/-! ## Volume.cpp: isMountpointMounted -/

/-- isspace of the C locale. -/
def isspace (c : Char) : Bool :=
  c = ' ' || c = '\t' || c = '\n' || c = '\r' || c.toNat = 11 || c.toNat = 12

/-- One `%255s` conversion of sscanf: skip white space, take up to 255 characters that
are not white space; `none` when the input ends first. Gives the token and the rest. -/
def scanS (l : List Char) : Option (List Char × List Char) :=
  let l1 := l.dropWhile isspace
  if l1 = [] then none
  else
    let tok := (l1.takeWhile (fun c => !isspace c)).take 255
    some (tok, l1.drop tok.length)

/-- The second token `sscanf(line, "%255s %255s %255s\n", device, mount_path, rest)`
stores in `mount_path`; `prev` is what the buffer held before (it is kept when the
conversion does not happen). -/
def scanMountPath (line : List Char) (prev : List Char) : List Char :=
  match scanS line with
  | none => prev
  | some (_, l1) =>
    match scanS l1 with
    | none => prev
    | some (tok, _) => tok

/-- The `while (fgets(...))` loop of Volume::isMountpointMounted (Volume.cpp:411) over
the lines fgets delivers; `mount_path` is the current content of that buffer. -/
def isMountpointMountedLoop (path : String) : List String → List Char → Bool
  | [], _ => false
  | line :: rest, mount_path =>
    let mp := scanMountPath line.data.dropLast mount_path
    if String.mk mp = path then true else isMountpointMountedLoop path rest mp

/-- Volume::isMountpointMounted (Volume.cpp:399). The reply to `fopen_proc_mounts` has
`ret ≠ 0` when fopen fails, else its `lines` are the lines of /proc/mounts as fgets
delivers them. The buffer `mount_path`, not initialised in the source, starts empty. -/
def Volume.isMountpointMounted (env : Env) (path : String) (s : Sys) : Bool × Sys :=
  let (r, s1) := call env Call.fopen_proc_mounts s
  if r.ret ≠ 0 then (false, s1)
  else (isMountpointMountedLoop path r.lines [], s1)

/-! ## Volume.cpp: mountAsecExternal, doUnmount -/

/-- The path `legacy_path` of mountAsecExternal. -/
def legacy_path : String := SEC_STGDIR ++ "/android_secure"

/-- The path `secure_path` of mountAsecExternal. -/
def secure_path : String := SEC_STGDIR ++ "/.android_secure"

/-- Volume::mountAsecExternal from the bind mount on (Volume.cpp:676-683). -/
def Volume.mountAsecExternalBind (env : Env) (s : Sys) : Int × Sys :=
  let (r, s1) := call env (Call.mount secure_path SEC_ASECDIR_EXT MountFlag.MS_BIND) s
  if r.ret ≠ 0 then (-1, s1) else (0, s1)

/-- Volume::mountAsecExternal from the check that the secure directory exists and is a
directory on (Volume.cpp:649-683). -/
def Volume.mountAsecExternalEnsure (env : Env) (s : Sys) : Int × Sys :=
  let (r, s1) := call env (Call.access secure_path) s
  if r.ret ≠ 0 then
    if s1.errno = ENOENT then
      let (r2, s2) := call env (Call.mkdir secure_path 0o777) s1
      if r2.ret ≠ 0 then (-1, s2) else Volume.mountAsecExternalBind env s2
    else (-1, s1)
  else
    let (r2, s2) := call env (Call.stat secure_path) s1
    if r2.ret ≠ 0 then (-1, s2)
    else if !r2.isDir then (-1, { s2 with errno := ENOTDIR })
    else Volume.mountAsecExternalBind env s2

/-- Volume::mountAsecExternal (Volume.cpp:634) -/
def Volume.mountAsecExternal (env : Env) (s : Sys) : Int × Sys :=
  -- Recover legacy secure path
  let (r1, s1) := call env (Call.access legacy_path) s
  if r1.ret = 0 then
    let (r2, s2) := call env (Call.access secure_path) s1
    if r2.ret ≠ 0 then
      let (_, s3) := call env (Call.rename legacy_path secure_path) s2
      Volume.mountAsecExternalEnsure env s3
    else Volume.mountAsecExternalEnsure env s2
  else Volume.mountAsecExternalEnsure env s1

/-- The test `!umount(path) || errno == EINVAL || errno == ENOENT` of doUnmount. -/
def Volume.umountDone (env : Env) (path : String) (s : Sys) : Bool × Sys :=
  let (r, s1) := call env (Call.umount path) s
  (r.ret = 0 || s1.errno = EINVAL || s1.errno = ENOENT, s1)

/-- The first `while (retries--)` loop of Volume::doUnmount (Volume.cpp:699); the
result says whether the loop returned 0 from the function. -/
def Volume.doUnmountRetry (env : Env) (path : String) : Nat → Sys → Bool × Sys
  | 0, s => (false, s)
  | retries + 1, s =>
    let (_, s1) := call env (Call.usleep (5000 * 1000)) s
    let (done, s2) := Volume.umountDone env path s1
    if done then (true, s2) else Volume.doUnmountRetry env path retries s2

/-- The `while (retries--)` loop of the `force` branch of Volume::doUnmount
(Volume.cpp:711); the result says whether the loop returned 0 from the function. -/
def Volume.doUnmountKill (env : Env) (path : String) : Nat → Sys → Bool × Sys
  | 0, s => (false, s)
  | retries + 1, s =>
    let (_, s1) := call env (Call.killProcessesWithOpenFiles path 1) s
    let (_, s2) := call env (Call.killProcessesWithOpenFiles path 2) s1
    let (_, s3) := call env (Call.usleep (2000 * 1000)) s2
    let (done, s4) := Volume.umountDone env path s3
    if done then (true, s4) else Volume.doUnmountKill env path retries s4

/-- Volume::doUnmount giving up (Volume.cpp:724-726). -/
def Volume.doUnmountGiveUp (s : Sys) : Int × Sys := (-1, { s with errno := EBUSY })

/-- Volume::doUnmount (Volume.cpp:686) -/
def Volume.doUnmount (env : Env) (path : String) (force : Bool) (s : Sys) : Int × Sys :=
  let (done, s1) := Volume.umountDone env path s
  if done then (0, s1)
  else
    let (done2, s2) := Volume.doUnmountRetry env path 1 s1
    if done2 then (0, s2)
    else if force then
      let (done3, s3) := Volume.doUnmountKill env path 20 s2
      if done3 then (0, s3) else Volume.doUnmountGiveUp s3
    else Volume.doUnmountGiveUp s2

/-! ## DirectVolume.cpp: device information -/

/-- DirectVolume::getDiskDevice (DirectVolume.cpp:91) -/
def DirectVolume.getDiskDevice (v : DirectVolume) : Nat := MKDEV v.mDiskMajor v.mDiskMinor

/-- Element 0 of `mPartMinors`. -/
def partMinor0 (minors : List Int) : Int := minors.headD 0

/-- The array `mPartMinors` after `mPartMinors[0] = minor`. -/
def setPartMinor0 (minors : List Int) (minor : Int) : List Int := minor :: minors.tail

/-- DirectVolume::getDeviceNodes (DirectVolume.cpp:417): the device numbers written to
`devs`; the value returned is their number. -/
def DirectVolume.getDeviceNodes (v : DirectVolume) : List Nat :=
  if v.mPartIdx = -1 ∧ v.mDiskNumParts = 0 then
    -- If the disk has no partitions, try the disk itself
    [MKDEV v.mDiskMajor v.mDiskMinor]
  else [MKDEV v.mDiskMajor (partMinor0 v.mPartMinors)]

/-- DirectVolume::updateDeviceInfo (DirectVolume.cpp:436) -/
def DirectVolume.updateDeviceInfo (new_path : String) (new_major new_minor : Int)
    (v : DirectVolume) : Int × DirectVolume :=
  if v.mPartIdx = -1 then (-1, v)
  else if v.mPaths.length ≠ 1 then (-1, v)
  else
    (0, { v with
      mPaths := v.mPaths.tail ++ [new_path]
      mOrigDiskMajor := v.mDiskMajor
      mOrigDiskMinor := v.mDiskMinor
      mOrigPartIdx := v.mPartIdx
      mOrigPartMinors := v.mPartMinors
      mDiskMajor := new_major
      mDiskMinor := new_minor
      mPartIdx := new_minor
      mPartMinors := setPartMinor0 v.mPartMinors new_minor
      mIsDecrypted := true })

/-- DirectVolume::revertDeviceInfo (DirectVolume.cpp:493) -/
def DirectVolume.revertDeviceInfo (v : DirectVolume) : DirectVolume :=
  if v.mIsDecrypted then
    { v with
      mDiskMajor := v.mOrigDiskMajor
      mDiskMinor := v.mOrigDiskMinor
      mPartIdx := v.mOrigPartIdx
      mPartMinors := v.mOrigPartMinors
      mIsDecrypted := false }
  else v

/-! ## Volume.cpp: unmountVol -/

/-- The name `fuse_%s` of the FUSE service of a volume. -/
def fuseService (label : String) : String := snprintf 64 ("fuse_" ++ label)

/-- Volume::unmountVol, label `out_mounted` (Volume.cpp:805). -/
def Volume.unmountVolOutMounted (env : Env) (s : Sys) : Int × Sys :=
  (-1, Volume.setState env State_Mounted s)

/-- Volume::unmountVol, label `out_nomedia` (Volume.cpp:809). -/
def Volume.unmountVolOutNoMedia (env : Env) (s : Sys) : Int × Sys :=
  (-1, Volume.setState env State_NoMedia s)

/-- Volume::unmountVol, label `fail_remount_secure` (Volume.cpp:797). -/
def Volume.unmountVolFailRemountSecure (env : Env) (providesAsec : Bool) (s : Sys) : Int × Sys :=
  if providesAsec then
    let (rc, s1) := Volume.mountAsecExternal env s
    if rc ≠ 0 then Volume.unmountVolOutNoMedia env s1 else Volume.unmountVolOutMounted env s1
  else Volume.unmountVolOutMounted env s

/-- Volume::unmountVol from the unmount of the real sd card on (Volume.cpp:776-795). -/
def Volume.unmountVolReal (env : Env) (force revert providesAsec : Bool) (s : Sys) : Int × Sys :=
  let (rc, s1) := Volume.doUnmount env s.vol.mMountpoint force s
  if rc ≠ 0 then Volume.unmountVolFailRemountSecure env providesAsec s1
  else if revert ∧ s1.vol.mIsDecrypted then
    let (_, s2) := call env (Call.cryptfs_revert_volume s1.vol.mLabel) s1
    (0, { s2 with vol :=
      { DirectVolume.revertDeviceInfo s2.vol with mCurrentlyMountedKdev := KDEV_NULL } })
  else (0, { s1 with vol := { s1.vol with mCurrentlyMountedKdev := KDEV_NULL } })

/-- Volume::unmountVol from the removal of the secure bindmount on (Volume.cpp:765-795). -/
def Volume.unmountVolSecure (env : Env) (force revert providesAsec : Bool) (s : Sys) :
    Int × Sys :=
  if providesAsec then
    let (rc, s1) := Volume.doUnmount env SEC_ASECDIR_EXT force s
    if rc ≠ 0 then Volume.unmountVolOutMounted env s1
    else Volume.unmountVolReal env force revert providesAsec s1
  else Volume.unmountVolReal env force revert providesAsec s

/-- Volume::unmountVol from the ASEC cleanup on (Volume.cpp:753-795). -/
def Volume.unmountVolCleanupAsec (env : Env) (force revert providesAsec : Bool) (s : Sys) :
    Int × Sys :=
  let (_, s1) := call env (Call.cleanupAsec s.vol.mLabel true) s
  let (_, s2) := call env (Call.property_set "ctl.stop" (fuseService s1.vol.mLabel)) s1
  Volume.unmountVolSecure env force revert providesAsec s2

/-- Volume::unmountVol (Volume.cpp:729); `providesAsec` is computed on entry. -/
def Volume.unmountVol (env : Env) (force revert : Bool) (s : Sys) : Int × Sys :=
  if s.vol.mState ≠ State_Mounted then
    (UNMOUNT_NOT_MOUNTED_ERR, { s with errno := EINVAL })
  else
    let (_, s3) := call env (Call.cleanupISO s.vol.mLabel true)
      (Volume.setState env State_Idle (Volume.setState env State_Unmounting s))
    if s.vol.mFlags.VOL_PROVIDES_ASEC then
      let (_, s4) := call env (Call.usleep (1000 * 1000)) s3
      Volume.unmountVolCleanupAsec env force revert s.vol.mFlags.VOL_PROVIDES_ASEC s4
    else Volume.unmountVolCleanupAsec env force revert s.vol.mFlags.VOL_PROVIDES_ASEC s3

/-! ## Volume.cpp: mountVol -/

/-- The four probes of Volume::mountVol (Volume.cpp:537-577) on one device; the result
is the final value of `!isFatFs && !isNtfsFS && !isExtFs && !isExfatFs`, that is,
whether no driver mounted the device. -/
def Volume.probeFilesystems (env : Env) (devicePath : String) (permMask : Nat) (s : Sys) :
    Bool × Sys :=
  let (isNtfsFS, isFatFs, isExtFs, isExfatFs) := (true, true, true, true)
  let (rN, s1) := call env (Call.Ntfs_doMount devicePath SEC_STGDIR permMask) s
  let (isNtfsFS, isFatFs, isExtFs, isExfatFs) : Bool × Bool × Bool × Bool :=
    if rN.ret ≠ 0 then (false, isFatFs, isExtFs, isExfatFs) else (isNtfsFS, false, false, false)
  let ((isFatFs, isExtFs, isExfatFs), s2) : (Bool × Bool × Bool) × Sys :=
    if isFatFs then
      let (rF, s2) := call env (Call.Fat_doMount devicePath SEC_STGDIR permMask) s1
      if rF.ret ≠ 0 then ((false, isExtFs, isExfatFs), s2) else ((isFatFs, false, false), s2)
    else ((isFatFs, isExtFs, isExfatFs), s1)
  let ((isExtFs, isExfatFs), s3) : (Bool × Bool) × Sys :=
    if isExtFs then
      let (rE, s3) := call env (Call.Extfs_doMount devicePath SEC_STGDIR permMask) s2
      if rE.ret ≠ 0 then ((false, isExfatFs), s3) else ((isExtFs, false), s3)
    else ((isExtFs, isExfatFs), s2)
  let (isExfatFs, s4) : Bool × Sys :=
    if isExfatFs then
      let (rX, s4) := call env (Call.Exfat_doMount devicePath SEC_STGDIR permMask) s3
      if rX.ret ≠ 0 then (false, s4) else (isExfatFs, s4)
    else (isExfatFs, s3)
  (!isFatFs && !isNtfsFS && !isExtFs && !isExfatFs, s4)

/-- The statement `if (getState() == Volume::State_Checking) setState(Volume::State_Idle);`
that precedes the failure returns of Volume::mountVol. -/
def Volume.revertChecking (env : Env) (s : Sys) : Sys :=
  if s.vol.mState = State_Checking then Volume.setState env State_Idle s else s

/-- Volume::mountVol from the start of the FUSE service on (Volume.cpp:616-622). -/
def Volume.mountVolFinish (env : Env) (dev : Nat) (s : Sys) : Int × Sys :=
  let (_, s1) := call env (Call.property_set "ctl.start" (fuseService s.vol.mLabel)) s
  (0, Volume.setState env State_Mounted
    { s1 with vol := { s1.vol with mCurrentlyMountedKdev := dev } })

/-- Volume::mountVol from the move of the staging mount on (Volume.cpp:598-622). -/
def Volume.mountVolMove (env : Env) (providesAsec : Bool) (dev : Nat) (s : Sys) : Int × Sys :=
  let (rc, s1) := Volume.doMoveMount env SEC_STGDIR (some s.vol.mMountpoint) false s
  if rc ≠ 0 then
    if providesAsec then
      let (_, s2) := call env (Call.umount SEC_ASECDIR_EXT) s1
      let (_, s3) := call env (Call.umount SEC_STGDIR) s2
      (-1, Volume.revertChecking env s3)
    else
      let (_, s3) := call env (Call.umount SEC_STGDIR) s1
      (-1, Volume.revertChecking env s3)
  else Volume.mountVolFinish env dev s1

/-- Volume::mountVol from extractMetadata on (Volume.cpp:587-622). -/
def Volume.mountVolSecure (env : Env) (providesAsec : Bool) (devicePath : String) (dev : Nat)
    (s : Sys) : Int × Sys :=
  let (_, s1) := Volume.extractMetadata env devicePath s
  if providesAsec then
    let (rc, s2) := Volume.mountAsecExternal env s1
    if rc ≠ 0 then
      let (_, s3) := call env (Call.umount SEC_STGDIR) s2
      (-1, Volume.revertChecking env s3)
    else Volume.mountVolMove env providesAsec dev s2
  else Volume.mountVolMove env providesAsec dev s1

/-- The body of the `for` loop of Volume::mountVol (Volume.cpp:525-623) for the device
`dev`; every path through the body returns from mountVol. -/
def Volume.mountVolDevice (env : Env) (providesAsec : Bool) (dev : Nat) (s : Sys) : Int × Sys :=
  let (unsupported, s1) :=
    Volume.probeFilesystems env (nodePath (MAJOR dev) (MINOR dev))
      (if providesAsec then 0o007 else 0o002)
      { Volume.setState env State_Checking s with errno := 0 }
  if unsupported then
    -- unsupported filesystem
    (-1, Volume.revertChecking env s1)
  else Volume.mountVolSecure env providesAsec (nodePath (MAJOR dev) (MINOR dev)) dev s1

/-- The `for (i = 0; i < n; i++)` loop of Volume::mountVol over the device nodes, and
the code after it. As the body always returns, only element 0 is ever tried. -/
def Volume.mountVolLoop (env : Env) (providesAsec : Bool) (deviceNodes : List Nat) (s : Sys) :
    Int × Sys :=
  match deviceNodes with
  | dev :: _ => Volume.mountVolDevice env providesAsec dev s
  | [] => (-1, Volume.revertChecking env s)

/-- The text broadcast when mountVol finds no media. -/
def mountFailedMsg (label fuse : String) : String :=
  "Volume " ++ label ++ " " ++ fuse ++ " mount failed - no media"

/-- Volume::mountVol from the decryption block on (Volume.cpp:480-632), entered with
the device nodes found. -/
def Volume.mountVolDecrypt (env : Env) (deviceNodes : List Nat) (s : Sys) : Int × Sys :=
  let (crypto_state, s1) := call env (Call.property_get "ro.crypto.state") s
  if s.vol.mFlags.VOL_PROVIDES_ASEC ∧
      (s.vol.mFlags.VOL_NONREMOVABLE ∧ s.vol.mFlags.VOL_ENCRYPTABLE) ∧
      crypto_state.text = "encrypted" ∧ ¬ s1.vol.mIsDecrypted then
    if deviceNodes.length ≠ 1 then (-1, s1)
    else
      let (r2, s2) := call env (Call.cryptfs_setup_volume s1.vol.mLabel
        (MAJOR (deviceNodes.headD 0)) (MINOR (deviceNodes.headD 0))) s1
      if r2.ret ≠ 0 then (-1, s2)
      else
        let (_, s3) := Volume.createDeviceNode env (snprintf 256 (nodePath r2.major r2.minor))
          r2.major r2.minor s2
        let v4 := (DirectVolume.updateDeviceInfo (snprintf 256 (nodePath r2.major r2.minor))
          r2.major r2.minor s3.vol).2
        -- Get the device nodes again, because they just changed
        if (DirectVolume.getDeviceNodes v4).length = 0 then (-1, { s3 with vol := v4 })
        else Volume.mountVolLoop env s.vol.mFlags.VOL_PROVIDES_ASEC
          (DirectVolume.getDeviceNodes v4) { s3 with vol := v4 }
  else Volume.mountVolLoop env s.vol.mFlags.VOL_PROVIDES_ASEC deviceNodes s1

/-- Volume::mountVol (Volume.cpp:424) -/
def Volume.mountVol (env : Env) (s : Sys) : Int × Sys :=
  let (decrypt_state, s1) := call env (Call.property_get "vold.decrypt") s
  let (encrypt_progress, s2) := call env (Call.property_get "vold.encrypt_progress") s1
  -- Do not mount before the disk password is entered or while encrypting
  if s2.vol.mState = State_NoMedia ∨
      ((decrypt_state.text = "1" ∨ encrypt_progress.text ≠ "") ∧
        s.vol.mFlags.VOL_PROVIDES_ASEC) then
    let (_, s3) := call env (Call.sendBroadcast ResponseCode.VolumeMountFailedNoMedia
      (snprintf 255 (mountFailedMsg s2.vol.mLabel s2.vol.mFuseMountpoint))) s2
    (-1, { s3 with errno := ENODEV })
  else if s2.vol.mState ≠ State_Idle then
    if s2.vol.mState = State_Pending then
      (-1, { s2 with errno := EBUSY, vol := { s2.vol with mRetryMount := true } })
    else (-1, { s2 with errno := EBUSY })
  else
    let (mounted, s3) := Volume.isMountpointMounted env s2.vol.mMountpoint s2
    if mounted then
      -- mCurrentlyMountedKdev = XXX
      (0, Volume.setState env State_Mounted s3)
    else if (DirectVolume.getDeviceNodes s3.vol).length = 0 then (-1, s3)
    else Volume.mountVolDecrypt env (DirectVolume.getDeviceNodes s3.vol) s3

/-! ## Volume.cpp: formatVol, initializeMbr -/

/-- The `disk_info` Volume::initializeMbr builds (Volume.cpp:816-838). -/
def mbrDiskInfo (deviceNode : String) : disk_info :=
  { device := deviceNode
    scheme := "PART_SCHEME_MBR"
    sect_size := 512
    skip_lba := 2048
    num_lba := 0
    num_parts := 1
    part_lst := [{ name := "android_sdcard", active := true, type := "PC_PART_TYPE_FAT32",
                   len_kb := -1 }] }

/-- Volume::initializeMbr (Volume.cpp:815); the allocation is taken to succeed. -/
def Volume.initializeMbr (env : Env) (deviceNode : String) (s : Sys) : Int × Sys :=
  let (r, s1) := call env (Call.apply_disk_config (mbrDiskInfo deviceNode)) s
  (r.ret, s1)

/-- Volume::formatVol, label `err:` (Volume.cpp:389-396), reached with the value of `ret`. -/
def Volume.formatVolErr (env : Env) (ret : Int) (s : Sys) : Int × Sys :=
  if s.vol.mState = State_Formatting then (ret, Volume.setState env State_Idle s)
  else (ret, Volume.setState env State_NoMedia s)

/-- Volume::formatVol from the FAT format on (Volume.cpp:373-396). -/
def Volume.formatVolFat (env : Env) (wipe : Bool) (partNode : Nat) (s : Sys) : Int × Sys :=
  let (rf, s1) :=
    call env (Call.Fat_format (nodePath (MAJOR partNode) (MINOR partNode)) 0 wipe) s
  if rf.ret ≠ 0 then Volume.formatVolErr env (-1) s1
  else
    let (_, s2) := call env (Call.refreshVolumeUUIDAfterFormat s1.vol.mMountpoint) s1
    Volume.formatVolErr env 0 s2

set_option linter.unusedVariables false in
/-- Volume::formatVol (Volume.cpp:333) -/
def Volume.formatVol (env : Env) (wipe : Bool) (s : Sys) : Int × Sys :=
  if s.vol.mState = State_NoMedia then (-1, { s with errno := ENODEV })
  else if s.vol.mState ≠ State_Idle then (-1, { s with errno := EBUSY })
  else
    let (mounted, s1) := Volume.isMountpointMounted env s.vol.mMountpoint s
    if mounted then
      (-1, { Volume.setState env State_Mounted s1 with errno := EBUSY })
    else
      let formatEntireDevice : Bool := decide (s1.vol.mPartIdx = -1)
      let diskNode := DirectVolume.getDiskDevice s1.vol
      let partNode := diskNode
      let formatEntireDevice : Bool := false
      -- Only initialize the MBR if we are formatting the entire device
      if formatEntireDevice then
        let (rc, s3) := Volume.initializeMbr env (nodePath (MAJOR diskNode) (MINOR diskNode))
          (Volume.setState env State_Formatting s1)
        if rc ≠ 0 then Volume.formatVolErr env (-1) s3
        else Volume.formatVolFat env wipe partNode s3
      else Volume.formatVolFat env wipe partNode (Volume.setState env State_Formatting s1)

/-! ## DirectVolume.cpp: block events -/

/-- The loop `for (i = 1; i <= mDiskNumParts; i++) partmask |= (1 << i);` started from
`partmask = 0` (DirectVolume.cpp:217-221). -/
def partMask (mDiskNumParts : Int) : Nat :=
  (List.range mDiskNumParts.toNat).foldl (fun partmask j => partmask ||| shl1 (j + 1)) 0

/-- The text broadcast by handleDiskAdded. -/
def diskInsertedMsg (label fuse : String) (major minor : Int) : String :=
  "Volume " ++ label ++ " " ++ fuse ++ " disk inserted (" ++ toString major ++ ":" ++
    toString minor ++ ")"

/-- The text broadcast by handlePartitionAdded. -/
def partitionAddedMsg (label fuse : String) (major minor : Int) : String :=
  "Volume " ++ label ++ " " ++ fuse ++ " Partition Added (" ++ toString major ++ ":" ++
    toString minor ++ ")"

/-- The text broadcast by handlePartitionRemoved. -/
def badRemovalMsg (label fuse : String) (major minor : Int) : String :=
  "Volume " ++ label ++ " " ++ fuse ++ " bad removal (" ++ toString major ++ ":" ++
    toString minor ++ ")"

/-- DirectVolume::handleDiskAdded (DirectVolume.cpp:205) -/
def DirectVolume.handleDiskAdded (env : Env) (evt : NetlinkEvent) (s : Sys) : Sys :=
  let mDiskNumParts : Int :=
    match evt.NPARTS with
    | some n => n
    | none => 1
  let s1 : Sys := { s with vol := { s.vol with
    mDiskNumParts := mDiskNumParts, mPendingPartMap := partMask mDiskNumParts } }
  if s1.vol.mDiskNumParts = 0 then
    let s2 := Volume.setState env State_Idle s1
    let msg := snprintf 255 (diskInsertedMsg s2.vol.mLabel s2.vol.mFuseMountpoint
      s2.vol.mDiskMajor s2.vol.mDiskMinor)
    (call env (Call.sendBroadcast ResponseCode.VolumeDiskInserted msg) s2).2
  else Volume.setState env State_Pending s1

/-- DirectVolume::handlePartitionAdded (DirectVolume.cpp:243). `MAX_PARTITIONS` is
declared in DirectVolume.h, which is not among the sources, and is a parameter. -/
def DirectVolume.handlePartitionAdded (env : Env) (MAX_PARTITIONS : Int) (evt : NetlinkEvent)
    (s : Sys) : Sys :=
  let major := evt.MAJOR
  let minor := evt.MINOR
  let part_num : Int :=
    match evt.PARTN with
    | some n => n
    | none => 1
  if part_num > MAX_PARTITIONS ∨ part_num < 1 then s
  else
    let s1 : Sys :=
      if part_num > s.vol.mDiskNumParts then
        { s with vol := { s.vol with mDiskNumParts := part_num } }
      else s
    if major ≠ s1.vol.mDiskMajor then s1
    else
      let s2 : Sys := { s1 with vol := { s1.vol with
        mPartMinors := setPartMinor0 s1.vol.mPartMinors minor,
        mPendingPartMap := s1.vol.mPendingPartMap &&& not32 (shl1 part_num.toNat) } }
      if s2.vol.mPendingPartMap = 0 then
        if s2.vol.mState ≠ State_Formatting then
          let s3 := Volume.setState env State_Idle s2
          let msg := snprintf 255 (partitionAddedMsg s3.vol.mLabel s3.vol.mFuseMountpoint
            s3.vol.mDiskMajor s3.vol.mDiskMinor)
          (call env (Call.sendBroadcast ResponseCode.VolumeDiskInserted msg) s3).2
        else s2
      else s2

/-- DirectVolume::handleDiskChanged (DirectVolume.cpp:300) -/
def DirectVolume.handleDiskChanged (env : Env) (evt : NetlinkEvent) (s : Sys) : Sys :=
  let major := evt.MAJOR
  let minor := evt.MINOR
  if major ≠ s.vol.mDiskMajor ∨ minor ≠ s.vol.mDiskMinor then s
  else
    let mDiskNumParts : Int :=
      match evt.NPARTS with
      | some n => n
      | none => 1
    let s1 : Sys := { s with vol := { s.vol with
      mDiskNumParts := mDiskNumParts, mPendingPartMap := partMask mDiskNumParts } }
    if s1.vol.mState ≠ State_Formatting then
      if s1.vol.mDiskNumParts = 0 then Volume.setState env State_Idle s1
      else Volume.setState env State_Pending s1
    else s1

/-- DirectVolume::handlePartitionChanged (DirectVolume.cpp:333): it only logs. -/
def DirectVolume.handlePartitionChanged (_evt : NetlinkEvent) (s : Sys) : Sys := s

/-- The `bad removal` broadcast of handlePartitionRemoved (DirectVolume.cpp:377-380 and
407-410). -/
def DirectVolume.broadcastBadRemoval (env : Env) (evt : NetlinkEvent) (s : Sys) : Sys :=
  (call env (Call.sendBroadcast ResponseCode.VolumeDiskRemoved
    (snprintf 255 (badRemovalMsg s.vol.mLabel s.vol.mFuseMountpoint evt.MAJOR evt.MINOR))) s).2

/-- DirectVolume::handlePartitionRemoved (DirectVolume.cpp:354). The result is `none`
when the function does not return: in `State_Checking` it polls a state that nothing in
this sequential program changes. -/
def DirectVolume.handlePartitionRemoved (env : Env) (evt : NetlinkEvent) (s : Sys) :
    Option Sys :=
  if s.vol.mState = State_Checking then none
  else if s.vol.mState ≠ State_Mounted ∧ s.vol.mState ≠ State_Shared then
    some (DirectVolume.broadcastBadRemoval env evt (Volume.setState env State_NoMedia s))
  else if MKDEV evt.MAJOR evt.MINOR = s.vol.mCurrentlyMountedKdev then
    -- Yikes, our mounted partition is going away!
    let (rc, s1) := Volume.unmountVol env true false s
    if rc ≠ 0 then some (DirectVolume.broadcastBadRemoval env evt s1)
    else some (DirectVolume.broadcastBadRemoval env evt (Volume.setState env State_NoMedia s1))
  else if s.vol.mState = State_Shared then
    -- removed during mass storage
    let (_, s1) := call env (Call.unshareVolume s.vol.mLabel "ums") s
    some (DirectVolume.broadcastBadRemoval env evt (Volume.setState env State_NoMedia s1))
  else some (DirectVolume.broadcastBadRemoval env evt s)

/-- DirectVolume::handleDiskRemoved (DirectVolume.cpp:339) -/
def DirectVolume.handleDiskRemoved (env : Env) (evt : NetlinkEvent) (s : Sys) : Option Sys :=
  if s.vol.mState ≠ State_Pending then DirectVolume.handlePartitionRemoved env evt s
  else some (Volume.setState env State_NoMedia s)

/-- DirectVolume::handleBlockEvent (DirectVolume.cpp:109): the value returned and the
state left, or `none` when the removal handler does not return. -/
def DirectVolume.handleBlockEvent (env : Env) (MAX_PARTITIONS : Int) (evt : NetlinkEvent)
    (s : Sys) : Option (Int × Sys) :=
  let dp := evt.DEVPATH
  let s0 : Sys := { s with errno := ENODEV }
  -- Only the volumes specified in the fstab can have paths
  if s0.vol.mPaths.length ≠ 0 ∧ ¬ s0.vol.mPaths.any (fun it => it.data.isPrefixOf dp.data) then
    some (-1, s0)
  else
    -- We can handle this disk
    let action := evt.action
    let devtype := evt.DEVTYPE
    let partnMismatch : Bool :=
      if devtype = "partition" then
        match evt.PARTN with
        | some tmp => decide (tmp ≠ s0.vol.mPartIdx)
        | none => true
      else false
    if partnMismatch then some (-1, s0)
    else if action = NlActionAdd then
      let major := evt.MAJOR
      let minor := evt.MINOR
      if s0.vol.mState ≠ State_NoMedia then some (0, s0)
      else
        let s1 : Sys := { s0 with vol := { s0.vol with
          mDiskMajor := evt.MAJOR, mDiskMinor := evt.MINOR } }
        let nodepath := snprintf 255 (nodePath major minor)
        let (_, s2) := Volume.createDeviceNode env nodepath major minor s1
        if devtype = "disk" then some (0, DirectVolume.handleDiskAdded env evt s2)
        else some (0, DirectVolume.handlePartitionAdded env MAX_PARTITIONS evt s2)
    else if action = NlActionRemove then
      if s0.vol.mState = State_NoMedia then some (0, s0)
      else if devtype = "disk" then (DirectVolume.handleDiskRemoved env evt s0).map (fun t => (0, t))
      else (DirectVolume.handlePartitionRemoved env evt s0).map (fun t => (0, t))
    else if action = NlActionChange then
      if devtype = "disk" then some (0, DirectVolume.handleDiskChanged env evt s0)
      else some (0, DirectVolume.handlePartitionChanged evt s0)
    else some (0, s0)

/-! ## Observations on runs -/

/-- Feed kernel events to DirectVolume::handleBlockEvent one after the other. -/
def handleBlockEvents (env : Env) (MAX_PARTITIONS : Int) : List NetlinkEvent → Sys → Option Sys
  | [], s => some s
  | evt :: rest, s =>
    match DirectVolume.handleBlockEvent env MAX_PARTITIONS evt s with
    | none => none
    | some (_, s1) => handleBlockEvents env MAX_PARTITIONS rest s1

/-- The texts broadcast with response code `code`, in order. -/
def broadcasts (code : ResponseCode) (trace : List Call) : List String :=
  trace.filterMap (fun c =>
    match c with
    | Call.sendBroadcast c1 msg => if c1 = code then some msg else none
    | _ => none)

/-- An environment in which every call succeeds and hands out no data. -/
def envOk : Env := fun _ _ => Reply.ok

/-- A volume as the constructor leaves it (label `sdcard1`, partition 1 of the disk
under `/sys/block/sdb`), in `State_NoMedia`. -/
def vol0 : DirectVolume :=
  { mLabel := "sdcard1", mState := State_NoMedia,
    mFlags := { VOL_PROVIDES_ASEC := false, VOL_NONREMOVABLE := false, VOL_ENCRYPTABLE := false },
    mCurrentlyMountedKdev := KDEV_NULL, mPartIdx := 1, mRetryMount := false, mDebug := false,
    mUuid := none, mUserLabel := none,
    mPaths := ["/sys/block/sdb"], mMountpoint := "/mnt/media_rw/sdcard1",
    mFuseMountpoint := "/storage/sdcard1",
    mPartMinors := [-1], mOrigPartMinors := [0], mPendingPartMap := 0,
    mDiskMajor := -1, mDiskMinor := -1, mDiskNumParts := 0,
    mOrigDiskMajor := 0, mOrigDiskMinor := 0, mOrigPartIdx := 0, mIsDecrypted := false }

/-- The program state around `vol0` before any call. -/
def sys0 : Sys := { vol := vol0, errno := 0, trace := [] }

/-- The uevent `add DEVPATH=/sys/block/sdb DEVTYPE=disk MAJOR=8 MINOR=16 NPARTS=1`. -/
def evtAddDisk : NetlinkEvent :=
  { action := NlActionAdd, DEVPATH := "/sys/block/sdb", DEVTYPE := "disk",
    MAJOR := 8, MINOR := 16, NPARTS := some 1, PARTN := none }

/-- The uevent `add DEVPATH=/sys/block/sdb/sdb1 DEVTYPE=partition MAJOR=8 MINOR=17 PARTN=1`. -/
def evtAddPart : NetlinkEvent :=
  { action := NlActionAdd, DEVPATH := "/sys/block/sdb/sdb1", DEVTYPE := "partition",
    MAJOR := 8, MINOR := 17, NPARTS := none, PARTN := some 1 }

/-- The broadcast setState sends for a change from the current state to `st`. -/
def stateChangeCall (s : Sys) (st : State) : Call :=
  Call.sendBroadcast ResponseCode.VolumeStateChange
    (snprintf 255 (stateChangedMsg s.vol.mLabel s.vol.mFuseMountpoint s.vol.mState st))

/-- The volume `vol0` after its disk was announced with one partition and a mount was
asked for meanwhile: Pending, partition 1 awaited, `mRetryMount` set. -/
def volPendingRetry : DirectVolume :=
  { vol0 with mState := State_Pending, mRetryMount := true, mPendingPartMap := 2,
              mDiskMajor := 8, mDiskMinor := 16, mDiskNumParts := 1 }

/-- The program state around `volPendingRetry`. -/
def sysPendingRetry : Sys := { vol := volPendingRetry, errno := EBUSY, trace := [] }

/-- The program state after `sys0` handled the uevent `evtAddDisk`: the volume is
Pending and awaits partition 1. -/
def sysPending : Sys :=
  { vol := { vol0 with mState := State_Pending, mPendingPartMap := 2,
                       mDiskMajor := 8, mDiskMinor := 16, mDiskNumParts := 1 },
    errno := ENODEV,
    trace := [Call.mknod "/dev/block/vold/8:16" 2064,
      Call.sendBroadcast ResponseCode.VolumeStateChange
        "Volume sdcard1 /storage/sdcard1 state changed from 0 (No-Media) to 2 (Pending)"] }

/-- The program state after `sys0` handled the uevent `evtAddPart`: the volume is Idle
on partition 8:17, nothing is mounted (`mCurrentlyMountedKdev` is null). -/
def sysIdle : Sys :=
  { vol := { vol0 with mState := State_Idle, mDiskMajor := 8, mDiskMinor := 17,
                       mDiskNumParts := 1, mPartMinors := [17] },
    errno := ENODEV,
    trace := [Call.mknod "/dev/block/vold/8:17" 2065,
      Call.sendBroadcast ResponseCode.VolumeStateChange
        "Volume sdcard1 /storage/sdcard1 state changed from 0 (No-Media) to 1 (Idle-Unmounted)",
      Call.sendBroadcast ResponseCode.VolumeDiskInserted
        "Volume sdcard1 /storage/sdcard1 Partition Added (8:17)"] }

/-- An environment in which /proc/mounts already lists the mountpoint of `vol0` and
every other call succeeds. -/
def envAlreadyMounted : Env := fun _ c =>
  match c with
  | Call.fopen_proc_mounts =>
    { Reply.ok with lines :=
        ["rootfs / rootfs ro 0 0\n",
         "/dev/block/vold/8:17 /mnt/media_rw/sdcard1 vfat rw,nosuid,nodev 0 0\n"] }
  | _ => Reply.ok

/-- From `s` to `t` calls were made, and all of them satisfy `K`. -/
def Ext (K : Call → Bool) (s t : Sys) : Prop :=
  ∃ cs, t.trace = s.trace ++ cs ∧ ∀ c ∈ cs, K c = true

/-- From `s` to `t` the volume object is untouched and the calls made all satisfy `K`. -/
def Steps (K : Call → Bool) (s t : Sys) : Prop :=
  t.vol = s.vol ∧ Ext K s t

/-- The calls Volume::mountAsecExternal makes. -/
def isAsecSetupCall : Call → Bool
  | Call.access _ => true
  | Call.rename _ _ => true
  | Call.mkdir _ _ => true
  | Call.stat _ => true
  | Call.mount _ _ MountFlag.MS_BIND => true
  | _ => false

/-- The calls Volume::doMoveMount makes. -/
def isMoveMountCall : Call → Bool
  | Call.mkdir _ _ => true
  | Call.mount _ _ MountFlag.MS_MOVE => true
  | Call.killProcessesWithOpenFiles _ _ => true
  | Call.usleep _ => true
  | _ => false

/-- The calls Volume::doUnmount makes. -/
def isUnmountCall : Call → Bool
  | Call.umount _ => true
  | Call.killProcessesWithOpenFiles _ _ => true
  | Call.usleep _ => true
  | _ => false

/-- The calls to the filesystem drivers. -/
def isProbeCall : Call → Bool
  | Call.Ntfs_doMount _ _ _ => true
  | Call.Fat_doMount _ _ _ => true
  | Call.Extfs_doMount _ _ _ => true
  | Call.Exfat_doMount _ _ _ => true
  | _ => false

/-- The calls Volume::extractMetadata makes. -/
def isMetadataCall : Call → Bool
  | Call.popen_blkid _ => true
  | Call.sendBroadcast ResponseCode.VolumeUuidChange _ => true
  | Call.sendBroadcast ResponseCode.VolumeUserLabelChange _ => true
  | _ => false

/-- The broadcasts of Volume::setState. -/
def isStateChangeCall : Call → Bool
  | Call.sendBroadcast ResponseCode.VolumeStateChange _ => true
  | _ => false

/-- The probes of Volume::mountVol as a decision tree: each driver is called when all
drivers before it failed (`probeFilesystems_eq_probeTree` shows that this is what the
flags of `Volume.probeFilesystems` amount to). -/
def probeTree (env : Env) (devicePath : String) (permMask : Nat) (s : Sys) : Bool × Sys :=
  let (rN, s1) := call env (Call.Ntfs_doMount devicePath SEC_STGDIR permMask) s
  if rN.ret ≠ 0 then
    let (rF, s2) := call env (Call.Fat_doMount devicePath SEC_STGDIR permMask) s1
    if rF.ret ≠ 0 then
      let (rE, s3) := call env (Call.Extfs_doMount devicePath SEC_STGDIR permMask) s2
      if rE.ret ≠ 0 then
        let (rX, s4) := call env (Call.Exfat_doMount devicePath SEC_STGDIR permMask) s3
        if rX.ret ≠ 0 then (true, s4) else (false, s4)
      else (false, s3)
    else (false, s2)
  else (false, s1)

/-- The first test of Volume::mountVol (Volume.cpp:444-445): the volume has no media,
or it provides ASEC storage while `vold.decrypt` is "1" or `vold.encrypt_progress` is
set. The properties are read as mountVol reads them, from the program state `s`. -/
def Volume.mountGate (env : Env) (s : Sys) : Bool :=
  decide (s.vol.mState = State_NoMedia) ||
    ((decide ((env s.trace (Call.property_get "vold.decrypt")).text = "1") ||
      decide ((env (s.trace ++ [Call.property_get "vold.decrypt"])
        (Call.property_get "vold.encrypt_progress")).text ≠ "")) &&
      s.vol.mFlags.VOL_PROVIDES_ASEC)

/-- How the probe-and-mount part of mountVol leaves the volume object, started on the
volume `v0` for the device `dev`: on success (`rc = 0`) Mounted with `dev` recorded, on
failure (`rc = -1`) Idle; in both cases only the UUID and the user label may differ
otherwise. -/
def MountOutcome (v0 : DirectVolume) (dev : Nat) (rc : Int) (v : DirectVolume) : Prop :=
  ∃ u l,
    (rc = 0 ∧ v = { v0 with mUuid := u, mUserLabel := l, mCurrentlyMountedKdev := dev,
                            mState := State_Mounted }) ∨
    (rc = -1 ∧ v = { v0 with mUuid := u, mUserLabel := l, mState := State_Idle })

/-- The Pending volume of `sysPending`, but providing ASEC storage. -/
def sysPendingAsec : Sys :=
  { sysPending with vol := { sysPending.vol with
      mFlags := { VOL_PROVIDES_ASEC := true, VOL_NONREMOVABLE := false,
                  VOL_ENCRYPTABLE := false } } }

/-- An environment in which the property `vold.decrypt` is "1" (the disk password has
not been entered yet) and every other call succeeds. -/
def envDecryptPending : Env := fun _ c =>
  match c with
  | Call.property_get "vold.decrypt" => { Reply.ok with text := "1" }
  | _ => Reply.ok

/-- A move mount: `mount` with `MS_MOVE`. -/
def isMoveMount : Call → Bool
  | Call.mount _ _ MountFlag.MS_MOVE => true
  | _ => false

/-- The calls Volume::mountVol makes between entering Checking and starting the FUSE
service: driver mounts, metadata extraction, set-up of the secure area, move mount. -/
def isMountMidCall (c : Call) : Bool :=
  isProbeCall c || isMetadataCall c || isAsecSetupCall c || isMoveMountCall c

/-- The program state in which Volume::mountVol reaches its loop over the device nodes
when it returns at none of the tests before and needs no decryption set-up: the
properties `vold.decrypt` and `vold.encrypt_progress`, /proc/mounts and the property
`ro.crypto.state` have been read. -/
def Volume.mountVolPrelude (env : Env) (s : Sys) : Sys :=
  (call env (Call.property_get "ro.crypto.state")
    (Volume.isMountpointMounted env s.vol.mMountpoint
      (call env (Call.property_get "vold.encrypt_progress")
        (call env (Call.property_get "vold.decrypt") s).2).2).2).2

/-- What Volume::isMountpointMounted answers when Volume::mountVol, called in the
program state `s`, asks whether its mountpoint is mounted. -/
def Volume.mountpointFound (env : Env) (s : Sys) : Bool :=
  (Volume.isMountpointMounted env s.vol.mMountpoint
    (call env (Call.property_get "vold.encrypt_progress")
      (call env (Call.property_get "vold.decrypt") s).2).2).1

/-- The calls Volume::mountVol makes between a successful probe and the start of the
FUSE service: metadata extraction, set-up of the secure area, move mount. -/
def isTailMidCall (c : Call) : Bool :=
  isMetadataCall c || isAsecSetupCall c || isMoveMountCall c

/-- The calls Volume::unmountVol makes from the removal of the secure bindmount on:
unmounts with their kills and sleeps, the re-binding of the secure area, the crypto
revert, and the state-change broadcast. -/
def isUnmountTailCall : Call → Bool
  | Call.umount _ => true
  | Call.killProcessesWithOpenFiles _ _ => true
  | Call.usleep _ => true
  | Call.access _ => true
  | Call.rename _ _ => true
  | Call.mkdir _ _ => true
  | Call.stat _ => true
  | Call.mount _ _ MountFlag.MS_BIND => true
  | Call.cryptfs_revert_volume _ => true
  | Call.sendBroadcast ResponseCode.VolumeStateChange _ => true
  | _ => false

/-- How Volume::unmountVol leaves the volume object, entered with the volume `v0` in
Mounted: on success (`rc = 0`) Idle with no mounted device recorded, the device
information reverted or not; on failure (`rc = -1`) Mounted or NoMedia, nothing else
changed. -/
def UnmountOutcome (v0 : DirectVolume) (rc : Int) (v : DirectVolume) : Prop :=
  (rc = 0 ∧
    (v = { v0 with mState := State_Idle, mCurrentlyMountedKdev := KDEV_NULL } ∨
     v = { DirectVolume.revertDeviceInfo v0 with
           mState := State_Idle, mCurrentlyMountedKdev := KDEV_NULL })) ∨
  (rc = -1 ∧ (v = { v0 with mState := State_Mounted } ∨ v = { v0 with mState := State_NoMedia }))

/-- The calls Volume::unmountVol makes. -/
def isUnmountVolCall (c : Call) : Bool :=
  isUnmountTailCall c ||
    match c with
    | Call.cleanupISO _ _ => true
    | Call.cleanupAsec _ _ => true
    | Call.property_set _ _ => true
    | _ => false

/-- The uevent `remove DEVTYPE=partition MAJOR=8 MINOR=17 PARTN=1` under /sys/block/sdb. -/
def evtRemovePart : NetlinkEvent :=
  { action := NlActionRemove, DEVPATH := "/sys/block/sdb/sdb1", DEVTYPE := "partition",
    MAJOR := 8, MINOR := 17, NPARTS := none, PARTN := some 1 }

/-- The volume of `sysIdle` mounted from partition 8:17. -/
def sysMounted : Sys :=
  { vol := { sysIdle.vol with mState := State_Mounted, mCurrentlyMountedKdev := 2065 },
    errno := 0, trace := [] }

/-- An environment in which every umount fails with EBUSY (files are held open and the
holders do not go away) and every other call succeeds. -/
def envUmountBusy : Env := fun _ c =>
  match c with
  | Call.umount _ => Reply.fail EBUSY
  | _ => Reply.ok

/-- The container cleanups `VolumeManager::cleanupISO` and `VolumeManager::cleanupAsec`. -/
def isCleanupCall : Call → Bool
  | Call.cleanupISO _ _ => true
  | Call.cleanupAsec _ _ => true
  | _ => false

/-- The device node Volume::formatVol formats: `/dev/block/vold/%d:%d` of the disk
device (`partNode = diskNode`). -/
def Volume.formatDevicePath (v : DirectVolume) : String :=
  nodePath (MAJOR (DirectVolume.getDiskDevice v)) (MINOR (DirectVolume.getDiskDevice v))

/-- The reply `Fat::format` gives when Volume::formatVol, called in the program state
`s` on an Idle volume whose mountpoint is not mounted, formats the device. -/
def Volume.fatFormatReply (env : Env) (wipe : Bool) (s : Sys) : Reply :=
  env (s.trace ++ [Call.fopen_proc_mounts,
      Call.sendBroadcast ResponseCode.VolumeStateChange
        (snprintf 255 (stateChangedMsg s.vol.mLabel s.vol.mFuseMountpoint
          State_Idle State_Formatting))])
    (Call.Fat_format (Volume.formatDevicePath s.vol) 0 wipe)

/-- An environment in which `Fat::format` fails (EIO) and every other call succeeds. -/
def envFormatFails : Env := fun _ c =>
  match c with
  | Call.Fat_format _ _ _ => Reply.fail 5
  | _ => Reply.ok

/-- The Idle volume of `sysIdle` with partition index "whole device" (-1), on the disk
8:16 without partitions. -/
def sysIdleWhole : Sys :=
  { sysIdle with vol := { sysIdle.vol with
      mPartIdx := -1, mDiskMinor := 16, mDiskNumParts := 0, mPartMinors := [-1] } }

/-- The test of DirectVolume::handleBlockEvent on the uevent path (DirectVolume.cpp:124-134):
the volume has no sysfs paths, or one of its paths is a prefix of `dp`. -/
def DirectVolume.claimsPath (v : DirectVolume) (dp : String) : Bool :=
  decide (v.mPaths.length = 0) || v.mPaths.any (fun it => it.data.isPrefixOf dp.data)

/-- The tests of DirectVolume::handleBlockEvent that an event has to pass before its
action is looked at (DirectVolume.cpp:124-155): the path is claimed and, for a partition
event, `PARTN` is present and equal to the partition index of the volume. -/
def DirectVolume.acceptsEvent (v : DirectVolume) (evt : NetlinkEvent) : Bool :=
  DirectVolume.claimsPath v evt.DEVPATH &&
    (decide (evt.DEVTYPE ≠ "partition") || decide (evt.PARTN = some v.mPartIdx))

/-- The volume `vol0` configured with partition index 0, in NoMedia before any call. -/
def sysNoMediaIdx0 : Sys := { sys0 with vol := { sys0.vol with mPartIdx := 0 } }

/-- The uevent `add DEVPATH=/sys/block/sdb/sdb0 DEVTYPE=partition MAJOR=8 MINOR=16 PARTN=0`. -/
def evtAddPartZero : NetlinkEvent :=
  { action := NlActionAdd, DEVPATH := "/sys/block/sdb/sdb0", DEVTYPE := "partition",
    MAJOR := 8, MINOR := 16, NPARTS := none, PARTN := some 0 }

/-- The uevent `add DEVPATH=/sys/block/sdb/sdb2 DEVTYPE=partition MAJOR=9 MINOR=18 PARTN=2`:
a second partition whose major is not that of the disk 8:16. -/
def evtAddPartOtherMajor : NetlinkEvent :=
  { action := NlActionAdd, DEVPATH := "/sys/block/sdb/sdb2", DEVTYPE := "partition",
    MAJOR := 9, MINOR := 18, NPARTS := none, PARTN := some 2 }

/-- The uevent `add DEVPATH=/sys/block/sdc DEVTYPE=disk MAJOR=8 MINOR=32 NPARTS=1`, for a
disk that `vol0` does not claim. -/
def evtAddOtherDisk : NetlinkEvent :=
  { action := NlActionAdd, DEVPATH := "/sys/block/sdc", DEVTYPE := "disk",
    MAJOR := 8, MINOR := 32, NPARTS := some 1, PARTN := none }

/-- The volume of `sysPending` back in NoMedia after its disk was removed: partition 1
is still marked as awaited in the pending mask. -/
def sysNoMediaAwaiting : Sys :=
  { vol := { sysPending.vol with mState := State_NoMedia }, errno := 0, trace := [] }

/-- The uevent `add DEVPATH=/sys/block/sdb/sdb1 DEVTYPE=partition MAJOR=8 MINOR=17`,
without `PARTN`. -/
def evtAddPartNoPartn : NetlinkEvent := { evtAddPart with PARTN := none }

/-- What the handling of an Add(disk) event announcing `n` partitions leaves, from the
program state `s` to the program state `t`: pending_part_mask is the 32-bit value of
the C expression `((1 << (n+1)) - 1) & ~1`, that is, exactly the bits 1..n are set;
with n = 0 the volume is in Idle and one DiskInserted broadcast has been sent, naming
the disk device; otherwise the volume is in Pending and no DiskInserted broadcast has
been sent. -/
def AddDiskOutcome (n : Int) (s t : Sys) : Prop :=
  t.vol.mPendingPartMap = (shl1 (n.toNat + 1) - 1) &&& not32 1 ∧
  (∀ k : Nat, t.vol.mPendingPartMap.testBit k = true ↔ 1 ≤ k ∧ (k : Int) ≤ n) ∧
  (n = 0 → t.vol.mState = State_Idle ∧
    broadcasts ResponseCode.VolumeDiskInserted t.trace =
      broadcasts ResponseCode.VolumeDiskInserted s.trace ++
        [snprintf 255 (diskInsertedMsg s.vol.mLabel s.vol.mFuseMountpoint
          t.vol.mDiskMajor t.vol.mDiskMinor)]) ∧
  (n ≠ 0 → t.vol.mState = State_Pending ∧
    broadcasts ResponseCode.VolumeDiskInserted t.trace =
      broadcasts ResponseCode.VolumeDiskInserted s.trace)

/-- The uevent `add DEVPATH=/sys/block/sdb DEVTYPE=disk MAJOR=8 MINOR=16 NPARTS=0`. -/
def evtAddDiskNoParts : NetlinkEvent := { evtAddDisk with NPARTS := some 0 }

/-- The uevent `remove DEVPATH=/sys/block/sdb DEVTYPE=disk MAJOR=8 MINOR=16`. -/
def evtRemoveDisk : NetlinkEvent :=
  { action := NlActionRemove, DEVPATH := "/sys/block/sdb", DEVTYPE := "disk",
    MAJOR := 8, MINOR := 16, NPARTS := none, PARTN := none }

/-- The uevent `change DEVPATH=/sys/block/sdb DEVTYPE=disk MAJOR=8 MINOR=16 NPARTS=1`. -/
def evtChangeDisk : NetlinkEvent :=
  { action := NlActionChange, DEVPATH := "/sys/block/sdb", DEVTYPE := "disk",
    MAJOR := 8, MINOR := 16, NPARTS := some 1, PARTN := none }


/-- The move mounts among the calls `cs`, made after the calls `pre` with `errno` at `e`:
for each, the value `mount` returned and `errno` after it, which is what the program
looks at. The replies are those the environment gave at that point of the run. -/
def moveMountAttempts (env : Env) : List Call → Int → List Call → List (Int × Int)
  | _, _, [] => []
  | pre, e, c :: rest =>
    if isMoveMount c then
      ((env pre c).ret, (env pre c).err.getD e) ::
        moveMountAttempts env (pre ++ [c]) ((env pre c).err.getD e) rest
    else moveMountAttempts env (pre ++ [c]) ((env pre c).err.getD e) rest

/-- The move-mount contract in the words of the spec, read over the outcomes of the
attempts made (value returned, `errno`), in order, with `budget` attempts allowed: an
attempt that succeeds is the last one and the result is 0; a failure that is not Busy
is the last one and the result is -1; a Busy failure is followed by the next attempt
while the budget lasts; when Busy failures have used up the budget the result is -1.
The value is `none` for a sequence of attempts that the contract does not allow. -/
def moveMountContract : Nat → List (Int × Int) → Option Int
  | 0, [] => some (-1)
  | budget + 1, (ret, err) :: rest =>
    if ret = 0 then (if rest = [] then some 0 else none)
    else if err ≠ EBUSY then (if rest = [] then some (-1) else none)
    else moveMountContract budget rest
  | _, _ => none

/-- The `action` values handed to Process::killProcessesWithOpenFiles, as the comments
in Volume::doMoveMount name them: 1 sends SIGHUP, 2 sends SIGKILL; 0 sends nothing. -/
def ACTION_NONE : Int := 0
/-- See `ACTION_NONE`. -/
def ACTION_SIGHUP : Int := 1
/-- See `ACTION_NONE`. -/
def ACTION_SIGKILL : Int := 2

/-- The signal for the holders of open files after a failed attempt, in the words of
the spec: with `force`, SIGHUP when 2 retries remain and SIGKILL when 1 remains;
nothing otherwise. -/
def retrySignal (force : Bool) (retriesLeft : Nat) : Int :=
  if force = true ∧ retriesLeft = 2 then ACTION_SIGHUP
  else if force = true ∧ retriesLeft = 1 then ACTION_SIGKILL
  else ACTION_NONE

/-- The calls the retry loop is to make, given the outcomes of its attempts in order and
the number `budget` of attempts allowed: each attempt is a move mount; after one that
fails with Busy come the signal to the holders of files on the source path and a pause
of 250 ms, and then the next attempt; after any other attempt comes nothing. -/
def moveMountCalls (src dst : String) (force : Bool) : Nat → List (Int × Int) → List Call
  | retriesLeft + 1, (ret, err) :: rest =>
    Call.mount src dst MountFlag.MS_MOVE ::
      (if ret ≠ 0 ∧ err = EBUSY then
        [Call.killProcessesWithOpenFiles src (retrySignal force retriesLeft),
         Call.usleep 250000] ++ moveMountCalls src dst force retriesLeft rest
       else [])
  | _, _ => []

/-- An environment in which every move mount fails with EBUSY and every other call
succeeds. -/
def envMoveBusy : Env := fun _ c =>
  match c with
  | Call.mount _ _ MountFlag.MS_MOVE => Reply.fail EBUSY
  | _ => Reply.ok

/-- An environment in which the first two move mounts fail with EBUSY, the third
succeeds, and every other call succeeds. -/
def envMoveThird : Env := fun pre c =>
  match c with
  | Call.mount _ _ MountFlag.MS_MOVE =>
    if (pre.filter isMoveMount).length < 2 then Reply.fail EBUSY else Reply.ok
  | _ => Reply.ok

/-- A call of `umount`. -/
def isUmount : Call → Bool
  | Call.umount _ => true
  | _ => false

/-- The unmount attempts among the calls `cs`, made after the calls `pre` with `errno` at
`e`: for each, the value `umount` returned and `errno` after it, which is what the
program looks at. The replies are those the environment gave at that point of the run. -/
def umountAttempts (env : Env) : List Call → Int → List Call → List (Int × Int)
  | _, _, [] => []
  | pre, e, c :: rest =>
    if isUmount c then
      ((env pre c).ret, (env pre c).err.getD e) ::
        umountAttempts env (pre ++ [c]) ((env pre c).err.getD e) rest
    else umountAttempts env (pre ++ [c]) ((env pre c).err.getD e) rest

/-- An unmount attempt that counts as done: it succeeded, or failed with EINVAL or
ENOENT. -/
def umountSettled (o : Int × Int) : Bool :=
  decide (o.1 = 0) || decide (o.2 = EINVAL) || decide (o.2 = ENOENT)

/-- The doUnmount contract in the words of the spec, read over the outcomes of the
attempts made, in order, with `budget` attempts allowed: the first attempt that
succeeds or fails with EINVAL or ENOENT is the last one and the result is 0; any other
attempt is followed by the next one while the budget lasts; when the budget is used up
the result is -1. The value is `none` for a sequence the contract does not allow. -/
def unmountContract : Nat → List (Int × Int) → Option Int
  | 0, [] => some (-1)
  | budget + 1, o :: rest =>
    if umountSettled o then (if rest = [] then some 0 else none)
    else unmountContract budget rest
  | _, _ => none

/-- The number of unmount attempts the doUnmount contract allows: one immediate
attempt and one retry, and with `force` twenty rounds more. -/
def unmountBudget (force : Bool) : Nat := if force then 22 else 2

/-- What goes with attempt number `i` (counted from 0) of doUnmount: the immediate
attempt is the umount alone; the retry comes after a sleep of 5 s; each later round
sends SIGHUP and SIGKILL to the holders of open files and sleeps 2 s before its umount. -/
def unmountRound (path : String) (i : Nat) : List Call :=
  if i = 0 then [Call.umount path]
  else if i = 1 then [Call.usleep 5000000, Call.umount path]
  else [Call.killProcessesWithOpenFiles path ACTION_SIGHUP,
        Call.killProcessesWithOpenFiles path ACTION_SIGKILL,
        Call.usleep 2000000, Call.umount path]

/-- The calls doUnmount is to make, given the outcomes of its attempts in order, from
attempt number `i` on with `budget` attempts left: the round of each attempt, and the
next round exactly after an attempt that does not settle the unmount. -/
def unmountCalls (path : String) : Nat → Nat → List (Int × Int) → List Call
  | i, budget + 1, o :: rest =>
    unmountRound path i ++
      (if umountSettled o then [] else unmountCalls path (i + 1) budget rest)
  | _, _, _ => []

/-- The program state in which Volume::unmountVol, called on a Mounted volume in the
program state `s`, starts to unmount (Volume.cpp:742-763): the volume has been set to
Unmounting and to Idle, the ISO containers have been cleaned up, one second has been
slept if the volume provides ASEC storage, the ASEC containers have been cleaned up and
the FUSE service has been told to stop. -/
def Volume.unmountVolPrelude (env : Env) (s : Sys) : Sys :=
  let s3 := (call env (Call.cleanupISO s.vol.mLabel true)
    (Volume.setState env State_Idle (Volume.setState env State_Unmounting s))).2
  let s4 := if s.vol.mFlags.VOL_PROVIDES_ASEC then (call env (Call.usleep (1000 * 1000)) s3).2
    else s3
  let s5 := (call env (Call.cleanupAsec s4.vol.mLabel true) s4).2
  (call env (Call.property_set "ctl.stop" (fuseService s5.vol.mLabel)) s5).2

/-- The calls Volume::unmountVol makes while it unmounts and all goes well: unmounts
with their kills and sleeps, and the crypto revert. -/
def isUnmountQuietCall : Call → Bool
  | Call.umount _ => true
  | Call.killProcessesWithOpenFiles _ _ => true
  | Call.usleep _ => true
  | Call.cryptfs_revert_volume _ => true
  | _ => false

/-- The program state in which Volume::unmountVol, called on a Mounted volume in the
program state `s`, unmounts its mountpoint: after the prelude and, if the volume
provides ASEC storage, after the unmount of the secure bind at /mnt/secure/asec. -/
def Volume.unmountVolBindGone (env : Env) (force : Bool) (s : Sys) : Sys :=
  if s.vol.mFlags.VOL_PROVIDES_ASEC then
    (Volume.doUnmount env SEC_ASECDIR_EXT force (Volume.unmountVolPrelude env s)).2
  else Volume.unmountVolPrelude env s

/-- The volume of `sysMounted`, providing ASEC storage. -/
def sysMountedAsec : Sys :=
  { sysMounted with vol := { sysMounted.vol with
      mFlags := { VOL_PROVIDES_ASEC := true, VOL_NONREMOVABLE := false,
                  VOL_ENCRYPTABLE := false } } }

/-- An environment in which the unmount of the mountpoint of `vol0` fails with EBUSY,
the bind mount of the secure area fails too (EINVAL), and every other call succeeds. -/
def envUnmountRebindFails : Env := fun _ c =>
  match c with
  | Call.umount "/mnt/media_rw/sdcard1" => Reply.fail EBUSY
  | Call.mount _ _ MountFlag.MS_BIND => Reply.fail EINVAL
  | _ => Reply.ok

/-- Volume::mountVol after the probes of the device `dev` (Volume.cpp:525-576), entered
in the program state `s`: whether all four drivers failed, and the program state then. -/
def Volume.mountVolProbed (env : Env) (providesAsec : Bool) (dev : Nat) (s : Sys) : Bool × Sys :=
  Volume.probeFilesystems env (nodePath (MAJOR dev) (MINOR dev))
    (if providesAsec then 0o007 else 0o002)
    { Volume.setState env State_Checking s with errno := 0 }

/-- Volume::mountVol after the set-up of the secure area (Volume.cpp:587-596) when a
driver has mounted the device: what mountAsecExternal returned (0 when the volume
provides no ASEC storage and it is not called), and the program state then. -/
def Volume.mountVolBound (env : Env) (providesAsec : Bool) (dev : Nat) (s : Sys) : Int × Sys :=
  if providesAsec then
    Volume.mountAsecExternal env
      (Volume.extractMetadata env (nodePath (MAJOR dev) (MINOR dev))
        (Volume.mountVolProbed env providesAsec dev s).2).2
  else
    (0, (Volume.extractMetadata env (nodePath (MAJOR dev) (MINOR dev))
      (Volume.mountVolProbed env providesAsec dev s).2).2)

/-- Volume::mountVol after the move of the staging mount to the mountpoint
(Volume.cpp:598-602) when the secure area is set up: what doMoveMount returned, and the
program state then. -/
def Volume.mountVolMoved (env : Env) (providesAsec : Bool) (dev : Nat) (s : Sys) : Int × Sys :=
  Volume.doMoveMount env SEC_STGDIR
    (some (Volume.mountVolBound env providesAsec dev s).2.vol.mMountpoint) false
    (Volume.mountVolBound env providesAsec dev s).2

/-- The calls Volume::mountVol makes from entering Checking on when it fails: the state
changes, driver mounts, metadata extraction, set-up of the secure area, move mount, and
the unmounts that roll back. -/
def isMountFailCall (c : Call) : Bool :=
  isMountMidCall c || isStateChangeCall c || isUmount c

/-- An environment in which every move mount fails with EINVAL and every other call
succeeds. -/
def envMoveInval : Env := fun _ c =>
  match c with
  | Call.mount _ _ MountFlag.MS_MOVE => Reply.fail EINVAL
  | _ => Reply.ok


/-! ## Observations for C27 -/

/-- Volume::SEC_ASECDIR_INT -/
def SEC_ASECDIR_INT : String := "/data/app-asec"

/-- AID_SYSTEM of android_filesystem_config.h. -/
def AID_SYSTEM : Int := 1000

/-- The first argument of `SocketClient::sendMsg` in the command handlers: a constant of
ResponseCode.h, by name, or the number obtained at run time from
`ResponseCode::convertFromErrno()`. -/
inductive ReplyCode
  | CommandOkay
  | CommandSyntaxError
  | CommandNoPermission
  | OperationFailed
  | AsecListResult
  | AsecPathResult
  | CryptfsGetfieldResult
  | ofInt (rc : Int)
  deriving DecidableEq, Repr

/-- What a command handler does outside itself: messages to the client, the logged line,
the directory read by `asec list`, the container lock and the container operations of
`VolumeManager`, `ResponseCode::convertFromErrno`, and the `cryptfs_*` functions. The
sector count of `createAsec` is an `unsigned int`; it is `none` when the C expression that
computes it has no defined value (see `asecNumSectors`). -/
inductive CmdCall
  | sendMsg (code : ReplyCode) (msg : String) (addErrno : Bool)
  | SLOGD (text : String)
  | opendir (directory : String)
  | closedir
  | convertFromErrno
  | lockActiveContainers
  | unlockActiveContainers
  | createAsec (id : String) (numSectors : Option Nat) (fstype key : String)
      (ownerUid : Int) (isExternal : Bool)
  | finalizeAsec (id : String)
  | fixupAsecPermissions (id : String) (gid : Nat) (filename : String)
  | destroyAsec (id : String) (force : Bool)
  | mountAsec (id key : String) (ownerUid : Int)
  | unmountAsec (id : String) (force : Bool)
  | renameAsec (id1 id2 : String)
  | getAsecMountPath (id : String)
  | getAsecFilesystemPath (id : String)
  | listMountedObbs
  | mountObb (img key : String) (ownerGid : Int)
  | unmountObb (img : String) (force : Bool)
  | getObbMountPath (img : String)
  | listMountedISOs
  | mountISO (img : String)
  | unmountISO (img : String) (force : Bool)
  | getISOMountPath (img : String)
  | cryptfs_check_passwd (passwd : String)
  | cryptfs_restart
  | cryptfs_crypto_complete
  | cryptfs_enable (howarg passwd : String)
  | cryptfs_changepw (newpw : String)
  | cryptfs_verify_passwd (passwd : String)
  | cryptfs_getfield (fieldname : String)
  | cryptfs_setfield (fieldname value : String)
  deriving DecidableEq, Repr

/-- The environment of a command handler: the reply to a call, given the calls made before
it. `ret` is the value returned (0 or `NULL` = -1 for `opendir`), `text` the path or field
value handed out, `lines` the names that `readdir` hands out until it returns `NULL`. -/
abbrev CmdEnv := List CmdCall → CmdCall → Reply

/-- Perform a call of a command handler: record it and take the environment's reply. -/
def cmdCall (env : CmdEnv) (c : CmdCall) (t : List CmdCall) : Reply × List CmdCall :=
  (env t c, t ++ [c])

/-- The argument `argv[i]`. -/
def argvAt (argv : List String) (i : Nat) : String := argv.getD i ""

/-- strlen: the number of bytes of the string. -/
def strlen (s : String) : Nat := s.utf8ByteSize

/-- The value of a run of decimal digits. -/
def digitsValue (ds : List Char) : Nat :=
  ds.foldl (fun acc c => acc * 10 + (c.toNat - 48)) 0

/-- atoi of the C library (`(int)strtol(s, NULL, 10)`): white space, an optional sign,
decimal digits; anything after them is ignored, and a value outside the 32-bit `long`
is replaced by `LONG_MAX` or `LONG_MIN`. -/
def atoi (s : String) : Int :=
  match s.data.dropWhile isspace with
  | '-' :: ds => max (-((digitsValue (ds.takeWhile Char.isDigit) : Nat) : Int)) (-2147483648)
  | '+' :: ds => min ((digitsValue (ds.takeWhile Char.isDigit) : Nat) : Int) 2147483647
  | ds => min ((digitsValue (ds.takeWhile Char.isDigit) : Nat) : Int) 2147483647

/-- strtoul of the C library with base 10, for a 32-bit `unsigned long`: the value, and
the characters from `*endptr` on (the whole string when there is no digit to convert). -/
def strtoul (s : String) : Nat × List Char :=
  match s.data.dropWhile isspace with
  | '-' :: ds =>
    if ds.takeWhile Char.isDigit = [] then (0, s.data)
    else if digitsValue (ds.takeWhile Char.isDigit) > 4294967295 then
      (4294967295, ds.dropWhile Char.isDigit)
    else
      ((4294967296 - digitsValue (ds.takeWhile Char.isDigit)) % 4294967296,
        ds.dropWhile Char.isDigit)
  | '+' :: ds =>
    if ds.takeWhile Char.isDigit = [] then (0, s.data)
    else (min (digitsValue (ds.takeWhile Char.isDigit)) 4294967295, ds.dropWhile Char.isDigit)
  | ds =>
    if ds.takeWhile Char.isDigit = [] then (0, s.data)
    else (min (digitsValue (ds.takeWhile Char.isDigit)) 4294967295, ds.dropWhile Char.isDigit)

/-- The product of two `int` values: `none` when it does not fit the 32-bit `int`, where
C leaves the result undefined. -/
def mulInt32 (a b : Int) : Option Int :=
  if -2147483648 ≤ a * b ∧ a * b ≤ 2147483647 then some (a * b) else none

/-- The loop of CommandListener::dumpArgs (CommandListener.cpp:70-88) from argument `i`
on: `buf` is the text written to `buffer` so far, so that `p - buffer` is `strlen buf`.
`len` is an `unsigned int` and the sum is compared as one. -/
def dumpArgsLoop (argc : Nat) (argObscure : Int) : Nat → List String → String → String
  | _, [], buf => buf
  | i, a :: rest, buf =>
    if (strlen buf +
        (if (i : Int) = argObscure then ((strlen a + 1) % 4294967296 + 2) % 4294967296
         else (strlen a + 1) % 4294967296)) % 4294967296 < 4096 - 1 then
      if (i : Int) = argObscure then
        dumpArgsLoop argc argObscure (i + 1) rest (buf ++ "\x7b\x7d ")
      else if i ≠ argc - 1 then
        dumpArgsLoop argc argObscure (i + 1) rest (buf ++ a ++ " ")
      else dumpArgsLoop argc argObscure (i + 1) rest (buf ++ a)
    else dumpArgsLoop argc argObscure (i + 1) rest buf

/-- The text left in `buffer` by CommandListener::dumpArgs (CommandListener.cpp:63). -/
def dumpArgsBuffer (argv : List String) (argObscure : Int) : String :=
  dumpArgsLoop argv.length argObscure 0 argv ""

/-- CommandListener::dumpArgs (CommandListener.cpp:63), with DUMP_ARGS set to 1: the
buffer is logged. -/
def dumpArgs (env : CmdEnv) (argv : List String) (argObscure : Int) (t : List CmdCall) :
    List CmdCall :=
  (cmdCall env (CmdCall.SLOGD (dumpArgsBuffer argv argObscure)) t).2

/-- The loop of AsecCmd::listAsecsInDirectory over the directory entries
(CommandListener.cpp:314-323). For a name of fewer than 5 bytes the C code compares
bytes in front of `d_name` with ".asec"; such a name is taken not to match. -/
def AsecCmd.listAsecsLoop (env : CmdEnv) : List String → List CmdCall → List CmdCall
  | [], t => t
  | d_name :: rest, t =>
    if d_name.data.head? = some '.' then AsecCmd.listAsecsLoop env rest t
    else if 5 ≤ d_name.data.length ∧
        d_name.data.drop (d_name.data.length - 5) = ".asec".data then
      AsecCmd.listAsecsLoop env rest
        (cmdCall env (CmdCall.sendMsg ReplyCode.AsecListResult
          (String.mk (d_name.data.take (d_name.data.length - 5))) false) t).2
    else AsecCmd.listAsecsLoop env rest t

/-- AsecCmd::listAsecsInDirectory (CommandListener.cpp:301) -/
def AsecCmd.listAsecsInDirectory (env : CmdEnv) (directory : String) (t : List CmdCall) :
    List CmdCall :=
  let (d, t1) := cmdCall env (CmdCall.opendir directory) t
  if d.ret ≠ 0 then
    (cmdCall env (CmdCall.sendMsg ReplyCode.OperationFailed "Failed to open asec dir" true) t1).2
  else
    (cmdCall env CmdCall.closedir (AsecCmd.listAsecsLoop env d.lines t1)).2

/-- The exit shared by the syntax errors found while the container lock is held: the usage
message, `vm->unlockActiveContainers()`, `return 0`. -/
def usageErrorUnlock (env : CmdEnv) (usage : String) (t : List CmdCall) : Int × List CmdCall :=
  let (_, t1) := cmdCall env (CmdCall.sendMsg ReplyCode.CommandSyntaxError usage false) t
  (0, (cmdCall env CmdCall.unlockActiveContainers t1).2)

/-- The exit of the `path` commands when the path was found: the path is sent, the lock is
released, `return 0`. -/
def pathResultUnlock (env : CmdEnv) (path : String) (t : List CmdCall) : Int × List CmdCall :=
  let (_, t1) := cmdCall env (CmdCall.sendMsg ReplyCode.AsecPathResult path false) t
  (0, (cmdCall env CmdCall.unlockActiveContainers t1).2)

/-- The common end of AsecCmd, ObbCmd and ISOCmd::runCommand (CommandListener.cpp:459-469,
533-543, 603-612): the lock is released and the result `rc` is reported; `what` is "asec",
"obb" or "iso". -/
def runCommandResult (env : CmdEnv) (what : String) (rc : Int) (t : List CmdCall) :
    Int × List CmdCall :=
  let (_, t1) := cmdCall env CmdCall.unlockActiveContainers t
  if rc = 0 then
    (0, (cmdCall env (CmdCall.sendMsg ReplyCode.CommandOkay
      (what ++ " operation succeeded") false) t1).2)
  else
    let (r, t2) := cmdCall env CmdCall.convertFromErrno t1
    (0, (cmdCall env (CmdCall.sendMsg (ReplyCode.ofInt r.ret)
      (what ++ " operation failed") true) t2).2)

/-- The sector count of `asec create` (CommandListener.cpp:356):
`unsigned int numSectors = (atoi(argv[3]) * (1024 * 1024)) / 512`, computed in `int` and
converted to `unsigned int`. It is `none` when the product does not fit `int`: C defines
no value for it then. -/
def asecNumSectors (size_mb : String) : Option Nat :=
  (mulInt32 (atoi size_mb) (1024 * 1024)).map (fun p => toU32 (Int.tdiv p 512))

/-- The `force` flag of the destroy and unmount commands:
`argc > 3 && !strcmp(argv[3], "force")`. -/
def forceArg (argv : List String) : Bool :=
  decide (argv.length > 3) && decide (argvAt argv 3 = "force")

/-- AsecCmd::runCommand, the commands from `destroy` on (CommandListener.cpp:384-457). -/
def AsecCmd.runCommandRest (env : CmdEnv) (argv : List String) (t1 : List CmdCall) :
    Int × List CmdCall :=
  if argvAt argv 1 = "destroy" then
    if argv.length < 3 then
      usageErrorUnlock env "Usage: asec destroy <container-id> [force]"
        (dumpArgs env argv (-1) t1)
    else
      let (r, t3) := cmdCall env (CmdCall.destroyAsec (argvAt argv 2) (forceArg argv))
        (dumpArgs env argv (-1) t1)
      runCommandResult env "asec" r.ret t3
  else if argvAt argv 1 = "mount" then
    if argv.length ≠ 5 then
      usageErrorUnlock env "Usage: asec mount <namespace-id> <key> <ownerUid>"
        (dumpArgs env argv 3 t1)
    else
      let (r, t3) := cmdCall env
        (CmdCall.mountAsec (argvAt argv 2) (argvAt argv 3) (atoi (argvAt argv 4)))
        (dumpArgs env argv 3 t1)
      runCommandResult env "asec" r.ret t3
  else if argvAt argv 1 = "unmount" then
    if argv.length < 3 then
      usageErrorUnlock env "Usage: asec unmount <container-id> [force]"
        (dumpArgs env argv (-1) t1)
    else
      let (r, t3) := cmdCall env (CmdCall.unmountAsec (argvAt argv 2) (forceArg argv))
        (dumpArgs env argv (-1) t1)
      runCommandResult env "asec" r.ret t3
  else if argvAt argv 1 = "rename" then
    if argv.length ≠ 4 then
      usageErrorUnlock env "Usage: asec rename <old_id> <new_id>" (dumpArgs env argv (-1) t1)
    else
      let (r, t3) := cmdCall env (CmdCall.renameAsec (argvAt argv 2) (argvAt argv 3))
        (dumpArgs env argv (-1) t1)
      runCommandResult env "asec" r.ret t3
  else if argvAt argv 1 = "path" then
    if argv.length ≠ 3 then
      usageErrorUnlock env "Usage: asec path <container-id>" (dumpArgs env argv (-1) t1)
    else
      let (r, t3) := cmdCall env (CmdCall.getAsecMountPath (argvAt argv 2))
        (dumpArgs env argv (-1) t1)
      if r.ret = 0 then pathResultUnlock env (snprintf 255 r.text) t3
      else runCommandResult env "asec" r.ret t3
  else if argvAt argv 1 = "fspath" then
    if argv.length ≠ 3 then
      usageErrorUnlock env "Usage: asec fspath <container-id>" (dumpArgs env argv (-1) t1)
    else
      let (r, t3) := cmdCall env (CmdCall.getAsecFilesystemPath (argvAt argv 2))
        (dumpArgs env argv (-1) t1)
      if r.ret = 0 then pathResultUnlock env (snprintf 255 r.text) t3
      else runCommandResult env "asec" r.ret t3
  else
    let (_, t3) := cmdCall env
      (CmdCall.sendMsg ReplyCode.CommandSyntaxError "Unknown asec cmd" false)
      (dumpArgs env argv (-1) t1)
    runCommandResult env "asec" 0 t3

/-- AsecCmd::runCommand, after the lock has been taken (CommandListener.cpp:341-457). -/
def AsecCmd.runCommandLocked (env : CmdEnv) (argv : List String) (t1 : List CmdCall) :
    Int × List CmdCall :=
  if argvAt argv 1 = "list" then
    runCommandResult env "asec" 0
      (AsecCmd.listAsecsInDirectory env SEC_ASECDIR_INT
        (AsecCmd.listAsecsInDirectory env SEC_ASECDIR_EXT (dumpArgs env argv (-1) t1)))
  else if argvAt argv 1 = "create" then
    if argv.length ≠ 8 then
      usageErrorUnlock env
        ("Usage: asec create <container-id> <size_mb> <fstype> <key> <ownerUid> " ++
          "<isExternal>") (dumpArgs env argv 5 t1)
    else
      let (r, t3) := cmdCall env
        (CmdCall.createAsec (argvAt argv 2) (asecNumSectors (argvAt argv 3)) (argvAt argv 4)
          (argvAt argv 5) (atoi (argvAt argv 6)) (decide (atoi (argvAt argv 7) = 1)))
        (dumpArgs env argv 5 t1)
      runCommandResult env "asec" r.ret t3
  else if argvAt argv 1 = "finalize" then
    if argv.length ≠ 3 then
      usageErrorUnlock env "Usage: asec finalize <container-id>" (dumpArgs env argv (-1) t1)
    else
      let (r, t3) := cmdCall env (CmdCall.finalizeAsec (argvAt argv 2))
        (dumpArgs env argv (-1) t1)
      runCommandResult env "asec" r.ret t3
  else if argvAt argv 1 = "fixperms" then
    if argv.length ≠ 5 then
      usageErrorUnlock env "Usage: asec fixperms <container-id> <gid> <filename>"
        (dumpArgs env argv (-1) t1)
    else if (strtoul (argvAt argv 3)).2 ≠ [] then
      usageErrorUnlock env "Usage: asec fixperms <container-id> <gid> <filename>"
        (dumpArgs env argv (-1) t1)
    else
      let (r, t3) := cmdCall env
        (CmdCall.fixupAsecPermissions (argvAt argv 2) (strtoul (argvAt argv 3)).1
          (argvAt argv 4)) (dumpArgs env argv (-1) t1)
      runCommandResult env "asec" r.ret t3
  else AsecCmd.runCommandRest env argv t1

/-- AsecCmd::runCommand (CommandListener.cpp:328) -/
def AsecCmd.runCommand (env : CmdEnv) (argv : List String) (t : List CmdCall) :
    Int × List CmdCall :=
  if argv.length < 2 then
    (0, (cmdCall env (CmdCall.sendMsg ReplyCode.CommandSyntaxError "Missing Argument" false) t).2)
  else
    AsecCmd.runCommandLocked env argv (cmdCall env CmdCall.lockActiveContainers t).2

/-- ObbCmd::runCommand (CommandListener.cpp:476) -/
def ObbCmd.runCommand (env : CmdEnv) (argv : List String) (t : List CmdCall) :
    Int × List CmdCall :=
  if argv.length < 2 then
    (0, (cmdCall env (CmdCall.sendMsg ReplyCode.CommandSyntaxError "Missing Argument" false) t).2)
  else
    let (_, t1) := cmdCall env CmdCall.lockActiveContainers t
    if argvAt argv 1 = "list" then
      let (r, t3) := cmdCall env CmdCall.listMountedObbs (dumpArgs env argv (-1) t1)
      runCommandResult env "obb" r.ret t3
    else if argvAt argv 1 = "mount" then
      if argv.length ≠ 5 then
        usageErrorUnlock env "Usage: obb mount <filename> <key> <ownerGid>"
          (dumpArgs env argv 3 t1)
      else
        let (r, t3) := cmdCall env
          (CmdCall.mountObb (argvAt argv 2) (argvAt argv 3) (atoi (argvAt argv 4)))
          (dumpArgs env argv 3 t1)
        runCommandResult env "obb" r.ret t3
    else if argvAt argv 1 = "unmount" then
      if argv.length < 3 then
        usageErrorUnlock env "Usage: obb unmount <source file> [force]"
          (dumpArgs env argv (-1) t1)
      else
        let (r, t3) := cmdCall env (CmdCall.unmountObb (argvAt argv 2) (forceArg argv))
          (dumpArgs env argv (-1) t1)
        runCommandResult env "obb" r.ret t3
    else if argvAt argv 1 = "path" then
      if argv.length ≠ 3 then
        usageErrorUnlock env "Usage: obb path <source file>" (dumpArgs env argv (-1) t1)
      else
        let (r, t3) := cmdCall env (CmdCall.getObbMountPath (argvAt argv 2))
          (dumpArgs env argv (-1) t1)
        if r.ret = 0 then pathResultUnlock env (snprintf 255 r.text) t3
        else runCommandResult env "obb" r.ret t3
    else
      let (_, t3) := cmdCall env
        (CmdCall.sendMsg ReplyCode.CommandSyntaxError "Unknown obb cmd" false)
        (dumpArgs env argv (-1) t1)
      runCommandResult env "obb" 0 t3

/-- ISOCmd::runCommand (CommandListener.cpp:551) -/
def ISOCmd.runCommand (env : CmdEnv) (argv : List String) (t : List CmdCall) :
    Int × List CmdCall :=
  if argv.length < 2 then
    (0, (cmdCall env (CmdCall.sendMsg ReplyCode.CommandSyntaxError "Missing Argument" false) t).2)
  else
    let (_, t1) := cmdCall env CmdCall.lockActiveContainers (dumpArgs env argv (-1) t)
    if argvAt argv 1 = "list" then
      let (r, t3) := cmdCall env CmdCall.listMountedISOs t1
      runCommandResult env "iso" r.ret t3
    else if argvAt argv 1 = "mount" then
      if argv.length ≠ 3 then usageErrorUnlock env "Usage: iso mount <filename>" t1
      else
        let (r, t3) := cmdCall env (CmdCall.mountISO (argvAt argv 2)) t1
        runCommandResult env "iso" r.ret t3
    else if argvAt argv 1 = "unmount" then
      if argv.length < 3 then
        usageErrorUnlock env "Usage: iso unmount <source file> [force]" t1
      else
        let (r, t3) := cmdCall env (CmdCall.unmountISO (argvAt argv 2) (forceArg argv)) t1
        runCommandResult env "iso" r.ret t3
    else if argvAt argv 1 = "path" then
      if argv.length ≠ 3 then usageErrorUnlock env "Usage: iso path <source file>" t1
      else
        let (r, t3) := cmdCall env (CmdCall.getISOMountPath (argvAt argv 2)) t1
        if r.ret = 0 then pathResultUnlock env (snprintf 255 r.text) t3
        else runCommandResult env "iso" r.ret t3
    else
      let (_, t3) := cmdCall env
        (CmdCall.sendMsg ReplyCode.CommandSyntaxError "Unknown iso cmd" false) t1
      runCommandResult env "iso" 0 t3

/-! ## Observations on the command handlers -/

/-- The two operations on the container lock. -/
def isLockOp (c : CmdCall) : Bool :=
  match c with
  | CmdCall.lockActiveContainers => true
  | CmdCall.unlockActiveContainers => true
  | _ => false

/-- The container operations of VolumeManager that the handlers invoke. -/
def isContainerOp (c : CmdCall) : Bool :=
  match c with
  | CmdCall.createAsec _ _ _ _ _ _ => true
  | CmdCall.finalizeAsec _ => true
  | CmdCall.fixupAsecPermissions _ _ _ => true
  | CmdCall.destroyAsec _ _ => true
  | CmdCall.mountAsec _ _ _ => true
  | CmdCall.unmountAsec _ _ => true
  | CmdCall.renameAsec _ _ => true
  | CmdCall.getAsecMountPath _ => true
  | CmdCall.getAsecFilesystemPath _ => true
  | CmdCall.listMountedObbs => true
  | CmdCall.mountObb _ _ _ => true
  | CmdCall.unmountObb _ _ => true
  | CmdCall.getObbMountPath _ => true
  | CmdCall.listMountedISOs => true
  | CmdCall.mountISO _ => true
  | CmdCall.unmountISO _ _ => true
  | CmdCall.getISOMountPath _ => true
  | _ => false

/-- The calls `cs` take the container lock exactly once and release it exactly once, in
this order, and every container operation among them happens between the two: `cs` is
`pre`, lockActiveContainers, `mid`, unlockActiveContainers, `post`, with no lock operation
in `pre`, `mid` and `post` and no container operation in `pre` and `post`. -/
def LockBracket (cs : List CmdCall) : Prop :=
  ∃ pre mid post, cs = pre ++ CmdCall.lockActiveContainers :: (mid ++
      CmdCall.unlockActiveContainers :: post) ∧
    (∀ c ∈ pre, isLockOp c = false ∧ isContainerOp c = false) ∧
    (∀ c ∈ mid, isLockOp c = false) ∧
    (∀ c ∈ post, isLockOp c = false ∧ isContainerOp c = false)

/-- The handler went from the calls `t` to the calls `u` by the calls `pre` that leave
the lock and the containers alone, and, when `held` is set, went on to take the lock and
to make calls other than lock operations. -/
def LockedFrom (held : Bool) (t u : List CmdCall) : Prop :=
  ∃ pre mid, u = t ++ pre ++ (if held then CmdCall.lockActiveContainers :: mid else []) ∧
    (∀ c ∈ pre, isLockOp c = false ∧ isContainerOp c = false) ∧
    (∀ c ∈ mid, isLockOp c = false)

/-- An environment in which every call of a command handler succeeds and hands out no
data. -/
def cmdEnvOk : CmdEnv := fun _ _ => Reply.ok


/-- The common end of CryptfsCmd::runCommand (CommandListener.cpp:798-804): the result is
always reported with CommandOkay and the text of `rc`. -/
def CryptfsCmd.runCommandResult (env : CmdEnv) (rc : Int) (t : List CmdCall) :
    Int × List CmdCall :=
  (0, (cmdCall env (CmdCall.sendMsg ReplyCode.CommandOkay (snprintf 255 (toString rc)) false)
    t).2)

/-- A syntax error of CryptfsCmd::runCommand: the usage message, `return 0`. -/
def CryptfsCmd.usageError (env : CmdEnv) (usage : String) (t : List CmdCall) :
    Int × List CmdCall :=
  (0, (cmdCall env (CmdCall.sendMsg ReplyCode.CommandSyntaxError usage false) t).2)

/-- CryptfsCmd::runCommand, the commands from `changepw` on (CommandListener.cpp:760-796). -/
def CryptfsCmd.runCommandRest (env : CmdEnv) (argv : List String) (t : List CmdCall) :
    Int × List CmdCall :=
  if argvAt argv 1 = "changepw" then
    if argv.length ≠ 3 then CryptfsCmd.usageError env "Usage: cryptfs changepw <newpasswd>" t
    else
      let (r, t2) := cmdCall env (CmdCall.cryptfs_changepw (argvAt argv 2))
        (cmdCall env (CmdCall.SLOGD "cryptfs changepw \x7b\x7d") t).2
      CryptfsCmd.runCommandResult env r.ret t2
  else if argvAt argv 1 = "verifypw" then
    if argv.length ≠ 3 then CryptfsCmd.usageError env "Usage: cryptfs verifypw <passwd>" t
    else
      let (r, t2) := cmdCall env (CmdCall.cryptfs_verify_passwd (argvAt argv 2))
        (cmdCall env (CmdCall.SLOGD "cryptfs verifypw \x7b\x7d") t).2
      CryptfsCmd.runCommandResult env r.ret t2
  else if argvAt argv 1 = "getfield" then
    if argv.length ≠ 3 then CryptfsCmd.usageError env "Usage: cryptfs getfield <fieldname>" t
    else
      let (r, t2) := cmdCall env (CmdCall.cryptfs_getfield (argvAt argv 2))
        (dumpArgs env argv (-1) t)
      if r.ret = 0 then
        CryptfsCmd.runCommandResult env r.ret
          (cmdCall env (CmdCall.sendMsg ReplyCode.CryptfsGetfieldResult r.text false) t2).2
      else CryptfsCmd.runCommandResult env r.ret t2
  else if argvAt argv 1 = "setfield" then
    if argv.length ≠ 4 then
      CryptfsCmd.usageError env "Usage: cryptfs setfield <fieldname> <value>" t
    else
      let (r, t2) := cmdCall env (CmdCall.cryptfs_setfield (argvAt argv 2) (argvAt argv 3))
        (dumpArgs env argv (-1) t)
      CryptfsCmd.runCommandResult env r.ret t2
  else
    CryptfsCmd.runCommandResult env 0
      (cmdCall env (CmdCall.sendMsg ReplyCode.CommandSyntaxError "Unknown cryptfs cmd" false)
        (dumpArgs env argv (-1) t)).2

/-- CryptfsCmd::runCommand (CommandListener.cpp:718); `uid` is what `cli->getUid()`
returns. -/
def CryptfsCmd.runCommand (env : CmdEnv) (uid : Int) (argv : List String)
    (t : List CmdCall) : Int × List CmdCall :=
  if uid ≠ 0 ∧ uid ≠ AID_SYSTEM then
    (0, (cmdCall env (CmdCall.sendMsg ReplyCode.CommandNoPermission
      "No permission to run cryptfs commands" false) t).2)
  else if argv.length < 2 then
    (0, (cmdCall env (CmdCall.sendMsg ReplyCode.CommandSyntaxError "Missing Argument" false) t).2)
  else if argvAt argv 1 = "checkpw" then
    if argv.length ≠ 3 then CryptfsCmd.usageError env "Usage: cryptfs checkpw <passwd>" t
    else
      let (r, t2) := cmdCall env (CmdCall.cryptfs_check_passwd (argvAt argv 2))
        (dumpArgs env argv 2 t)
      CryptfsCmd.runCommandResult env r.ret t2
  else if argvAt argv 1 = "restart" then
    if argv.length ≠ 2 then CryptfsCmd.usageError env "Usage: cryptfs restart" t
    else
      let (r, t2) := cmdCall env CmdCall.cryptfs_restart (dumpArgs env argv (-1) t)
      CryptfsCmd.runCommandResult env r.ret t2
  else if argvAt argv 1 = "cryptocomplete" then
    if argv.length ≠ 2 then CryptfsCmd.usageError env "Usage: cryptfs cryptocomplete" t
    else
      let (r, t2) := cmdCall env CmdCall.cryptfs_crypto_complete (dumpArgs env argv (-1) t)
      CryptfsCmd.runCommandResult env r.ret t2
  else if argvAt argv 1 = "enablecrypto" then
    if argv.length ≠ 4 ∨ (argvAt argv 2 ≠ "wipe" ∧ argvAt argv 2 ≠ "inplace") then
      CryptfsCmd.usageError env "Usage: cryptfs enablecrypto <wipe|inplace> <passwd>" t
    else
      let (r, t2) := cmdCall env (CmdCall.cryptfs_enable (argvAt argv 2) (argvAt argv 3))
        (dumpArgs env argv 3 t)
      CryptfsCmd.runCommandResult env r.ret t2
  else CryptfsCmd.runCommandRest env argv t

/-! ## Observations on the logged line -/

/-- The lines logged by the calls `cs`, in order. -/
def logged (cs : List CmdCall) : List String :=
  cs.filterMap (fun c =>
    match c with
    | CmdCall.SLOGD text => some text
    | _ => none)

/-- The argument vector with the argument at index `argObscure` replaced by the two
braces (none is replaced when no argument has that index). -/
def obscureArg (argv : List String) (argObscure : Int) : List String :=
  if 0 ≤ argObscure then argv.set argObscure.toNat "\x7b\x7d" else argv

/-- What dumpArgs writes for the argument `a` at index `i` when it writes it: the braces
and a space for the obscured argument, the argument alone when it is the last one, the
argument and a space otherwise. -/
def argPiece (argc : Nat) (argObscure : Int) (i : Nat) (a : String) : String :=
  if (i : Int) = argObscure then "\x7b\x7d "
  else if i ≠ argc - 1 then a ++ " "
  else a

/-- The pieces of the arguments `rest`, which start at index `i`. -/
def argPieces (argc : Nat) (argObscure : Int) : Nat → List String → List String
  | _, [] => []
  | i, a :: rest => argPiece argc argObscure i a :: argPieces argc argObscure (i + 1) rest

/-- The bytes the arguments need in the buffer when none is obscured: each argument and
one separator. -/
def argBytes (argv : List String) : Nat := (argv.map (fun a => strlen a + 1)).sum


/-- The handler went from the calls `t` to the calls `u`, and the lines it logged on the
way are `L`. -/
def LoggedFrom (L : List String) (t u : List CmdCall) : Prop :=
  ∃ cs, u = t ++ cs ∧ logged cs = L

/-! # Theorems -/

/-! ## Add events -/

/-- An Add event is ignored by handleBlockEvent unless the volume is in NoMedia. -/
theorem handleBlockEvent_add_ignored (env : Env) (M : Int) (evt : NetlinkEvent) (s : Sys)
    (hact : evt.action = NlActionAdd) (hst : s.vol.mState ≠ State_NoMedia) :
    ∃ rc, DirectVolume.handleBlockEvent env M evt s = some (rc, { s with errno := ENODEV }) := by
  unfold DirectVolume.handleBlockEvent
  simp only [hact]
  split_ifs <;> simp_all

/-- A run of Add events leaves a volume that is not in NoMedia as it is. -/
theorem handleBlockEvents_add_ignored (env : Env) (M : Int) (evts : List NetlinkEvent) :
    ∀ s : Sys, (∀ e ∈ evts, e.action = NlActionAdd) → s.vol.mState ≠ State_NoMedia →
    ∃ s1, handleBlockEvents env M evts s = some s1 ∧ s1.vol = s.vol ∧ s1.trace = s.trace := by
  induction evts with
  | nil => intro s _ _; exact ⟨s, rfl, rfl, rfl⟩
  | cons e rest ih =>
    intro s hall hst
    obtain ⟨rc, hrc⟩ := handleBlockEvent_add_ignored env M e s (hall e (List.mem_cons_self _ _)) hst
    obtain ⟨s1, h1, h2, h3⟩ := ih { s with errno := ENODEV }
      (fun e1 he1 => hall e1 (List.mem_cons_of_mem _ he1)) hst
    exact ⟨s1, by simp only [handleBlockEvents, hrc, h1], h2, h3⟩

theorem partMask_succ (m : Nat) : partMask ((m : Int) + 1) = partMask m ||| shl1 (m + 1) := by
  unfold partMask
  have h : ((m : Int) + 1).toNat = m + 1 := by omega
  rw [h, Int.toNat_natCast, List.range_succ, List.foldl_append]
  rfl

theorem partMask_testBit_one (n : Int) (hn : 0 < n) : (partMask n).testBit 1 = true := by
  obtain ⟨m, rfl⟩ : ∃ m : Nat, n = (m : Int) + 1 := ⟨(n - 1).toNat, by omega⟩
  clear hn
  induction m with
  | zero => decide
  | succ k ih =>
    have := partMask_succ (k + 1)
    push_cast at this ⊢
    rw [this, Nat.testBit_or, ih]
    rfl

theorem partMask_ne_zero (n : Int) (hn : 0 < n) : partMask n ≠ 0 := by
  intro h
  have := partMask_testBit_one n hn
  rw [h] at this
  simp at this

/-! ## Basic facts on calls and setState -/

@[simp] theorem call_vol (env : Env) (c : Call) (s : Sys) : (call env c s).2.vol = s.vol := rfl

@[simp] theorem call_trace (env : Env) (c : Call) (s : Sys) :
    (call env c s).2.trace = s.trace ++ [c] := rfl

@[simp] theorem call_reply (env : Env) (c : Call) (s : Sys) :
    (call env c s).1 = env s.trace c := rfl

@[simp] theorem call_errno (env : Env) (c : Call) (s : Sys) :
    (call env c s).2.errno = (env s.trace c).err.getD s.errno := rfl

@[simp] theorem createDeviceNode_vol (env : Env) (p : String) (ma mi : Int) (s : Sys) :
    (Volume.createDeviceNode env p ma mi s).2.vol = s.vol := by
  unfold Volume.createDeviceNode
  simp only []
  split_ifs <;> rfl

@[simp] theorem createDeviceNode_trace (env : Env) (p : String) (ma mi : Int) (s : Sys) :
    (Volume.createDeviceNode env p ma mi s).2.trace = s.trace ++ [Call.mknod p (MKDEV ma mi)] := by
  unfold Volume.createDeviceNode
  simp only []
  split_ifs <;> rfl

theorem setState_same (env : Env) (st : State) (s : Sys) (h : s.vol.mState = st) :
    Volume.setState env st s = s := by
  simp [Volume.setState, h]

theorem setState_vol (env : Env) (st : State) (s : Sys) (h : s.vol.mState ≠ st) :
    (Volume.setState env st s).vol =
      { s.vol with
        mState := st
        mRetryMount := if s.vol.mState = State_Pending ∧ st ≠ State_Idle then false
                       else s.vol.mRetryMount } := by
  unfold Volume.setState
  simp only [h, if_false]
  split_ifs <;> rfl

theorem setState_trace (env : Env) (st : State) (s : Sys) (h : s.vol.mState ≠ st) :
    (Volume.setState env st s).trace = s.trace ++ [stateChangeCall s st] := by
  unfold Volume.setState stateChangeCall
  simp only [h, if_false]
  split_ifs <;> rfl

theorem handleDiskAdded_pending (env : Env) (evt : NetlinkEvent) (s : Sys) (n : Int)
    (hst : s.vol.mState = State_NoMedia) (hn : evt.NPARTS = some n) (hn0 : n ≠ 0) :
    (DirectVolume.handleDiskAdded env evt s).vol =
      { s.vol with mState := State_Pending, mDiskNumParts := n, mPendingPartMap := partMask n } ∧
    (DirectVolume.handleDiskAdded env evt s).trace =
      s.trace ++ [stateChangeCall s State_Pending] := by
  unfold DirectVolume.handleDiskAdded
  simp only [hn, hn0, if_false]
  constructor
  · rw [setState_vol _ _ _ (by simp [hst])]
    simp [hst]
  · rw [setState_trace _ _ _ (by simp [hst])]
    rfl

/-- Add(disk) with NPARTS = n ≠ 0 in NoMedia: the device node is made, the disk is
recorded, the pending mask is set and the volume goes to Pending. -/
theorem handleBlockEvent_add_disk (env : Env) (M : Int) (evt : NetlinkEvent) (s : Sys) (n : Int)
    (hst : s.vol.mState = State_NoMedia)
    (hact : evt.action = NlActionAdd) (htype : evt.DEVTYPE = "disk")
    (hpath : s.vol.mPaths.length = 0 ∨
      s.vol.mPaths.any (fun it => it.data.isPrefixOf evt.DEVPATH.data) = true)
    (hn : evt.NPARTS = some n) (hn0 : n ≠ 0) :
    ∃ s1, DirectVolume.handleBlockEvent env M evt s = some (0, s1) ∧
      s1.vol = { s.vol with mState := State_Pending, mDiskNumParts := n,
                            mPendingPartMap := partMask n,
                            mDiskMajor := evt.MAJOR, mDiskMinor := evt.MINOR } ∧
      s1.trace = s.trace ++
        [Call.mknod (snprintf 255 (nodePath evt.MAJOR evt.MINOR)) (MKDEV evt.MAJOR evt.MINOR),
         Call.sendBroadcast ResponseCode.VolumeStateChange
           (snprintf 255 (stateChangedMsg s.vol.mLabel s.vol.mFuseMountpoint
             State_NoMedia State_Pending))] := by
  have hp : ¬ (s.vol.mPaths.length ≠ 0 ∧
      ¬ s.vol.mPaths.any (fun it => it.data.isPrefixOf evt.DEVPATH.data) = true) := by
    rcases hpath with h | h
    · simp [h]
    · simp [h]
  unfold DirectVolume.handleBlockEvent
  simp only [hact, htype, hst, hp]
  simp only [if_false, if_true, ne_eq, not_true_eq_false, reduceCtorEq, String.reduceEq]
  refine ⟨_, rfl, ?_, ?_⟩
  · rw [(handleDiskAdded_pending env evt _ n (by simp [hst]) hn hn0).1]
    simp
  · rw [(handleDiskAdded_pending env evt _ n (by simp [hst]) hn hn0).2]
    simp [stateChangeCall, hst]

/-! ## C1: clean insertion -/

/-- C1 (as amended): for a DirectVolume in NoMedia, an Add(disk) event with NPARTS = n > 0
dispatched through handleBlockEvent moves the volume to Pending with the pending mask of
n partitions, which is not 0; every Add event that follows (so each Add(partition) with
PARTN = k, k in 1..n) is ignored, because handleBlockEvent acts on Add events only in
NoMedia. The volume is left in Pending with that mask, the only state change broadcast
is NoMedia -> Pending, and no DiskInserted broadcast is sent: the calls made are the
mknod of the disk node and that one state-change broadcast. -/
theorem C1_add_disk_then_partitions_stays_pending (env : Env) (MAX_PARTITIONS : Int)
    (s : Sys) (disk : NetlinkEvent) (parts : List NetlinkEvent) (n : Int)
    (hst : s.vol.mState = State_NoMedia)
    (hact : disk.action = NlActionAdd) (htype : disk.DEVTYPE = "disk")
    (hpath : s.vol.mPaths.length = 0 ∨
      s.vol.mPaths.any (fun it => it.data.isPrefixOf disk.DEVPATH.data) = true)
    (hn : disk.NPARTS = some n) (hpos : 0 < n)
    (hparts : ∀ e ∈ parts, e.action = NlActionAdd) :
    ∃ s1, handleBlockEvents env MAX_PARTITIONS (disk :: parts) s = some s1 ∧
      s1.vol.mState = State_Pending ∧
      s1.vol.mPendingPartMap = partMask n ∧ partMask n ≠ 0 ∧
      s1.trace = s.trace ++
        [Call.mknod (snprintf 255 (nodePath disk.MAJOR disk.MINOR))
           (MKDEV disk.MAJOR disk.MINOR),
         Call.sendBroadcast ResponseCode.VolumeStateChange
           (snprintf 255 (stateChangedMsg s.vol.mLabel s.vol.mFuseMountpoint
             State_NoMedia State_Pending))] ∧
      broadcasts ResponseCode.VolumeDiskInserted s1.trace =
        broadcasts ResponseCode.VolumeDiskInserted s.trace := by
  obtain ⟨s1, h1, hv, ht⟩ :=
    handleBlockEvent_add_disk env MAX_PARTITIONS disk s n hst hact htype hpath hn (by omega)
  have hs1 : s1.vol.mState ≠ State_NoMedia := by rw [hv]; simp
  obtain ⟨s2, h2, hv2, ht2⟩ := handleBlockEvents_add_ignored env MAX_PARTITIONS parts s1 hparts hs1
  refine ⟨s2, ?_, ?_, ?_, partMask_ne_zero n hpos, ?_, ?_⟩
  · simp only [handleBlockEvents, h1, h2]
  · rw [hv2, hv]
  · rw [hv2, hv]
  · rw [ht2, ht]
  · rw [ht2, ht]
    simp [broadcasts]

/-- C1, witness: the disk and partition events of the clean-insertion scenario. -/
theorem C1_add_disk_then_partitions_stays_pending_witness :
    ∃ s1, handleBlockEvents envOk 32 (evtAddDisk :: [evtAddPart]) sys0 = some s1 ∧
      s1.vol.mState = State_Pending ∧
      s1.vol.mPendingPartMap = partMask 1 ∧ partMask 1 ≠ 0 ∧
      s1.trace = sys0.trace ++
        [Call.mknod (snprintf 255 (nodePath evtAddDisk.MAJOR evtAddDisk.MINOR))
           (MKDEV evtAddDisk.MAJOR evtAddDisk.MINOR),
         Call.sendBroadcast ResponseCode.VolumeStateChange
           (snprintf 255 (stateChangedMsg sys0.vol.mLabel sys0.vol.mFuseMountpoint
             State_NoMedia State_Pending))] ∧
      broadcasts ResponseCode.VolumeDiskInserted s1.trace =
        broadcasts ResponseCode.VolumeDiskInserted sys0.trace :=
  C1_add_disk_then_partitions_stays_pending envOk 32 sys0 evtAddDisk [evtAddPart] 1
    (by decide) (by decide) (by decide) (by decide) (by decide) (by decide) (by decide)

/-- C1, counterexample: a NoMedia volume for partition 1 of the disk under /sys/block/sdb
is fed `add disk 8:16 NPARTS=1` and then `add partition 8:17 PARTN=1`. The claim expects
Idle, an empty pending mask and one DiskInserted broadcast; the code leaves Pending, the
mask 2, and sends no DiskInserted broadcast. -/
theorem C1_counterexample :
    (handleBlockEvents envOk 32 [evtAddDisk, evtAddPart] sys0).map
        (fun s => (s.vol.mState, s.vol.mPendingPartMap,
          broadcasts ResponseCode.VolumeDiskInserted s.trace,
          broadcasts ResponseCode.VolumeStateChange s.trace)) =
      some (State_Pending, 2, [],
        ["Volume sdcard1 /storage/sdcard1 state changed from 0 (No-Media) to 2 (Pending)"]) := by
  decide

/-! ## C2: retry mount -/

/-- C2 (as amended): when mountVol was called while the volume was Pending (so that
retry_mount is true) and handlePartitionAdded then completes the pending partition set,
taking the volume Pending -> Idle, the handler broadcasts the state change and
DiskInserted and does nothing else: no mount attempt is made and retry_mount is still
true afterwards (setState keeps the flag on the way to Idle). An Add event dispatched
through handleBlockEvent to the Pending volume is ignored altogether: the volume and
the calls made stay as they were. -/
theorem C2_pending_to_idle_no_retry (env : Env) (MAX_PARTITIONS : Int) (evt : NetlinkEvent)
    (s : Sys) (hst : s.vol.mState = State_Pending) (hretry : s.vol.mRetryMount = true)
    (hidle : (DirectVolume.handlePartitionAdded env MAX_PARTITIONS evt s).vol.mState = State_Idle)
    (hact : evt.action = NlActionAdd) :
    (DirectVolume.handlePartitionAdded env MAX_PARTITIONS evt s).vol.mRetryMount = true ∧
    (DirectVolume.handlePartitionAdded env MAX_PARTITIONS evt s).trace = s.trace ++
      [Call.sendBroadcast ResponseCode.VolumeStateChange
         (snprintf 255 (stateChangedMsg s.vol.mLabel s.vol.mFuseMountpoint
           State_Pending State_Idle)),
       Call.sendBroadcast ResponseCode.VolumeDiskInserted
         (snprintf 255 (partitionAddedMsg s.vol.mLabel s.vol.mFuseMountpoint
           s.vol.mDiskMajor s.vol.mDiskMinor))] ∧
    ∃ rc s1, DirectVolume.handleBlockEvent env MAX_PARTITIONS evt s = some (rc, s1) ∧
      s1.vol = s.vol ∧ s1.trace = s.trace := by
  refine ⟨?_, ?_, ?_⟩
  · revert hidle
    unfold DirectVolume.handlePartitionAdded
    simp only []
    split_ifs <;> simp_all [setState_vol]
  · revert hidle
    unfold DirectVolume.handlePartitionAdded
    simp only []
    split_ifs <;> simp_all [setState_vol, setState_trace, stateChangeCall]
  · obtain ⟨rc, h⟩ := handleBlockEvent_add_ignored env MAX_PARTITIONS evt s hact (by simp [hst])
    exact ⟨rc, _, h, rfl, rfl⟩

/-- C2, witness: the Pending volume with retry_mount set receives its partition 1. -/
theorem C2_pending_to_idle_no_retry_witness :
    (DirectVolume.handlePartitionAdded envOk 32 evtAddPart sysPendingRetry).vol.mRetryMount = true ∧
    (DirectVolume.handlePartitionAdded envOk 32 evtAddPart sysPendingRetry).trace =
      sysPendingRetry.trace ++
      [Call.sendBroadcast ResponseCode.VolumeStateChange
         (snprintf 255 (stateChangedMsg sysPendingRetry.vol.mLabel
           sysPendingRetry.vol.mFuseMountpoint State_Pending State_Idle)),
       Call.sendBroadcast ResponseCode.VolumeDiskInserted
         (snprintf 255 (partitionAddedMsg sysPendingRetry.vol.mLabel
           sysPendingRetry.vol.mFuseMountpoint sysPendingRetry.vol.mDiskMajor
           sysPendingRetry.vol.mDiskMinor))] ∧
    ∃ rc s1, DirectVolume.handleBlockEvent envOk 32 evtAddPart sysPendingRetry = some (rc, s1) ∧
      s1.vol = sysPendingRetry.vol ∧ s1.trace = sysPendingRetry.trace :=
  C2_pending_to_idle_no_retry envOk 32 evtAddPart sysPendingRetry (by decide) (by decide)
    (by decide) (by decide)

/-- C2, counterexample: the volume is Pending after `add disk 8:16 NPARTS=1`; mountVol
fails with EBUSY and sets retry_mount; handlePartitionAdded for partition 1 then takes
the volume Pending -> Idle with an empty pending mask. The claim expects one automatic
mount attempt and retry_mount false; the code leaves retry_mount true and the handler's
only calls are the two broadcasts (no property read, no filesystem mount). -/
theorem C2_counterexample :
    handleBlockEvents envOk 32 [evtAddDisk] sys0 = some sysPending ∧
    sysPending.vol.mState = State_Pending ∧
    (Volume.mountVol envOk sysPending).1 = -1 ∧
    (Volume.mountVol envOk sysPending).2.errno = EBUSY ∧
    (Volume.mountVol envOk sysPending).2.vol.mRetryMount = true ∧
    (Volume.mountVol envOk sysPending).2.vol.mState = State_Pending ∧
    (DirectVolume.handlePartitionAdded envOk 32 evtAddPart
      (Volume.mountVol envOk sysPending).2).vol.mState = State_Idle ∧
    (DirectVolume.handlePartitionAdded envOk 32 evtAddPart
      (Volume.mountVol envOk sysPending).2).vol.mPendingPartMap = 0 ∧
    (DirectVolume.handlePartitionAdded envOk 32 evtAddPart
      (Volume.mountVol envOk sysPending).2).vol.mRetryMount = true ∧
    (DirectVolume.handlePartitionAdded envOk 32 evtAddPart
      (Volume.mountVol envOk sysPending).2).trace =
      (Volume.mountVol envOk sysPending).2.trace ++
        [Call.sendBroadcast ResponseCode.VolumeStateChange
           "Volume sdcard1 /storage/sdcard1 state changed from 2 (Pending) to 1 (Idle-Unmounted)",
         Call.sendBroadcast ResponseCode.VolumeDiskInserted
           "Volume sdcard1 /storage/sdcard1 Partition Added (8:16)"] := by
  decide

/-! ## Runs of calls -/

theorem ext_refl (K : Call → Bool) (s : Sys) : Ext K s s :=
  ⟨[], by simp, by simp⟩

theorem ext_trans {K : Call → Bool} {s t u : Sys} (h1 : Ext K s t) (h2 : Ext K t u) :
    Ext K s u := by
  obtain ⟨c1, ht1, hk1⟩ := h1
  obtain ⟨c2, ht2, hk2⟩ := h2
  refine ⟨c1 ++ c2, by rw [ht2, ht1, List.append_assoc], ?_⟩
  intro c hc
  rcases List.mem_append.mp hc with h | h
  · exact hk1 c h
  · exact hk2 c h

theorem ext_mono {K L : Call → Bool} {s t : Sys} (h : Ext K s t)
    (hKL : ∀ c, K c = true → L c = true) : Ext L s t := by
  obtain ⟨cs, ht, hk⟩ := h
  exact ⟨cs, ht, fun c hc => hKL c (hk c hc)⟩

theorem ext_call {K : Call → Bool} (env : Env) (c : Call) (s : Sys) (hc : K c = true) :
    Ext K s (call env c s).2 :=
  ⟨[c], rfl, by simpa using hc⟩

/-- Steps up to `t`, then the call that gives `u`. -/
theorem ext_snoc {K : Call → Bool} {env : Env} {c : Call} {s t u : Sys} {r : Reply}
    (h : call env c t = (r, u)) (hc : K c = true) (h1 : Ext K s t) : Ext K s u := by
  have h2 := ext_call env c t hc
  rw [h] at h2
  exact ext_trans h1 h2

/-- Steps up to `t`, then a function whose steps are known. -/
theorem ext_via {K : Call → Bool} {α : Type} {f : Sys → α × Sys} {s t u : Sys} {a : α}
    (h : f t = (a, u)) (hf : Ext K t (f t).2) (h1 : Ext K s t) : Ext K s u := by
  rw [h] at hf
  exact ext_trans h1 hf

theorem ext_errno {K : Call → Bool} {s t : Sys} (e : Int) (h : Ext K s t) :
    Ext K s { t with errno := e } := h

theorem steps_refl (K : Call → Bool) (s : Sys) : Steps K s s := ⟨rfl, ext_refl K s⟩

theorem steps_trans {K : Call → Bool} {s t u : Sys} (h1 : Steps K s t) (h2 : Steps K t u) :
    Steps K s u := ⟨h2.1.trans h1.1, ext_trans h1.2 h2.2⟩

theorem steps_mono {K L : Call → Bool} {s t : Sys} (h : Steps K s t)
    (hKL : ∀ c, K c = true → L c = true) : Steps L s t := ⟨h.1, ext_mono h.2 hKL⟩

theorem steps_snoc {K : Call → Bool} {env : Env} {c : Call} {s t u : Sys} {r : Reply}
    (h : call env c t = (r, u)) (hc : K c = true) (h1 : Steps K s t) : Steps K s u := by
  refine ⟨?_, ext_snoc h hc h1.2⟩
  have : (call env c t).2.vol = t.vol := rfl
  rw [h] at this
  exact this.trans h1.1

theorem steps_via {K : Call → Bool} {α : Type} {f : Sys → α × Sys} {s t u : Sys} {a : α}
    (h : f t = (a, u)) (hf : Steps K t (f t).2) (h1 : Steps K s t) : Steps K s u := by
  rw [h] at hf
  exact steps_trans h1 hf

theorem steps_errno {K : Call → Bool} {s t : Sys} (e : Int) (h : Steps K s t) :
    Steps K s { t with errno := e } := h

theorem mountAsecExternalBind_steps (env : Env) (s : Sys) :
    Steps isAsecSetupCall s (Volume.mountAsecExternalBind env s).2 := by
  unfold Volume.mountAsecExternalBind
  repeat' split
  all_goals
    repeat (first
      | exact steps_refl _ _
      | refine steps_snoc (by assumption) (by rfl) ?_
      | refine steps_errno _ ?_)

theorem mountAsecExternalEnsure_steps (env : Env) (s : Sys) :
    Steps isAsecSetupCall s (Volume.mountAsecExternalEnsure env s).2 := by
  unfold Volume.mountAsecExternalEnsure
  repeat' split
  all_goals
    repeat (first
      | exact steps_refl _ _
      | refine steps_snoc (by assumption) (by rfl) ?_
      | refine steps_trans ?_ (mountAsecExternalBind_steps _ _)
      | refine steps_errno _ ?_)

theorem mountAsecExternal_steps (env : Env) (s : Sys) :
    Steps isAsecSetupCall s (Volume.mountAsecExternal env s).2 := by
  unfold Volume.mountAsecExternal
  repeat' split
  all_goals
    repeat (first
      | exact steps_refl _ _
      | refine steps_snoc (by assumption) (by rfl) ?_
      | refine steps_trans ?_ (mountAsecExternalEnsure_steps _ _)
      | refine steps_errno _ ?_)

theorem createDeviceNode_steps (env : Env) (p : String) (ma mi : Int) (s : Sys) :
    Steps (fun c => c matches Call.mknod _ _) s (Volume.createDeviceNode env p ma mi s).2 := by
  unfold Volume.createDeviceNode
  repeat' split
  all_goals
    repeat (first
      | exact steps_refl _ _
      | refine steps_snoc (by assumption) (by rfl) ?_)

theorem isMountpointMounted_steps (env : Env) (path : String) (s : Sys) :
    Steps (fun c => c matches Call.fopen_proc_mounts) s
      (Volume.isMountpointMounted env path s).2 := by
  unfold Volume.isMountpointMounted
  repeat' split
  all_goals
    repeat (first
      | exact steps_refl _ _
      | refine steps_snoc (by assumption) (by rfl) ?_)

theorem doMoveMountLoop_steps (env : Env) (src dst : String) (force : Bool) (n : Nat) :
    ∀ s : Sys, Steps isMoveMountCall s (Volume.doMoveMountLoop env src dst force n s).2 := by
  induction n with
  | zero => intro s; exact steps_errno _ (steps_refl _ _)
  | succ k ih =>
    intro s
    unfold Volume.doMoveMountLoop
    repeat' split
    all_goals
      repeat (first
        | exact steps_refl _ _
        | refine steps_snoc (by assumption) (by rfl) ?_
        | refine steps_trans ?_ (ih _))

theorem doMoveMount_steps (env : Env) (src : String) (dst : Option String) (force : Bool)
    (s : Sys) : Steps isMoveMountCall s (Volume.doMoveMount env src dst force s).2 := by
  unfold Volume.doMoveMount
  repeat' split
  all_goals
    repeat (first
      | exact steps_refl _ _
      | refine steps_snoc (by assumption) (by rfl) ?_
      | refine steps_trans ?_ (doMoveMountLoop_steps _ _ _ _ _ _)
      | refine steps_errno _ ?_)

theorem umountDone_steps (env : Env) (path : String) (s : Sys) :
    Steps isUnmountCall s (Volume.umountDone env path s).2 :=
  ⟨rfl, ext_call env _ s rfl⟩

theorem doUnmountRetry_steps (env : Env) (path : String) (n : Nat) :
    ∀ s : Sys, Steps isUnmountCall s (Volume.doUnmountRetry env path n s).2 := by
  induction n with
  | zero => intro s; exact steps_refl _ _
  | succ k ih =>
    intro s
    unfold Volume.doUnmountRetry
    repeat' split
    all_goals
      repeat (first
        | exact steps_refl _ _
        | refine steps_snoc (by assumption) (by rfl) ?_
        | refine steps_via (f := Volume.umountDone env path) (by assumption)
            (umountDone_steps _ _ _) ?_
        | refine steps_trans ?_ (ih _))

theorem doUnmountKill_steps (env : Env) (path : String) (n : Nat) :
    ∀ s : Sys, Steps isUnmountCall s (Volume.doUnmountKill env path n s).2 := by
  induction n with
  | zero => intro s; exact steps_refl _ _
  | succ k ih =>
    intro s
    unfold Volume.doUnmountKill
    repeat' split
    all_goals
      repeat (first
        | exact steps_refl _ _
        | refine steps_snoc (by assumption) (by rfl) ?_
        | refine steps_via (f := Volume.umountDone env path) (by assumption)
            (umountDone_steps _ _ _) ?_
        | refine steps_trans ?_ (ih _))

theorem doUnmount_steps (env : Env) (path : String) (force : Bool) (s : Sys) :
    Steps isUnmountCall s (Volume.doUnmount env path force s).2 := by
  unfold Volume.doUnmount Volume.doUnmountGiveUp
  repeat' split
  all_goals
    repeat (first
      | exact steps_refl _ _
      | refine steps_via (f := Volume.umountDone env path) (by assumption)
          (umountDone_steps _ _ _) ?_
      | refine steps_via (f := Volume.doUnmountRetry env path _) (by assumption)
          (doUnmountRetry_steps _ _ _ _) ?_
      | refine steps_via (f := Volume.doUnmountKill env path _) (by assumption)
          (doUnmountKill_steps _ _ _ _) ?_
      | refine steps_errno _ ?_)

theorem probeFilesystems_eq_probeTree (env : Env) (p : String) (m : Nat) (s : Sys) :
    Volume.probeFilesystems env p m s = probeTree env p m s := by
  unfold Volume.probeFilesystems probeTree
  rcases call env (Call.Ntfs_doMount p SEC_STGDIR m) s with ⟨rN, s1⟩
  by_cases hN : rN.ret = 0
  · simp [hN]
  · simp only [hN, ne_eq, not_false_eq_true, if_true]
    rcases call env (Call.Fat_doMount p SEC_STGDIR m) s1 with ⟨rF, s2⟩
    by_cases hF : rF.ret = 0
    · simp [hF]
    · simp only [hF, ne_eq, not_false_eq_true, if_true]
      rcases call env (Call.Extfs_doMount p SEC_STGDIR m) s2 with ⟨rE, s3⟩
      by_cases hE : rE.ret = 0
      · simp [hE]
      · simp only [hE, ne_eq, not_false_eq_true, if_true]
        rcases call env (Call.Exfat_doMount p SEC_STGDIR m) s3 with ⟨rX, s4⟩
        by_cases hX : rX.ret = 0
        · simp [hX]
        · simp [hX]

theorem probeTree_steps (env : Env) (p : String) (m : Nat) (s : Sys) :
    Steps isProbeCall s (probeTree env p m s).2 := by
  unfold probeTree
  repeat' split
  all_goals
    repeat (first
      | exact steps_refl _ _
      | refine steps_snoc (by assumption) (by rfl) ?_)

theorem probeFilesystems_steps (env : Env) (p : String) (m : Nat) (s : Sys) :
    Steps isProbeCall s (Volume.probeFilesystems env p m s).2 := by
  rw [probeFilesystems_eq_probeTree]
  exact probeTree_steps env p m s

/-! ## C3: a successful mount records the mounted device -/

/-- C3 (the code at the failing input): `sysIdle` is an Idle volume with no mounted
device recorded, and /proc/mounts already lists its mountpoint. mountVol returns 0 and
the volume is Mounted, but current_mounted_kdev is still the null value: the
already-mounted path leaves out the assignment (`// mCurrentlyMountedKdev = XXX`). -/
theorem C3_already_mounted_leaves_kdev_null :
    sysIdle.vol.mState = State_Idle ∧
    (Volume.mountVol envAlreadyMounted sysIdle).1 = 0 ∧
    (Volume.mountVol envAlreadyMounted sysIdle).2.vol.mState = State_Mounted ∧
    (Volume.mountVol envAlreadyMounted sysIdle).2.vol.mCurrentlyMountedKdev = KDEV_NULL := by
  decide

/-! ## C4: mountVol outside Idle -/

/-- C4 (as amended): for every volume state other than Idle, mountVol returns -1,
attempts no filesystem mount and leaves the state unchanged: besides reading the two
properties it makes no call, except for the VolumeMountFailedNoMedia broadcast on the
no-media path. errno is ENODEV on the no-media path, taken when the state is NoMedia or
when the volume provides ASEC storage and decryption is pending or encryption is in
progress, and EBUSY otherwise. -/
theorem C4_mountVol_not_idle (env : Env) (s : Sys) (h : s.vol.mState ≠ State_Idle) :
    (Volume.mountVol env s).1 = -1 ∧
    (Volume.mountVol env s).2.vol.mState = s.vol.mState ∧
    (Volume.mountGate env s = true →
      (Volume.mountVol env s).2.errno = ENODEV ∧
      (Volume.mountVol env s).2.trace = s.trace ++
        [Call.property_get "vold.decrypt", Call.property_get "vold.encrypt_progress",
         Call.sendBroadcast ResponseCode.VolumeMountFailedNoMedia
           (snprintf 255 (mountFailedMsg s.vol.mLabel s.vol.mFuseMountpoint))]) ∧
    (Volume.mountGate env s = false →
      (Volume.mountVol env s).2.errno = EBUSY ∧
      (Volume.mountVol env s).2.trace = s.trace ++
        [Call.property_get "vold.decrypt", Call.property_get "vold.encrypt_progress"]) := by
  unfold Volume.mountVol Volume.mountGate
  simp only [call]
  split_ifs <;> simp_all
  tauto

/-- C4, witness: the Pending volume `sysPending`. -/
theorem C4_mountVol_not_idle_witness :
    (Volume.mountVol envOk sysPending).1 = -1 ∧
    (Volume.mountVol envOk sysPending).2.vol.mState = sysPending.vol.mState ∧
    (Volume.mountGate envOk sysPending = true →
      (Volume.mountVol envOk sysPending).2.errno = ENODEV ∧
      (Volume.mountVol envOk sysPending).2.trace = sysPending.trace ++
        [Call.property_get "vold.decrypt", Call.property_get "vold.encrypt_progress",
         Call.sendBroadcast ResponseCode.VolumeMountFailedNoMedia
           (snprintf 255 (mountFailedMsg sysPending.vol.mLabel sysPending.vol.mFuseMountpoint))]) ∧
    (Volume.mountGate envOk sysPending = false →
      (Volume.mountVol envOk sysPending).2.errno = EBUSY ∧
      (Volume.mountVol envOk sysPending).2.trace = sysPending.trace ++
        [Call.property_get "vold.decrypt", Call.property_get "vold.encrypt_progress"]) :=
  C4_mountVol_not_idle envOk sysPending (by decide)

/-- C4, counterexample: the NoMedia volume `sys0` is not Idle, and mountVol fails on it
with errno ENODEV (19), not with EBUSY (16) as the claim says. -/
theorem C4_counterexample :
    sys0.vol.mState ≠ State_Idle ∧
    (Volume.mountVol envOk sys0).1 = -1 ∧
    (Volume.mountVol envOk sys0).2.errno = ENODEV ∧
    (Volume.mountVol envOk sys0).2.errno ≠ EBUSY := by
  decide

/-! ## The volume object along mountVol -/

theorem setUuid_vol (env : Env) (u : Option String) (s : Sys) :
    (Volume.setUuid env u s).vol = { s.vol with mUuid := u } := rfl

theorem setUserLabel_vol (env : Env) (u : Option String) (s : Sys) :
    (Volume.setUserLabel env u s).vol = { s.vol with mUserLabel := u } := rfl

theorem extractMetadata_vol (env : Env) (p : String) (s : Sys) :
    ∃ u l, (Volume.extractMetadata env p s).2.vol = { s.vol with mUuid := u, mUserLabel := l } := by
  unfold Volume.extractMetadata Volume.extractMetadataDone
  simp only [call]
  repeat' split
  all_goals exact ⟨_, _, rfl⟩

theorem revertChecking_vol (env : Env) (s : Sys) (h : s.vol.mState = State_Checking) :
    (Volume.revertChecking env s).vol = { s.vol with mState := State_Idle } := by
  unfold Volume.revertChecking
  rw [if_pos h, setState_vol _ _ _ (by rw [h]; decide)]
  simp [h]

theorem mountVolFinish_vol (env : Env) (dev : Nat) (s : Sys) (h : s.vol.mState = State_Checking) :
    (Volume.mountVolFinish env dev s).1 = 0 ∧
    (Volume.mountVolFinish env dev s).2.vol =
      { s.vol with mCurrentlyMountedKdev := dev, mState := State_Mounted } := by
  unfold Volume.mountVolFinish
  simp only [call]
  refine ⟨trivial, ?_⟩
  rw [setState_vol _ _ _ (by simp [h])]
  simp [h]

theorem mountVolMove_vol (env : Env) (pa : Bool) (dev : Nat) (s : Sys)
    (h : s.vol.mState = State_Checking) :
    ((Volume.mountVolMove env pa dev s).1 = 0 ∧ (Volume.mountVolMove env pa dev s).2.vol =
        { s.vol with mCurrentlyMountedKdev := dev, mState := State_Mounted }) ∨
    ((Volume.mountVolMove env pa dev s).1 = -1 ∧ (Volume.mountVolMove env pa dev s).2.vol =
        { s.vol with mState := State_Idle }) := by
  unfold Volume.mountVolMove
  rcases h1 : Volume.doMoveMount env SEC_STGDIR (some s.vol.mMountpoint) false s with ⟨rc, s1⟩
  have hv1 : s1.vol = s.vol := by
    have := (doMoveMount_steps env SEC_STGDIR (some s.vol.mMountpoint) false s).1
    rwa [h1] at this
  dsimp only
  split_ifs with hrc hp
  · right
    simp only [call]
    refine ⟨trivial, ?_⟩
    rw [revertChecking_vol _ _ (by simp [hv1, h])]
    simp [hv1]
  · right
    simp only [call]
    refine ⟨trivial, ?_⟩
    rw [revertChecking_vol _ _ (by simp [hv1, h])]
    simp [hv1]
  · left
    have := mountVolFinish_vol env dev s1 (by rw [hv1]; exact h)
    rw [this.1, this.2, hv1]
    exact ⟨rfl, rfl⟩

theorem mountOutcome_of_move (env : Env) (pa : Bool) (dev : Nat) (s0 s : Sys)
    (u l : Option String)
    (hv : s.vol = { s0.vol with mUuid := u, mUserLabel := l })
    (h : s0.vol.mState = State_Checking) :
    MountOutcome s0.vol dev (Volume.mountVolMove env pa dev s).1
      (Volume.mountVolMove env pa dev s).2.vol := by
  have hs : s.vol.mState = State_Checking := by rw [hv]; exact h
  rcases mountVolMove_vol env pa dev s hs with ⟨h1, h2⟩ | ⟨h1, h2⟩
  · exact ⟨u, l, Or.inl ⟨h1, by rw [h2, hv]⟩⟩
  · exact ⟨u, l, Or.inr ⟨h1, by rw [h2, hv]⟩⟩

theorem mountVolSecure_outcome (env : Env) (pa : Bool) (p : String) (dev : Nat) (s : Sys)
    (h : s.vol.mState = State_Checking) :
    MountOutcome s.vol dev (Volume.mountVolSecure env pa p dev s).1
      (Volume.mountVolSecure env pa p dev s).2.vol := by
  unfold Volume.mountVolSecure
  obtain ⟨u, l, hv1⟩ := extractMetadata_vol env p s
  have hv2 := (mountAsecExternal_steps env (Volume.extractMetadata env p s).2).1
  dsimp only
  split_ifs with hpa hrc
  · simp only [call]
    refine ⟨u, l, Or.inr ⟨rfl, ?_⟩⟩
    rw [revertChecking_vol _ _ (by simp [hv2, hv1, h])]
    simp [hv2, hv1]
  · exact mountOutcome_of_move env pa dev s _ u l (by rw [hv2, hv1]) h
  · exact mountOutcome_of_move env pa dev s _ u l hv1 h

theorem mountVolDevice_outcome (env : Env) (pa : Bool) (dev : Nat) (s : Sys)
    (h : s.vol.mState = State_Idle) :
    MountOutcome s.vol dev (Volume.mountVolDevice env pa dev s).1
      (Volume.mountVolDevice env pa dev s).2.vol := by
  unfold Volume.mountVolDevice
  have hc : (Volume.setState env State_Checking s).vol = { s.vol with mState := State_Checking } := by
    rw [setState_vol _ _ _ (by rw [h]; decide)]
    simp [h]
  rcases h1 : Volume.probeFilesystems env (nodePath (MAJOR dev) (MINOR dev))
      (if pa = true then 0o007 else 0o002)
      { Volume.setState env State_Checking s with errno := 0 } with ⟨un, s1⟩
  have hv1 : s1.vol = { s.vol with mState := State_Checking } := by
    have := (probeFilesystems_steps env (nodePath (MAJOR dev) (MINOR dev))
      (if pa = true then 0o007 else 0o002)
      { Volume.setState env State_Checking s with errno := 0 }).1
    rw [h1] at this
    rw [this]
    exact hc
  dsimp only
  split_ifs with hun
  · refine ⟨s.vol.mUuid, s.vol.mUserLabel, Or.inr ⟨rfl, ?_⟩⟩
    rw [revertChecking_vol _ _ (by simp [hv1])]
    simp [hv1]
  · obtain ⟨u, l, ho⟩ := mountVolSecure_outcome env pa (nodePath (MAJOR dev) (MINOR dev)) dev s1
      (by simp [hv1])
    refine ⟨u, l, ?_⟩
    rcases ho with ⟨a, b⟩ | ⟨a, b⟩
    · exact Or.inl ⟨a, by rw [b, hv1]⟩
    · exact Or.inr ⟨a, by rw [b, hv1]⟩

theorem mountVolLoop_outcome (env : Env) (pa : Bool) (nodes : List Nat) (s : Sys)
    (h : s.vol.mState = State_Idle) :
    MountOutcome s.vol (nodes.headD 0) (Volume.mountVolLoop env pa nodes s).1
      (Volume.mountVolLoop env pa nodes s).2.vol := by
  unfold Volume.mountVolLoop
  cases nodes with
  | nil =>
    refine ⟨s.vol.mUuid, s.vol.mUserLabel, Or.inr ⟨rfl, ?_⟩⟩
    simp [Volume.revertChecking, h]
    rw [← h]
  | cons dev rest => exact mountVolDevice_outcome env pa dev s h

theorem updateDeviceInfo_frame (p : String) (ma mi : Int) (v : DirectVolume) :
    (DirectVolume.updateDeviceInfo p ma mi v).2.mState = v.mState ∧
    (DirectVolume.updateDeviceInfo p ma mi v).2.mRetryMount = v.mRetryMount ∧
    (DirectVolume.updateDeviceInfo p ma mi v).2.mCurrentlyMountedKdev = v.mCurrentlyMountedKdev ∧
    (DirectVolume.updateDeviceInfo p ma mi v).2.mLabel = v.mLabel ∧
    (DirectVolume.updateDeviceInfo p ma mi v).2.mFuseMountpoint = v.mFuseMountpoint ∧
    (DirectVolume.updateDeviceInfo p ma mi v).2.mMountpoint = v.mMountpoint ∧
    (DirectVolume.updateDeviceInfo p ma mi v).2.mFlags = v.mFlags := by
  unfold DirectVolume.updateDeviceInfo
  split_ifs <;> simp

theorem mountOutcome_fail_idle (v : DirectVolume) (dev : Nat) (h : v.mState = State_Idle) :
    MountOutcome v dev (-1) v := by
  refine ⟨v.mUuid, v.mUserLabel, Or.inr ⟨rfl, ?_⟩⟩
  rw [← h]

theorem mountVolDecrypt_outcome (env : Env) (nodes : List Nat) (s : Sys)
    (h : s.vol.mState = State_Idle) :
    ∃ v0 dev, (v0 = s.vol ∨ ∃ p ma mi, v0 = (DirectVolume.updateDeviceInfo p ma mi s.vol).2) ∧
      MountOutcome v0 dev (Volume.mountVolDecrypt env nodes s).1
        (Volume.mountVolDecrypt env nodes s).2.vol := by
  unfold Volume.mountVolDecrypt
  split
  rename_i _ cs s1 h1
  have hv1 : s1.vol = s.vol := by
    have := call_vol env (Call.property_get "ro.crypto.state") s
    rwa [h1] at this
  split
  · split
    · exact ⟨s.vol, 0, Or.inl rfl, by rw [hv1]; exact mountOutcome_fail_idle s.vol 0 h⟩
    · split
      rename_i _ r2 s2 h2
      have hv2 : s2.vol = s.vol := by
        have := call_vol env (Call.cryptfs_setup_volume s1.vol.mLabel
          (MAJOR (nodes.headD 0)) (MINOR (nodes.headD 0))) s1
        rw [h2] at this
        rw [this, hv1]
      split
      · exact ⟨s.vol, 0, Or.inl rfl, by rw [hv2]; exact mountOutcome_fail_idle s.vol 0 h⟩
      · split
        rename_i _ r3 s3 h3
        have hv3 : s3.vol = s.vol := by
          have := (createDeviceNode_steps env (snprintf 256 (nodePath r2.major r2.minor))
            r2.major r2.minor s2).1
          rw [h3] at this
          rw [this, hv2]
        have hst : (DirectVolume.updateDeviceInfo (snprintf 256 (nodePath r2.major r2.minor))
            r2.major r2.minor s3.vol).2.mState = State_Idle := by
          rw [(updateDeviceInfo_frame _ _ _ _).1, hv3]; exact h
        dsimp only
        have hrel : (DirectVolume.updateDeviceInfo (snprintf 256 (nodePath r2.major r2.minor))
            r2.major r2.minor s3.vol).2 = (DirectVolume.updateDeviceInfo
              (snprintf 256 (nodePath r2.major r2.minor)) r2.major r2.minor s.vol).2 := by
          rw [hv3]
        generalize (DirectVolume.updateDeviceInfo (snprintf 256 (nodePath r2.major r2.minor))
            r2.major r2.minor s3.vol).2 = v4 at hst hrel ⊢
        split
        · exact ⟨v4, 0, Or.inr ⟨_, _, _, hrel⟩, mountOutcome_fail_idle _ 0 hst⟩
        · exact ⟨v4, v4.getDeviceNodes.headD 0, Or.inr ⟨_, _, _, hrel⟩,
            mountVolLoop_outcome env _ _ _ hst⟩
  · refine ⟨s.vol, nodes.headD 0, Or.inl rfl, ?_⟩
    have := mountVolLoop_outcome env s.vol.mFlags.VOL_PROVIDES_ASEC nodes s1 (by rw [hv1]; exact h)
    rw [hv1] at this
    exact this

/-- The volume object after mountVol on an Idle volume that passes the no-media test:
either the mountpoint was found mounted (success, only the state changes), or the
probe-and-mount part ran, on the volume as it was or as updated for decryption. -/
theorem mountVol_idle_outcome (env : Env) (s : Sys) (h : s.vol.mState = State_Idle)
    (hg : Volume.mountGate env s = false) :
    ((Volume.mountVol env s).1 = 0 ∧
      (Volume.mountVol env s).2.vol = { s.vol with mState := State_Mounted }) ∨
    ∃ v0 dev, (v0 = s.vol ∨ ∃ p ma mi, v0 = (DirectVolume.updateDeviceInfo p ma mi s.vol).2) ∧
      MountOutcome v0 dev (Volume.mountVol env s).1 (Volume.mountVol env s).2.vol := by
  unfold Volume.mountVol
  unfold Volume.mountGate at hg
  simp only [call]
  rw [if_neg (by simpa [h] using hg), if_neg (by simp [h])]
  have hv := (isMountpointMounted_steps env s.vol.mMountpoint
    { vol := s.vol,
      errno := (env (s.trace ++ [Call.property_get "vold.decrypt"])
        (Call.property_get "vold.encrypt_progress")).err.getD
          ((env s.trace (Call.property_get "vold.decrypt")).err.getD s.errno),
      trace := s.trace ++ [Call.property_get "vold.decrypt"] ++
        [Call.property_get "vold.encrypt_progress"] }).1
  dsimp only at hv ⊢
  split_ifs with hm hn
  · left
    refine ⟨rfl, ?_⟩
    rw [setState_vol _ _ _ (by rw [hv, h]; decide), hv]
    simp [h]
  · right
    exact ⟨s.vol, 0, Or.inl rfl, by rw [hv]; exact mountOutcome_fail_idle s.vol 0 h⟩
  · right
    obtain ⟨v0, dev, hrel, ho⟩ := mountVolDecrypt_outcome env
      (DirectVolume.getDeviceNodes (Volume.isMountpointMounted env s.vol.mMountpoint
        { vol := s.vol,
          errno := (env (s.trace ++ [Call.property_get "vold.decrypt"])
            (Call.property_get "vold.encrypt_progress")).err.getD
              ((env s.trace (Call.property_get "vold.decrypt")).err.getD s.errno),
          trace := s.trace ++ [Call.property_get "vold.decrypt"] ++
            [Call.property_get "vold.encrypt_progress"] }).2.vol)
      (Volume.isMountpointMounted env s.vol.mMountpoint
        { vol := s.vol,
          errno := (env (s.trace ++ [Call.property_get "vold.decrypt"])
            (Call.property_get "vold.encrypt_progress")).err.getD
              ((env s.trace (Call.property_get "vold.decrypt")).err.getD s.errno),
          trace := s.trace ++ [Call.property_get "vold.decrypt"] ++
            [Call.property_get "vold.encrypt_progress"] }).2
      (by rw [hv]; exact h)
    rw [hv] at hrel
    exact ⟨v0, dev, hrel, ho⟩

/-! ## C5: when mountVol sets retry_mount -/

/-- C5 (as amended): mountVol sets retry_mount to true if and only if it is called while
the state is Pending and the call is not stopped by the no-media test that comes first
(the volume provides ASEC storage and decryption is pending or encryption is in
progress); every other call, in whatever state, leaves retry_mount unchanged. -/
theorem C5_retry_mount_set_iff_pending (env : Env) (s : Sys) :
    (Volume.mountVol env s).2.vol.mRetryMount =
      if s.vol.mState = State_Pending ∧ Volume.mountGate env s = false then true
      else s.vol.mRetryMount := by
  by_cases hidle : s.vol.mState = State_Idle
  · rw [if_neg (by rw [hidle]; simp)]
    by_cases hg : Volume.mountGate env s = false
    · rcases mountVol_idle_outcome env s hidle hg with ⟨_, hv⟩ | ⟨v0, dev, hrel, u, l, ho⟩
      · rw [hv]
      · have h0 : v0.mRetryMount = s.vol.mRetryMount := by
          rcases hrel with rfl | ⟨p, ma, mi, rfl⟩
          · rfl
          · exact (updateDeviceInfo_frame p ma mi s.vol).2.1
        rcases ho with ⟨_, hv⟩ | ⟨_, hv⟩
        · rw [hv]; exact h0
        · rw [hv]; exact h0
    · unfold Volume.mountGate at hg
      unfold Volume.mountVol
      simp only [call]
      rw [if_pos (by simpa [hidle] using hg)]
  · unfold Volume.mountVol Volume.mountGate
    simp only [call]
    split_ifs <;> simp_all

/-- C5, counterexample: the volume is Pending and provides ASEC storage while
`vold.decrypt` is "1". mountVol is called in Pending, yet it returns through the
no-media path (ENODEV) and retry_mount stays false. -/
theorem C5_counterexample :
    sysPendingAsec.vol.mState = State_Pending ∧
    sysPendingAsec.vol.mRetryMount = false ∧
    (Volume.mountVol envDecryptPending sysPendingAsec).1 = -1 ∧
    (Volume.mountVol envDecryptPending sysPendingAsec).2.errno = ENODEV ∧
    (Volume.mountVol envDecryptPending sysPendingAsec).2.vol.mRetryMount = false := by
  decide

/-! ## Calls of the mount tail -/

theorem ext_setState {K : Call → Bool} (env : Env) (st : State) {s t : Sys}
    (hK : ∀ msg, K (Call.sendBroadcast ResponseCode.VolumeStateChange msg) = true)
    (h : Ext K s t) : Ext K s (Volume.setState env st t) := by
  by_cases hst : t.vol.mState = st
  · rw [setState_same env st t hst]; exact h
  · refine ext_trans h ⟨[stateChangeCall t st], setState_trace env st t hst, ?_⟩
    intro c hc
    rw [List.mem_singleton] at hc
    rw [hc]
    exact hK _

theorem ext_of_trace {K : Call → Bool} {s t u : Sys} (hu : u.trace = t.trace) (h : Ext K s t) :
    Ext K s u := by
  obtain ⟨cs, h1, h2⟩ := h
  exact ⟨cs, by rw [hu, h1], h2⟩

theorem ext_revertChecking {K : Call → Bool} (env : Env) {s t : Sys}
    (hK : ∀ msg, K (Call.sendBroadcast ResponseCode.VolumeStateChange msg) = true)
    (h : Ext K s t) : Ext K s (Volume.revertChecking env t) := by
  unfold Volume.revertChecking
  split
  · exact ext_setState env _ hK h
  · exact h

theorem ext_setUuid {K : Call → Bool} (env : Env) (u : Option String) {s t : Sys}
    (hK : ∀ msg, K (Call.sendBroadcast ResponseCode.VolumeUuidChange msg) = true)
    (h : Ext K s t) : Ext K s (Volume.setUuid env u t) :=
  ext_trans h ⟨[_], rfl, by intro c hc; rw [List.mem_singleton] at hc; rw [hc]; exact hK _⟩

theorem ext_setUserLabel {K : Call → Bool} (env : Env) (u : Option String) {s t : Sys}
    (hK : ∀ msg, K (Call.sendBroadcast ResponseCode.VolumeUserLabelChange msg) = true)
    (h : Ext K s t) : Ext K s (Volume.setUserLabel env u t) :=
  ext_trans h ⟨[_], rfl, by intro c hc; rw [List.mem_singleton] at hc; rw [hc]; exact hK _⟩

theorem extractMetadata_ext (env : Env) (p : String) (s : Sys) :
    Ext isMetadataCall s (Volume.extractMetadata env p s).2 := by
  unfold Volume.extractMetadata Volume.extractMetadataDone
  repeat' split
  all_goals
    repeat (first
      | exact ext_refl _ _
      | refine ext_snoc (by assumption) (by rfl) ?_
      | refine ext_setUuid _ _ (fun _ => rfl) ?_
      | refine ext_setUserLabel _ _ (fun _ => rfl) ?_)

theorem isTailMidCall_not_probe (c : Call) (h : isTailMidCall c = true) :
    isProbeCall c = false := by
  cases c <;> first | rfl | (simp [isTailMidCall, isMetadataCall, isAsecSetupCall,
    isMoveMountCall] at h)

theorem getDeviceNodes_singleton (v : DirectVolume) :
    DirectVolume.getDeviceNodes v = [(DirectVolume.getDeviceNodes v).headD 0] := by
  unfold DirectVolume.getDeviceNodes
  split_ifs <;> rfl

/-- With the tests before the loop passed and no decryption set-up needed, mountVol is
its loop body on the first candidate device, run after the four preliminary reads. -/
theorem mountVol_eq_mountVolDevice (env : Env) (s : Sys)
    (hidle : s.vol.mState = State_Idle)
    (hgate : Volume.mountGate env s = false)
    (hnm : Volume.mountpointFound env s = false)
    (hnd : ¬ (s.vol.mFlags.VOL_PROVIDES_ASEC = true ∧ s.vol.mFlags.VOL_NONREMOVABLE = true ∧
      s.vol.mFlags.VOL_ENCRYPTABLE = true) ∨ s.vol.mIsDecrypted = true) :
    Volume.mountVol env s =
      Volume.mountVolDevice env s.vol.mFlags.VOL_PROVIDES_ASEC
        ((DirectVolume.getDeviceNodes s.vol).headD 0) (Volume.mountVolPrelude env s) := by
  unfold Volume.mountVol Volume.mountVolPrelude
  unfold Volume.mountGate at hgate
  unfold Volume.mountpointFound at hnm
  simp only [call] at hnm ⊢
  rw [if_neg (by simpa [hidle] using hgate), if_neg (by simp [hidle])]
  have hv := (isMountpointMounted_steps env s.vol.mMountpoint
    { vol := s.vol,
      errno := (env (s.trace ++ [Call.property_get "vold.decrypt"])
        (Call.property_get "vold.encrypt_progress")).err.getD
          ((env s.trace (Call.property_get "vold.decrypt")).err.getD s.errno),
      trace := s.trace ++ [Call.property_get "vold.decrypt"] ++
        [Call.property_get "vold.encrypt_progress"] }).1
  dsimp only at hv hnm ⊢
  rw [hnm]
  simp only [Bool.false_eq_true, if_false]
  rw [hv, if_neg (by rw [getDeviceNodes_singleton]; simp)]
  unfold Volume.mountVolDecrypt
  simp only [call]
  rw [hv, if_neg (by tauto), getDeviceNodes_singleton s.vol]
  rfl

/-! ## C6: the order of the filesystem probes -/

theorem isUnmountCall_tail (c : Call) (h : isUnmountCall c = true) :
    isUnmountTailCall c = true := by
  cases c <;> first | rfl | (simp [isUnmountCall] at h)

theorem isAsecSetupCall_unmountTail (c : Call) (h : isAsecSetupCall c = true) :
    isUnmountTailCall c = true := by
  cases c <;> first | rfl | (simp [isAsecSetupCall] at h)
  rename_i a b f
  cases f <;> first | rfl | (simp [isAsecSetupCall] at h)

theorem unmountVolFailRemountSecure_ext (env : Env) (pa : Bool) (s : Sys) :
    Ext isUnmountTailCall s (Volume.unmountVolFailRemountSecure env pa s).2 := by
  unfold Volume.unmountVolFailRemountSecure Volume.unmountVolOutMounted
    Volume.unmountVolOutNoMedia
  repeat' split
  all_goals
    repeat (first
      | exact ext_refl _ _
      | refine ext_setState _ _ (fun _ => rfl) ?_
      | refine ext_via (f := Volume.mountAsecExternal env) (by assumption)
          (ext_mono (mountAsecExternal_steps _ _).2 isAsecSetupCall_unmountTail) ?_)

theorem unmountVolReal_ext (env : Env) (force revert pa : Bool) (s : Sys) :
    Ext isUnmountTailCall s (Volume.unmountVolReal env force revert pa s).2 := by
  unfold Volume.unmountVolReal
  have h1 : Ext isUnmountTailCall s (Volume.doUnmount env s.vol.mMountpoint force s).2 :=
    ext_mono (doUnmount_steps _ _ _ _).2 isUnmountCall_tail
  dsimp only
  split_ifs
  · exact ext_trans h1 (unmountVolFailRemountSecure_ext _ _ _)
  · exact ext_of_trace (t := (call env (Call.cryptfs_revert_volume
      (Volume.doUnmount env s.vol.mMountpoint force s).2.vol.mLabel)
      (Volume.doUnmount env s.vol.mMountpoint force s).2).2) rfl
      (ext_trans h1 (ext_call _ _ _ rfl))
  · exact ext_of_trace (t := (Volume.doUnmount env s.vol.mMountpoint force s).2) rfl h1

theorem unmountVolSecure_ext (env : Env) (force revert pa : Bool) (s : Sys) :
    Ext isUnmountTailCall s (Volume.unmountVolSecure env force revert pa s).2 := by
  unfold Volume.unmountVolSecure Volume.unmountVolOutMounted
  have h1 : Ext isUnmountTailCall s (Volume.doUnmount env SEC_ASECDIR_EXT force s).2 :=
    ext_mono (doUnmount_steps _ _ _ _).2 isUnmountCall_tail
  dsimp only
  split_ifs
  · exact ext_setState _ _ (fun _ => rfl) h1
  · exact ext_trans h1 (unmountVolReal_ext _ _ _ _ _)
  · exact unmountVolReal_ext _ _ _ _ _

theorem unmountVolFailRemountSecure_outcome (env : Env) (pa : Bool) (s : Sys)
    (h : s.vol.mState = State_Idle) :
    (Volume.unmountVolFailRemountSecure env pa s).1 = -1 ∧
    ((Volume.unmountVolFailRemountSecure env pa s).2.vol = { s.vol with mState := State_Mounted } ∨
     (Volume.unmountVolFailRemountSecure env pa s).2.vol = { s.vol with mState := State_NoMedia }) := by
  unfold Volume.unmountVolFailRemountSecure Volume.unmountVolOutMounted
    Volume.unmountVolOutNoMedia
  have hv := (mountAsecExternal_steps env s).1
  dsimp only
  split_ifs
  · refine ⟨rfl, Or.inr ?_⟩
    rw [setState_vol _ _ _ (by rw [hv, h]; decide), hv]
    simp [h]
  · refine ⟨rfl, Or.inl ?_⟩
    rw [setState_vol _ _ _ (by rw [hv, h]; decide), hv]
    simp [h]
  · refine ⟨rfl, Or.inl ?_⟩
    rw [setState_vol _ _ _ (by rw [h]; decide)]
    simp [h]

theorem revertDeviceInfo_setState (v : DirectVolume) (st : State) :
    DirectVolume.revertDeviceInfo { v with mState := st } =
      { DirectVolume.revertDeviceInfo v with mState := st } := by
  unfold DirectVolume.revertDeviceInfo
  split_ifs <;> rfl

theorem unmountVolReal_outcome (env : Env) (force revert pa : Bool) (s : Sys) (v0 : DirectVolume)
    (hs : s.vol = { v0 with mState := State_Idle }) :
    UnmountOutcome v0 (Volume.unmountVolReal env force revert pa s).1
      (Volume.unmountVolReal env force revert pa s).2.vol := by
  unfold Volume.unmountVolReal
  have hv := (doUnmount_steps env s.vol.mMountpoint force s).1
  have hf := unmountVolFailRemountSecure_outcome env pa
    (Volume.doUnmount env s.vol.mMountpoint force s).2 (by rw [hv, hs])
  dsimp only
  split_ifs
  · refine Or.inr ⟨hf.1, ?_⟩
    rcases hf.2 with h | h
    · left; rw [h, hv, hs]
    · right; rw [h, hv, hs]
  · refine Or.inl ⟨rfl, Or.inr ?_⟩
    simp only [call_vol]
    rw [hv, hs, revertDeviceInfo_setState]
  · refine Or.inl ⟨rfl, Or.inl ?_⟩
    simp only []
    rw [hv, hs]

theorem unmountVolSecure_outcome (env : Env) (force revert pa : Bool) (s : Sys)
    (v0 : DirectVolume) (hs : s.vol = { v0 with mState := State_Idle }) :
    UnmountOutcome v0 (Volume.unmountVolSecure env force revert pa s).1
      (Volume.unmountVolSecure env force revert pa s).2.vol := by
  unfold Volume.unmountVolSecure Volume.unmountVolOutMounted
  have hv := (doUnmount_steps env SEC_ASECDIR_EXT force s).1
  dsimp only
  split_ifs
  · refine Or.inr ⟨rfl, Or.inl ?_⟩
    rw [setState_vol _ _ _ (by rw [hv, hs]; simp), hv, hs]
    simp
  · exact unmountVolReal_outcome env force revert pa _ v0 (by rw [hv, hs])
  · exact unmountVolReal_outcome env force revert pa _ v0 hs

/-- The volume object and the calls of unmountVol on a Mounted volume: the two state
changes, the ISO cleanup, a one-second sleep if the volume provides ASEC storage, the
ASEC cleanup, the stop of the FUSE service, and then the unmounting proper. -/
theorem unmountVol_mounted (env : Env) (force revert : Bool) (s : Sys)
    (h : s.vol.mState = State_Mounted) :
    UnmountOutcome s.vol (Volume.unmountVol env force revert s).1
      (Volume.unmountVol env force revert s).2.vol ∧
    ∃ rest, (Volume.unmountVol env force revert s).2.trace = s.trace ++
        [Call.sendBroadcast ResponseCode.VolumeStateChange
           (snprintf 255 (stateChangedMsg s.vol.mLabel s.vol.mFuseMountpoint
             State_Mounted State_Unmounting)),
         Call.sendBroadcast ResponseCode.VolumeStateChange
           (snprintf 255 (stateChangedMsg s.vol.mLabel s.vol.mFuseMountpoint
             State_Unmounting State_Idle)),
         Call.cleanupISO s.vol.mLabel true] ++
        (if s.vol.mFlags.VOL_PROVIDES_ASEC = true then [Call.usleep (1000 * 1000)] else []) ++
        [Call.cleanupAsec s.vol.mLabel true,
         Call.property_set "ctl.stop" (fuseService s.vol.mLabel)] ++ rest ∧
      ∀ c ∈ rest, isUnmountTailCall c = true := by
  have hv1 : (Volume.setState env State_Unmounting s).vol =
      { s.vol with mState := State_Unmounting } := by
    rw [setState_vol _ _ _ (by rw [h]; decide)]
    simp [h]
  have ht1 := setState_trace env State_Unmounting s (by rw [h]; decide)
  have hv2 : (Volume.setState env State_Idle (Volume.setState env State_Unmounting s)).vol =
      { s.vol with mState := State_Idle } := by
    rw [setState_vol _ _ _ (by rw [hv1]; simp), hv1]
    simp
  have ht2 := setState_trace env State_Idle (Volume.setState env State_Unmounting s)
    (by rw [hv1]; simp)
  rw [ht1] at ht2
  simp only [stateChangeCall, hv1, h] at ht2
  unfold Volume.unmountVol
  rw [if_neg (by simp [h])]
  generalize Volume.setState env State_Idle (Volume.setState env State_Unmounting s) = s2
    at hv2 ht2 ⊢
  unfold Volume.unmountVolCleanupAsec
  simp only [call]
  split_ifs with hpa
  · constructor
    · exact unmountVolSecure_outcome env force revert _ _ s.vol (by simp [hv2])
    · obtain ⟨rest, hr1, hr2⟩ := unmountVolSecure_ext env force revert
        s.vol.mFlags.VOL_PROVIDES_ASEC
        { vol := s2.vol,
          errno := (env (s2.trace ++ [Call.cleanupISO s.vol.mLabel true] ++
              [Call.usleep (1000 * 1000)] ++ [Call.cleanupAsec s2.vol.mLabel true])
            (Call.property_set "ctl.stop" (fuseService s2.vol.mLabel))).err.getD
              ((env (s2.trace ++ [Call.cleanupISO s.vol.mLabel true] ++
                [Call.usleep (1000 * 1000)]) (Call.cleanupAsec s2.vol.mLabel true)).err.getD
                  ((env (s2.trace ++ [Call.cleanupISO s.vol.mLabel true])
                    (Call.usleep (1000 * 1000))).err.getD
                      ((env s2.trace (Call.cleanupISO s.vol.mLabel true)).err.getD s2.errno))),
          trace := s2.trace ++ [Call.cleanupISO s.vol.mLabel true] ++
            [Call.usleep (1000 * 1000)] ++ [Call.cleanupAsec s2.vol.mLabel true] ++
            [Call.property_set "ctl.stop" (fuseService s2.vol.mLabel)] }
      refine ⟨rest, ?_, hr2⟩
      rw [hr1]
      simp [ht2, hv2]
  · constructor
    · exact unmountVolSecure_outcome env force revert _ _ s.vol (by simp [hv2])
    · obtain ⟨rest, hr1, hr2⟩ := unmountVolSecure_ext env force revert
        s.vol.mFlags.VOL_PROVIDES_ASEC
        { vol := s2.vol,
          errno := (env (s2.trace ++ [Call.cleanupISO s.vol.mLabel true] ++
              [Call.cleanupAsec s2.vol.mLabel true])
            (Call.property_set "ctl.stop" (fuseService s2.vol.mLabel))).err.getD
              ((env (s2.trace ++ [Call.cleanupISO s.vol.mLabel true])
                (Call.cleanupAsec s2.vol.mLabel true)).err.getD
                  ((env s2.trace (Call.cleanupISO s.vol.mLabel true)).err.getD s2.errno)),
          trace := s2.trace ++ [Call.cleanupISO s.vol.mLabel true] ++
            [Call.cleanupAsec s2.vol.mLabel true] ++
            [Call.property_set "ctl.stop" (fuseService s2.vol.mLabel)] }
      refine ⟨rest, ?_, hr2⟩
      rw [hr1]
      simp [ht2, hv2]

theorem broadcasts_append (code : ResponseCode) (a b : List Call) :
    broadcasts code (a ++ b) = broadcasts code a ++ broadcasts code b := by
  simp [broadcasts]

theorem broadcasts_nil_of (code : ResponseCode) (cs : List Call)
    (h : ∀ c ∈ cs, ∀ msg, c ≠ Call.sendBroadcast code msg) : broadcasts code cs = [] := by
  induction cs with
  | nil => rfl
  | cons c rest ih =>
    have ih1 := ih (fun c1 h1 => h c1 (List.mem_cons_of_mem _ h1))
    have hc := h c (List.mem_cons_self _ _)
    unfold broadcasts at ih1 ⊢
    rw [List.filterMap_cons]
    split
    · exact ih1
    · rename_i msg hm
      split at hm
      · split_ifs at hm with hcode
        exact absurd (by rw [hcode]) (hc _)
      · exact absurd hm (by simp)

theorem broadcasts_of_ext {K : Call → Bool} {s t : Sys} (code : ResponseCode) (h : Ext K s t)
    (hK : ∀ c, K c = true → ∀ msg, c ≠ Call.sendBroadcast code msg) :
    broadcasts code t.trace = broadcasts code s.trace := by
  obtain ⟨cs, h1, h2⟩ := h
  rw [h1, broadcasts_append, broadcasts_nil_of code cs (fun c hc => hK c (h2 c hc))]
  simp

theorem unmountVol_ext (env : Env) (force revert : Bool) (s : Sys) :
    Ext isUnmountVolCall s (Volume.unmountVol env force revert s).2 := by
  by_cases h : s.vol.mState = State_Mounted
  · obtain ⟨_, rest, hr1, hr2⟩ := unmountVol_mounted env force revert s h
    refine ⟨[Call.sendBroadcast ResponseCode.VolumeStateChange
           (snprintf 255 (stateChangedMsg s.vol.mLabel s.vol.mFuseMountpoint
             State_Mounted State_Unmounting)),
         Call.sendBroadcast ResponseCode.VolumeStateChange
           (snprintf 255 (stateChangedMsg s.vol.mLabel s.vol.mFuseMountpoint
             State_Unmounting State_Idle)),
         Call.cleanupISO s.vol.mLabel true] ++
        (if s.vol.mFlags.VOL_PROVIDES_ASEC = true then [Call.usleep (1000 * 1000)] else []) ++
        [Call.cleanupAsec s.vol.mLabel true,
         Call.property_set "ctl.stop" (fuseService s.vol.mLabel)] ++ rest,
      by rw [hr1]; simp only [List.append_assoc], ?_⟩
    intro c hc
    simp only [List.mem_append, List.mem_cons, List.mem_singleton, List.not_mem_nil,
      or_false] at hc
    rcases hc with (((rfl | rfl | rfl) | hc) | (rfl | rfl)) | hc
    · rfl
    · rfl
    · rfl
    · split_ifs at hc
      · simp at hc; rw [hc]; rfl
      · simp at hc
    · rfl
    · rfl
    · simp [isUnmountVolCall, hr2 c hc]
  · unfold Volume.unmountVol
    rw [if_pos h]
    exact ext_of_trace (t := s) rfl (ext_refl _ _)

theorem isUnmountVolCall_not_diskRemoved (c : Call) (h : isUnmountVolCall c = true) (msg : String) :
    c ≠ Call.sendBroadcast ResponseCode.VolumeDiskRemoved msg := by
  intro hc
  rw [hc] at h
  simp [isUnmountVolCall, isUnmountTailCall] at h

/-! ## C7: bad removal while mounted -/

/-- C7 (as amended): when a DirectVolume in Mounted handles a Remove(partition) event
whose (major, minor) equals current_mounted_kdev, handlePartitionRemoved calls
unmountVol with force = true (and revert = false) and then sends exactly one
DiskRemoved broadcast. If that unmount succeeds the volume ends in NoMedia; if it
fails the state is left as unmountVol's failure path set it, Mounted or NoMedia. -/
theorem C7_bad_removal_while_mounted (env : Env) (evt : NetlinkEvent) (s : Sys)
    (hst : s.vol.mState = State_Mounted)
    (hdev : MKDEV evt.MAJOR evt.MINOR = s.vol.mCurrentlyMountedKdev) :
    ∃ s1, DirectVolume.handlePartitionRemoved env evt s = some s1 ∧
      s1 = DirectVolume.broadcastBadRemoval env evt
        (if (Volume.unmountVol env true false s).1 ≠ 0 then (Volume.unmountVol env true false s).2
         else Volume.setState env State_NoMedia (Volume.unmountVol env true false s).2) ∧
      ((Volume.unmountVol env true false s).1 = 0 → s1.vol.mState = State_NoMedia) ∧
      ((Volume.unmountVol env true false s).1 ≠ 0 →
        s1.vol.mState = (Volume.unmountVol env true false s).2.vol.mState ∧
        (s1.vol.mState = State_Mounted ∨ s1.vol.mState = State_NoMedia)) ∧
      broadcasts ResponseCode.VolumeDiskRemoved s1.trace =
        broadcasts ResponseCode.VolumeDiskRemoved s.trace ++
          [snprintf 255 (badRemovalMsg s.vol.mLabel s.vol.mFuseMountpoint evt.MAJOR evt.MINOR)] := by
  obtain ⟨hout, _⟩ := unmountVol_mounted env true false s hst
  have hext := unmountVol_ext env true false s
  have hb := broadcasts_of_ext ResponseCode.VolumeDiskRemoved hext
    isUnmountVolCall_not_diskRemoved
  have hlab : (Volume.unmountVol env true false s).2.vol.mLabel = s.vol.mLabel ∧
      (Volume.unmountVol env true false s).2.vol.mFuseMountpoint = s.vol.mFuseMountpoint := by
    rcases hout with ⟨_, hv | hv⟩ | ⟨_, hv | hv⟩
    · rw [hv]; exact ⟨rfl, rfl⟩
    · rw [hv]; unfold DirectVolume.revertDeviceInfo; split_ifs <;> exact ⟨rfl, rfl⟩
    · rw [hv]; exact ⟨rfl, rfl⟩
    · rw [hv]; exact ⟨rfl, rfl⟩
  unfold DirectVolume.handlePartitionRemoved
  rw [if_neg (by rw [hst]; decide), if_neg (by simp [hst]), if_pos hdev]
  dsimp only
  by_cases hrc : (Volume.unmountVol env true false s).1 = 0
  · have hidle : (Volume.unmountVol env true false s).2.vol.mState = State_Idle := by
      rcases hout with ⟨_, hv | hv⟩ | ⟨hneg, _⟩
      · rw [hv]
      · rw [hv]
      · rw [hrc] at hneg; exact absurd hneg (by decide)
    have hne : (Volume.unmountVol env true false s).2.vol.mState ≠ State_NoMedia := by
      rw [hidle]; decide
    simp only [hrc, ne_eq, not_true_eq_false, if_false]
    refine ⟨_, rfl, rfl, ?_, ?_, ?_⟩
    · intro _
      unfold DirectVolume.broadcastBadRemoval
      rw [call_vol, setState_vol _ _ _ hne]
    · intro hc; exact hc.elim
    · unfold DirectVolume.broadcastBadRemoval
      rw [call_trace, broadcasts_append, setState_trace _ _ _ hne, broadcasts_append, hb,
        setState_vol _ _ _ hne]
      simp [broadcasts, stateChangeCall, hlab.1, hlab.2]
  · simp only [hrc, ne_eq, not_false_eq_true, if_true]
    refine ⟨_, rfl, rfl, ?_, ?_, ?_⟩
    · intro hc; exact hc.elim
    · intro _
      unfold DirectVolume.broadcastBadRemoval
      rw [call_vol]
      refine ⟨rfl, ?_⟩
      rcases hout with ⟨h0, _⟩ | ⟨_, hv | hv⟩
      · exact absurd h0 hrc
      · left; rw [hv]
      · right; rw [hv]
    · unfold DirectVolume.broadcastBadRemoval
      rw [call_trace, broadcasts_append, hb]
      simp [broadcasts, hlab.1, hlab.2]

/-- C7, witness: the mounted volume `sysMounted` loses its partition 8:17. -/
theorem C7_bad_removal_while_mounted_witness :
    ∃ s1, DirectVolume.handlePartitionRemoved envOk evtRemovePart sysMounted = some s1 ∧
      s1 = DirectVolume.broadcastBadRemoval envOk evtRemovePart
        (if (Volume.unmountVol envOk true false sysMounted).1 ≠ 0 then
           (Volume.unmountVol envOk true false sysMounted).2
         else Volume.setState envOk State_NoMedia (Volume.unmountVol envOk true false sysMounted).2) ∧
      ((Volume.unmountVol envOk true false sysMounted).1 = 0 → s1.vol.mState = State_NoMedia) ∧
      ((Volume.unmountVol envOk true false sysMounted).1 ≠ 0 →
        s1.vol.mState = (Volume.unmountVol envOk true false sysMounted).2.vol.mState ∧
        (s1.vol.mState = State_Mounted ∨ s1.vol.mState = State_NoMedia)) ∧
      broadcasts ResponseCode.VolumeDiskRemoved s1.trace =
        broadcasts ResponseCode.VolumeDiskRemoved sysMounted.trace ++
          [snprintf 255 (badRemovalMsg sysMounted.vol.mLabel sysMounted.vol.mFuseMountpoint
            evtRemovePart.MAJOR evtRemovePart.MINOR)] :=
  C7_bad_removal_while_mounted envOk evtRemovePart sysMounted (by decide) (by decide)

/-- C7, counterexample: the volume is Mounted from partition 8:17 and that partition is
removed while every umount fails with EBUSY. The forced unmount fails, and the volume
ends in Mounted, not in NoMedia as the claim says; one DiskRemoved broadcast is sent. -/
theorem C7_counterexample :
    sysMounted.vol.mState = State_Mounted ∧
    MKDEV evtRemovePart.MAJOR evtRemovePart.MINOR = sysMounted.vol.mCurrentlyMountedKdev ∧
    (Volume.unmountVol envUmountBusy true false sysMounted).1 = -1 ∧
    (DirectVolume.handlePartitionRemoved envUmountBusy evtRemovePart sysMounted).map
        (fun s1 => (s1.vol.mState, broadcasts ResponseCode.VolumeDiskRemoved s1.trace)) =
      some (State_Mounted, ["Volume sdcard1 /storage/sdcard1 bad removal (8:17)"]) ∧
    (DirectVolume.handleBlockEvent envUmountBusy 32 evtRemovePart sysMounted).map
        (fun r => (r.1, r.2.vol.mState)) = some (0, State_Mounted) := by
  decide

/-! ## C8: the force flag of the ASEC cleanup -/

theorem isUnmountTailCall_not_cleanup (c : Call) (h : isUnmountTailCall c = true) :
    isCleanupCall c = false := by
  cases c <;> first | rfl | (simp [isUnmountTailCall] at h)

/-- C8 (as amended): unmountVol(force, revert) on a Mounted volume drains the ISO mounts
and then the ASEC containers of the volume, and both cleanups are invoked with the
force flag true whatever force flag was passed to unmountVol: for force = true and for
force = false alike, the cleanup calls made are cleanupISO(volume, true) followed by
cleanupAsec(volume, true), and no other. -/
theorem C8_cleanup_force_always_true (env : Env) (force revert : Bool) (s : Sys)
    (h : s.vol.mState = State_Mounted) :
    ∃ cs, (Volume.unmountVol env force revert s).2.trace = s.trace ++ cs ∧
      cs.filter isCleanupCall =
        [Call.cleanupISO s.vol.mLabel true, Call.cleanupAsec s.vol.mLabel true] := by
  obtain ⟨_, rest, hr1, hr2⟩ := unmountVol_mounted env force revert s h
  refine ⟨[Call.sendBroadcast ResponseCode.VolumeStateChange
           (snprintf 255 (stateChangedMsg s.vol.mLabel s.vol.mFuseMountpoint
             State_Mounted State_Unmounting)),
         Call.sendBroadcast ResponseCode.VolumeStateChange
           (snprintf 255 (stateChangedMsg s.vol.mLabel s.vol.mFuseMountpoint
             State_Unmounting State_Idle)),
         Call.cleanupISO s.vol.mLabel true] ++
        (if s.vol.mFlags.VOL_PROVIDES_ASEC = true then [Call.usleep (1000 * 1000)] else []) ++
        [Call.cleanupAsec s.vol.mLabel true,
         Call.property_set "ctl.stop" (fuseService s.vol.mLabel)] ++ rest,
      by rw [hr1]; simp only [List.append_assoc], ?_⟩
  have hrest : rest.filter isCleanupCall = [] := by
    rw [List.filter_eq_nil_iff]
    intro c hc
    rw [isUnmountTailCall_not_cleanup c (hr2 c hc)]
    decide
  simp only [List.filter_append, hrest, List.append_nil]
  split_ifs <;> simp [List.filter, isCleanupCall]

/-- C8, witness: unmountVol without force on the mounted volume `sysMounted`. -/
theorem C8_cleanup_force_always_true_witness :
    ∃ cs, (Volume.unmountVol envOk false false sysMounted).2.trace = sysMounted.trace ++ cs ∧
      cs.filter isCleanupCall =
        [Call.cleanupISO sysMounted.vol.mLabel true, Call.cleanupAsec sysMounted.vol.mLabel true] :=
  C8_cleanup_force_always_true envOk false false sysMounted (by decide)

/-- C8, counterexample: unmountVol is called with force = false on the mounted volume
`sysMounted`. The claim has cleanupAsec receive false; the code calls
cleanupAsec(volume, true) and never cleanupAsec(volume, false). -/
theorem C8_counterexample :
    sysMounted.vol.mState = State_Mounted ∧
    (Volume.unmountVol envOk false false sysMounted).2.trace.filter isCleanupCall =
      [Call.cleanupISO "sdcard1" true, Call.cleanupAsec "sdcard1" true] ∧
    Call.cleanupAsec "sdcard1" false ∉ (Volume.unmountVol envOk false false sysMounted).2.trace := by
  decide

/-! ## formatVol -/

theorem isMountpointMounted_trace (env : Env) (path : String) (s : Sys) :
    (Volume.isMountpointMounted env path s).2.trace = s.trace ++ [Call.fopen_proc_mounts] := by
  unfold Volume.isMountpointMounted
  simp only [call]
  split_ifs <;> rfl

/-- formatVol on an Idle volume whose mountpoint is not mounted: the value returned,
the volume object and the calls made. -/
theorem formatVol_idle (env : Env) (wipe : Bool) (s : Sys)
    (hidle : s.vol.mState = State_Idle)
    (hnm : (Volume.isMountpointMounted env s.vol.mMountpoint s).1 = false) :
    (Volume.formatVol env wipe s).1 = (if (Volume.fatFormatReply env wipe s).ret ≠ 0 then -1 else 0) ∧
    (Volume.formatVol env wipe s).2.vol = s.vol ∧
    (Volume.formatVol env wipe s).2.trace = s.trace ++
      [Call.fopen_proc_mounts,
       Call.sendBroadcast ResponseCode.VolumeStateChange
         (snprintf 255 (stateChangedMsg s.vol.mLabel s.vol.mFuseMountpoint
           State_Idle State_Formatting)),
       Call.Fat_format (Volume.formatDevicePath s.vol) 0 wipe] ++
      (if (Volume.fatFormatReply env wipe s).ret ≠ 0 then []
       else [Call.refreshVolumeUUIDAfterFormat s.vol.mMountpoint]) ++
      [Call.sendBroadcast ResponseCode.VolumeStateChange
         (snprintf 255 (stateChangedMsg s.vol.mLabel s.vol.mFuseMountpoint
           State_Formatting State_Idle))] := by
  have hv := (isMountpointMounted_steps env s.vol.mMountpoint s).1
  have ht := isMountpointMounted_trace env s.vol.mMountpoint s
  have hv2 : (Volume.setState env State_Formatting
      (Volume.isMountpointMounted env s.vol.mMountpoint s).2).vol =
      { s.vol with mState := State_Formatting } := by
    rw [setState_vol _ _ _ (by rw [hv, hidle]; decide), hv]
    simp [hidle]
  have ht2 := setState_trace env State_Formatting
    (Volume.isMountpointMounted env s.vol.mMountpoint s).2 (by rw [hv, hidle]; decide)
  simp only [stateChangeCall, hv, ht, hidle] at ht2
  unfold Volume.formatVol
  rw [if_neg (by rw [hidle]; decide), if_neg (by simp [hidle])]
  dsimp only
  rw [hnm]
  simp only [Bool.false_eq_true, if_false]
  generalize Volume.setState env State_Formatting
    (Volume.isMountpointMounted env s.vol.mMountpoint s).2 = s2 at hv2 ht2 ⊢
  unfold Volume.formatVolFat Volume.formatVolErr Volume.fatFormatReply Volume.formatDevicePath
  simp only [call, hv, ht2]
  have hidle2 : ({ s.vol with mState := State_Idle } : DirectVolume) = s.vol := by
    rw [← hidle]
  split_ifs with h1 h2 h3 <;>
    simp_all [setState_vol, setState_trace, stateChangeCall]

/-! ## C9: formatVol after entering Formatting -/

/-- C9 (as amended): once formatVol has entered Formatting (on an Idle volume whose
mountpoint is not mounted), a failing FAT format makes it return -1 and a successful
one 0, and in both cases the volume is taken from Formatting back to Idle, not to
NoMedia: the state-change broadcasts are Idle -> Formatting and Formatting -> Idle.
MBR initialisation is never attempted, so it is no source of failure. -/
theorem C9_formatVol_ends_idle (env : Env) (wipe : Bool) (s : Sys)
    (hidle : s.vol.mState = State_Idle)
    (hnm : (Volume.isMountpointMounted env s.vol.mMountpoint s).1 = false) :
    ((Volume.fatFormatReply env wipe s).ret ≠ 0 → (Volume.formatVol env wipe s).1 = -1) ∧
    ((Volume.fatFormatReply env wipe s).ret = 0 → (Volume.formatVol env wipe s).1 = 0) ∧
    (Volume.formatVol env wipe s).2.vol.mState = State_Idle ∧
    broadcasts ResponseCode.VolumeStateChange (Volume.formatVol env wipe s).2.trace =
      broadcasts ResponseCode.VolumeStateChange s.trace ++
        [snprintf 255 (stateChangedMsg s.vol.mLabel s.vol.mFuseMountpoint
           State_Idle State_Formatting),
         snprintf 255 (stateChangedMsg s.vol.mLabel s.vol.mFuseMountpoint
           State_Formatting State_Idle)] ∧
    ∀ dinfo, Call.apply_disk_config dinfo ∉ (Volume.formatVol env wipe s).2.trace.drop
      s.trace.length := by
  obtain ⟨h1, h2, h3⟩ := formatVol_idle env wipe s hidle hnm
  refine ⟨?_, ?_, ?_, ?_, ?_⟩
  · intro hf; rw [h1, if_pos hf]
  · intro hf; rw [h1, if_neg (by simp [hf])]
  · rw [h2]; exact hidle
  · rw [h3]
    split_ifs <;> simp [broadcasts]
  · intro dinfo
    rw [h3]
    simp only [List.append_assoc, List.drop_left]
    split_ifs <;> simp

/-- C9, witness: formatVol on the Idle volume `sysIdle` while Fat::format fails. -/
theorem C9_formatVol_ends_idle_witness :
    ((Volume.fatFormatReply envFormatFails false sysIdle).ret ≠ 0 →
      (Volume.formatVol envFormatFails false sysIdle).1 = -1) ∧
    ((Volume.fatFormatReply envFormatFails false sysIdle).ret = 0 →
      (Volume.formatVol envFormatFails false sysIdle).1 = 0) ∧
    (Volume.formatVol envFormatFails false sysIdle).2.vol.mState = State_Idle ∧
    broadcasts ResponseCode.VolumeStateChange
        (Volume.formatVol envFormatFails false sysIdle).2.trace =
      broadcasts ResponseCode.VolumeStateChange sysIdle.trace ++
        [snprintf 255 (stateChangedMsg sysIdle.vol.mLabel sysIdle.vol.mFuseMountpoint
           State_Idle State_Formatting),
         snprintf 255 (stateChangedMsg sysIdle.vol.mLabel sysIdle.vol.mFuseMountpoint
           State_Formatting State_Idle)] ∧
    ∀ dinfo, Call.apply_disk_config dinfo ∉
      (Volume.formatVol envFormatFails false sysIdle).2.trace.drop sysIdle.trace.length :=
  C9_formatVol_ends_idle envFormatFails false sysIdle (by decide) (by decide)

/-- C9, counterexample: formatVol on the Idle volume `sysIdle` enters Formatting and
Fat::format fails. The claim has the volume left in NoMedia; the code returns -1 and
leaves the volume in Idle. -/
theorem C9_counterexample :
    sysIdle.vol.mState = State_Idle ∧
    (envFormatFails [] (Call.Fat_format "/dev/block/vold/8:17" 0 false)).ret ≠ 0 ∧
    Call.Fat_format "/dev/block/vold/8:17" 0 false ∈
      (Volume.formatVol envFormatFails false sysIdle).2.trace ∧
    (Volume.formatVol envFormatFails false sysIdle).1 = -1 ∧
    (Volume.formatVol envFormatFails false sysIdle).2.vol.mState = State_Idle ∧
    (Volume.formatVol envFormatFails false sysIdle).2.vol.mState ≠ State_NoMedia := by
  decide

/-! ## C10: formatting a whole device -/

/-- C10 (as amended): when formatVol runs on an Idle, unmounted volume, whatever its
partition_index (the "whole device" value -1 included), it initialises no MBR: the
calls it makes are the read of /proc/mounts, the state change Idle -> Formatting, the
FAT format of the disk's device node `/dev/block/vold/<major>:<minor>`, the UUID
refresh after a successful format, and the state change Formatting -> Idle.
initializeMbr itself, were it called, applies one disk configuration: scheme MBR,
sector size 512, skip_lba 2048, one active FAT32 partition. -/
theorem C10_formatVol_no_mbr (env : Env) (wipe : Bool) (s : Sys)
    (hidle : s.vol.mState = State_Idle)
    (hnm : (Volume.isMountpointMounted env s.vol.mMountpoint s).1 = false) :
    (Volume.formatVol env wipe s).2.trace = s.trace ++
      [Call.fopen_proc_mounts,
       Call.sendBroadcast ResponseCode.VolumeStateChange
         (snprintf 255 (stateChangedMsg s.vol.mLabel s.vol.mFuseMountpoint
           State_Idle State_Formatting)),
       Call.Fat_format (nodePath (MAJOR (MKDEV s.vol.mDiskMajor s.vol.mDiskMinor))
         (MINOR (MKDEV s.vol.mDiskMajor s.vol.mDiskMinor))) 0 wipe] ++
      (if (Volume.fatFormatReply env wipe s).ret ≠ 0 then []
       else [Call.refreshVolumeUUIDAfterFormat s.vol.mMountpoint]) ++
      [Call.sendBroadcast ResponseCode.VolumeStateChange
         (snprintf 255 (stateChangedMsg s.vol.mLabel s.vol.mFuseMountpoint
           State_Formatting State_Idle))] ∧
    (Volume.formatVol env wipe s).2.vol.mState = State_Idle ∧
    ∀ (deviceNode : String) (t : Sys),
      (Volume.initializeMbr env deviceNode t).2.trace = t.trace ++
        [Call.apply_disk_config
          { device := deviceNode, scheme := "PART_SCHEME_MBR", sect_size := 512,
            skip_lba := 2048, num_lba := 0, num_parts := 1,
            part_lst := [{ name := "android_sdcard", active := true,
                           type := "PC_PART_TYPE_FAT32", len_kb := -1 }] }] := by
  obtain ⟨_, h2, h3⟩ := formatVol_idle env wipe s hidle hnm
  refine ⟨h3, by rw [h2]; exact hidle, ?_⟩
  intro deviceNode t
  rfl

/-- C10, witness: formatVol with wipe on the whole-device volume `sysIdleWhole`. -/
theorem C10_formatVol_no_mbr_witness :
    (Volume.formatVol envOk true sysIdleWhole).2.trace = sysIdleWhole.trace ++
      [Call.fopen_proc_mounts,
       Call.sendBroadcast ResponseCode.VolumeStateChange
         (snprintf 255 (stateChangedMsg sysIdleWhole.vol.mLabel
           sysIdleWhole.vol.mFuseMountpoint State_Idle State_Formatting)),
       Call.Fat_format (nodePath
         (MAJOR (MKDEV sysIdleWhole.vol.mDiskMajor sysIdleWhole.vol.mDiskMinor))
         (MINOR (MKDEV sysIdleWhole.vol.mDiskMajor sysIdleWhole.vol.mDiskMinor))) 0 true] ++
      (if (Volume.fatFormatReply envOk true sysIdleWhole).ret ≠ 0 then []
       else [Call.refreshVolumeUUIDAfterFormat sysIdleWhole.vol.mMountpoint]) ++
      [Call.sendBroadcast ResponseCode.VolumeStateChange
         (snprintf 255 (stateChangedMsg sysIdleWhole.vol.mLabel
           sysIdleWhole.vol.mFuseMountpoint State_Formatting State_Idle))] ∧
    (Volume.formatVol envOk true sysIdleWhole).2.vol.mState = State_Idle ∧
    ∀ (deviceNode : String) (t : Sys),
      (Volume.initializeMbr envOk deviceNode t).2.trace = t.trace ++
        [Call.apply_disk_config
          { device := deviceNode, scheme := "PART_SCHEME_MBR", sect_size := 512,
            skip_lba := 2048, num_lba := 0, num_parts := 1,
            part_lst := [{ name := "android_sdcard", active := true,
                           type := "PC_PART_TYPE_FAT32", len_kb := -1 }] }] :=
  C10_formatVol_no_mbr envOk true sysIdleWhole (by decide) (by decide)

/-- C10, counterexample: the volume `sysIdleWhole` is Idle, unmounted, and has
partition_index -1 (disk 8:16 without partitions). The claim has formatVol initialise
an MBR on the disk node before formatting; the code returns 0 having formatted
/dev/block/vold/8:16 as FAT without any apply_disk_config call. -/
theorem C10_counterexample :
    sysIdleWhole.vol.mState = State_Idle ∧ sysIdleWhole.vol.mPartIdx = -1 ∧
    (Volume.formatVol envOk true sysIdleWhole).1 = 0 ∧
    (Volume.formatVol envOk true sysIdleWhole).2.trace.drop sysIdleWhole.trace.length =
      [Call.fopen_proc_mounts,
       Call.sendBroadcast ResponseCode.VolumeStateChange
         "Volume sdcard1 /storage/sdcard1 state changed from 1 (Idle-Unmounted) to 6 (Formatting)",
       Call.Fat_format "/dev/block/vold/8:16" 0 true,
       Call.refreshVolumeUUIDAfterFormat "/mnt/media_rw/sdcard1",
       Call.sendBroadcast ResponseCode.VolumeStateChange
         "Volume sdcard1 /storage/sdcard1 state changed from 6 (Formatting) to 1 (Idle-Unmounted)"] := by
  decide

/-! ## Which events handleBlockEvent takes -/

/-- An event that fails the tests on path and `PARTN` is rejected: -1 is returned and
only `errno` is touched. -/
theorem handleBlockEvent_rejected (env : Env) (M : Int) (evt : NetlinkEvent) (s : Sys)
    (h : DirectVolume.acceptsEvent s.vol evt = false) :
    DirectVolume.handleBlockEvent env M evt s = some (-1, { s with errno := ENODEV }) := by
  unfold DirectVolume.acceptsEvent DirectVolume.claimsPath at h
  unfold DirectVolume.handleBlockEvent
  simp only []
  by_cases hp : s.vol.mPaths.length ≠ 0 ∧
      ¬ s.vol.mPaths.any (fun it => it.data.isPrefixOf evt.DEVPATH.data) = true
  · rw [if_pos hp]
  · rw [if_neg hp]
    have hc : (decide (s.vol.mPaths.length = 0) ||
        s.vol.mPaths.any (fun it => it.data.isPrefixOf evt.DEVPATH.data)) = true := by
      by_cases h0 : s.vol.mPaths.length = 0
      · simp [h0]
      · have := not_and.mp hp h0
        simp only [not_not] at this
        simp [this]
    rw [hc, Bool.true_and, Bool.or_eq_false_iff] at h
    obtain ⟨h1, h2⟩ := h
    have ht : evt.DEVTYPE = "partition" := by simpa using h1
    have hn : evt.PARTN ≠ some s.vol.mPartIdx := by simpa using h2
    rw [if_pos ht]
    cases hpn : evt.PARTN with
    | none => simp
    | some k =>
      have : k ≠ s.vol.mPartIdx := fun hk => hn (by rw [hpn, hk])
      simp [this]

/-- An event that passes the tests on path and `PARTN` reaches the dispatch on its
action. -/
theorem handleBlockEvent_accepted (env : Env) (M : Int) (evt : NetlinkEvent) (s : Sys)
    (h : DirectVolume.acceptsEvent s.vol evt = true) :
    DirectVolume.handleBlockEvent env M evt s =
      if evt.action = NlActionAdd then
        if s.vol.mState ≠ State_NoMedia then some (0, { s with errno := ENODEV })
        else if evt.DEVTYPE = "disk" then
          some (0, DirectVolume.handleDiskAdded env evt
            (Volume.createDeviceNode env (snprintf 255 (nodePath evt.MAJOR evt.MINOR))
              evt.MAJOR evt.MINOR
              { s with errno := ENODEV, vol := { s.vol with
                  mDiskMajor := evt.MAJOR, mDiskMinor := evt.MINOR } }).2)
        else
          some (0, DirectVolume.handlePartitionAdded env M evt
            (Volume.createDeviceNode env (snprintf 255 (nodePath evt.MAJOR evt.MINOR))
              evt.MAJOR evt.MINOR
              { s with errno := ENODEV, vol := { s.vol with
                  mDiskMajor := evt.MAJOR, mDiskMinor := evt.MINOR } }).2)
      else if evt.action = NlActionRemove then
        if s.vol.mState = State_NoMedia then some (0, { s with errno := ENODEV })
        else if evt.DEVTYPE = "disk" then
          (DirectVolume.handleDiskRemoved env evt { s with errno := ENODEV }).map (fun t => (0, t))
        else
          (DirectVolume.handlePartitionRemoved env evt { s with errno := ENODEV }).map
            (fun t => (0, t))
      else if evt.action = NlActionChange then
        if evt.DEVTYPE = "disk" then
          some (0, DirectVolume.handleDiskChanged env evt { s with errno := ENODEV })
        else some (0, { s with errno := ENODEV })
      else some (0, { s with errno := ENODEV }) := by
  unfold DirectVolume.acceptsEvent DirectVolume.claimsPath at h
  rw [Bool.and_eq_true, Bool.or_eq_true, Bool.or_eq_true] at h
  obtain ⟨hc, hp⟩ := h
  have hp1 : ¬ (s.vol.mPaths.length ≠ 0 ∧
      ¬ s.vol.mPaths.any (fun it => it.data.isPrefixOf evt.DEVPATH.data) = true) := by
    rcases hc with h0 | h1
    · simp at h0; simp [h0]
    · simp [h1]
  have hp2 : (if evt.DEVTYPE = "partition" then
        match evt.PARTN with
        | some tmp => decide (tmp ≠ s.vol.mPartIdx)
        | none => true
      else false) = false := by
    rcases hp with h1 | h2
    · have : evt.DEVTYPE ≠ "partition" := by simpa using h1
      rw [if_neg this]
    · have : evt.PARTN = some s.vol.mPartIdx := by simpa using h2
      rw [this]; simp
  unfold DirectVolume.handleBlockEvent
  simp only []
  rw [if_neg hp1, hp2]
  simp only [Bool.false_eq_true, if_false]
  rfl

/-- Volume::setState touches `mState` and `mRetryMount` only. -/
theorem setState_frame (env : Env) (st : State) (s : Sys) :
    ∃ r, (Volume.setState env st s).vol = { s.vol with mState := st, mRetryMount := r } := by
  by_cases h : s.vol.mState = st
  · rw [setState_same _ _ _ h]
    exact ⟨s.vol.mRetryMount, by rw [← h]⟩
  · exact ⟨_, setState_vol _ _ _ h⟩

/-- DirectVolume::handlePartitionAdded never writes `mDiskMajor` or `mDiskMinor`. -/
theorem handlePartitionAdded_disk (env : Env) (M : Int) (evt : NetlinkEvent) (s : Sys) :
    (DirectVolume.handlePartitionAdded env M evt s).vol.mDiskMajor = s.vol.mDiskMajor ∧
    (DirectVolume.handlePartitionAdded env M evt s).vol.mDiskMinor = s.vol.mDiskMinor := by
  unfold DirectVolume.handlePartitionAdded
  simp only []
  split_ifs
  all_goals first
    | exact ⟨rfl, rfl⟩
    | (rw [call_vol]
       obtain ⟨r, hr⟩ := setState_frame env State_Idle _
       rw [hr]
       exact ⟨rfl, rfl⟩)

/-! ## C11: Add(partition) and the recorded disk device -/

/-- C11 (as amended): for an Add(partition) event passed to handleBlockEvent, the call
returns, and disk_major and disk_minor are left as they were when the event is rejected
(its DEVPATH is not claimed, or PARTN is missing or differs from the volume's partition
index; -1 is returned) or when the volume is not in NoMedia (0 is returned, nothing is
done). An Add(partition) event accepted in NoMedia returns 0 and sets disk_major and
disk_minor to the MAJOR and MINOR of the event. -/
theorem C11_add_partition_disk_device (env : Env) (MAX_PARTITIONS : Int) (evt : NetlinkEvent)
    (s : Sys) (hact : evt.action = NlActionAdd) (htype : evt.DEVTYPE = "partition") :
    ∃ rc t, DirectVolume.handleBlockEvent env MAX_PARTITIONS evt s = some (rc, t) ∧
      (DirectVolume.acceptsEvent s.vol evt = false →
        rc = -1 ∧ t.vol = s.vol ∧ t.trace = s.trace) ∧
      (DirectVolume.acceptsEvent s.vol evt = true → s.vol.mState ≠ State_NoMedia →
        rc = 0 ∧ t.vol = s.vol ∧ t.trace = s.trace) ∧
      (DirectVolume.acceptsEvent s.vol evt = true → s.vol.mState = State_NoMedia →
        rc = 0 ∧ t.vol.mDiskMajor = evt.MAJOR ∧ t.vol.mDiskMinor = evt.MINOR) := by
  cases hacc : DirectVolume.acceptsEvent s.vol evt with
  | false =>
    rw [handleBlockEvent_rejected env _ evt s hacc]
    refine ⟨_, _, rfl, fun _ => ⟨rfl, rfl, rfl⟩, ?_, ?_⟩
    · intro h; exact absurd h (by decide)
    · intro h; exact absurd h (by decide)
  | true =>
    rw [handleBlockEvent_accepted env _ evt s hacc, if_pos hact]
    by_cases hst : s.vol.mState = State_NoMedia
    · have hd : evt.DEVTYPE ≠ "disk" := by rw [htype]; decide
      rw [if_neg (by simp [hst]), if_neg hd]
      refine ⟨_, _, rfl, ?_, fun _ h => absurd hst h, fun _ _ => ?_⟩
      · intro h; exact absurd h (by decide)
      obtain ⟨h1, h2⟩ := handlePartitionAdded_disk env MAX_PARTITIONS evt
        (Volume.createDeviceNode env (snprintf 255 (nodePath evt.MAJOR evt.MINOR))
          evt.MAJOR evt.MINOR
          { s with errno := ENODEV, vol := { s.vol with
              mDiskMajor := evt.MAJOR, mDiskMinor := evt.MINOR } }).2
      rw [h1, h2, createDeviceNode_vol]
      exact ⟨rfl, rfl, rfl⟩
    · rw [if_pos hst]
      refine ⟨_, _, rfl, ?_, fun _ _ => ⟨rfl, rfl, rfl⟩, fun _ h => absurd h hst⟩
      intro h; exact absurd h (by decide)

/-- C11, witness: the uevent `evtAddPart` for the volume `sys0`. -/
theorem C11_add_partition_disk_device_witness :
    ∃ rc t, DirectVolume.handleBlockEvent envOk 32 evtAddPart sys0 = some (rc, t) ∧
      (DirectVolume.acceptsEvent sys0.vol evtAddPart = false →
        rc = -1 ∧ t.vol = sys0.vol ∧ t.trace = sys0.trace) ∧
      (DirectVolume.acceptsEvent sys0.vol evtAddPart = true → sys0.vol.mState ≠ State_NoMedia →
        rc = 0 ∧ t.vol = sys0.vol ∧ t.trace = sys0.trace) ∧
      (DirectVolume.acceptsEvent sys0.vol evtAddPart = true → sys0.vol.mState = State_NoMedia →
        rc = 0 ∧ t.vol.mDiskMajor = evtAddPart.MAJOR ∧ t.vol.mDiskMinor = evtAddPart.MINOR) :=
  C11_add_partition_disk_device envOk 32 evtAddPart sys0 (by decide) (by decide)

/-- C11, counterexample: the volume `sys0` is in NoMedia with no disk recorded
(disk_major = disk_minor = -1) and claims /sys/block/sdb with partition index 1. The
uevent `add DEVPATH=/sys/block/sdb/sdb1 DEVTYPE=partition MAJOR=8 MINOR=17 PARTN=1` is
accepted, and afterwards disk_major is 8 and disk_minor is 17. -/
theorem C11_counterexample :
    evtAddPart.action = NlActionAdd ∧ evtAddPart.DEVTYPE = "partition" ∧
    sys0.vol.mDiskMajor = -1 ∧ sys0.vol.mDiskMinor = -1 ∧
    (DirectVolume.handleBlockEvent envOk 32 evtAddPart sys0).map
        (fun r => (r.1, r.2.vol.mDiskMajor, r.2.vol.mDiskMinor)) = some (0, 8, 17) := by
  decide

/-! ## C12: rejected and dropped events -/

/-- C12 (as amended): (1) an event that handleBlockEvent rejects (DEVPATH matching none
of the volume's sysfs paths, or a partition event whose PARTN is missing or differs from
the partition index) returns -1 and alters nothing of the volume and makes no call, so
sends no broadcast. (2) handlePartitionAdded on an event whose PARTN (1 when missing) is
outside 1..MAX_PARTITIONS changes nothing at all; when such an Add(partition) reaches it
through handleBlockEvent in NoMedia, state, partition count, pending_part_mask and
part_minors are unchanged and the only call is the mknod of the device node, while
disk_major and disk_minor have been set from the event. (3) handlePartitionAdded on an
event with PARTN in range whose MAJOR differs from disk_major leaves state, disk_major,
disk_minor, pending_part_mask and part_minors unchanged and makes no call. -/
theorem C12_rejected_events_alter_nothing (env : Env) (MAX_PARTITIONS : Int)
    (evt : NetlinkEvent) (s : Sys) :
    (DirectVolume.acceptsEvent s.vol evt = false →
      ∃ t, DirectVolume.handleBlockEvent env MAX_PARTITIONS evt s = some (-1, t) ∧
        t.vol = s.vol ∧ t.trace = s.trace) ∧
    (evt.PARTN.getD 1 > MAX_PARTITIONS ∨ evt.PARTN.getD 1 < 1 →
      DirectVolume.handlePartitionAdded env MAX_PARTITIONS evt s = s) ∧
    (evt.PARTN.getD 1 > MAX_PARTITIONS ∨ evt.PARTN.getD 1 < 1 →
      DirectVolume.acceptsEvent s.vol evt = true → evt.action = NlActionAdd →
      evt.DEVTYPE = "partition" → s.vol.mState = State_NoMedia →
      ∃ t, DirectVolume.handleBlockEvent env MAX_PARTITIONS evt s = some (0, t) ∧
        t.vol = { s.vol with mDiskMajor := evt.MAJOR, mDiskMinor := evt.MINOR } ∧
        t.trace = s.trace ++
          [Call.mknod (snprintf 255 (nodePath evt.MAJOR evt.MINOR)) (MKDEV evt.MAJOR evt.MINOR)]) ∧
    (¬ (evt.PARTN.getD 1 > MAX_PARTITIONS ∨ evt.PARTN.getD 1 < 1) →
      evt.MAJOR ≠ s.vol.mDiskMajor →
      (DirectVolume.handlePartitionAdded env MAX_PARTITIONS evt s).trace = s.trace ∧
      (DirectVolume.handlePartitionAdded env MAX_PARTITIONS evt s).vol.mState = s.vol.mState ∧
      (DirectVolume.handlePartitionAdded env MAX_PARTITIONS evt s).vol.mDiskMajor =
        s.vol.mDiskMajor ∧
      (DirectVolume.handlePartitionAdded env MAX_PARTITIONS evt s).vol.mDiskMinor =
        s.vol.mDiskMinor ∧
      (DirectVolume.handlePartitionAdded env MAX_PARTITIONS evt s).vol.mPendingPartMap =
        s.vol.mPendingPartMap ∧
      (DirectVolume.handlePartitionAdded env MAX_PARTITIONS evt s).vol.mPartMinors =
        s.vol.mPartMinors) := by
  have hgd : (match evt.PARTN with
      | some n => n
      | none => (1 : Int)) = evt.PARTN.getD 1 := by
    cases evt.PARTN <;> rfl
  have hdrop : evt.PARTN.getD 1 > MAX_PARTITIONS ∨ evt.PARTN.getD 1 < 1 →
      ∀ s1 : Sys, DirectVolume.handlePartitionAdded env MAX_PARTITIONS evt s1 = s1 := by
    intro h s1
    unfold DirectVolume.handlePartitionAdded
    simp only [hgd]
    rw [if_pos h]
  refine ⟨?_, fun h => hdrop h s, ?_, ?_⟩
  · intro h
    exact ⟨_, handleBlockEvent_rejected env _ evt s h, rfl, rfl⟩
  · intro h hacc hact htype hst
    have hd : evt.DEVTYPE ≠ "disk" := by rw [htype]; decide
    rw [handleBlockEvent_accepted env _ evt s hacc, if_pos hact, if_neg (by simp [hst]),
      if_neg hd, hdrop h]
    exact ⟨_, rfl, by rw [createDeviceNode_vol], by rw [createDeviceNode_trace]⟩
  · intro h hmaj
    unfold DirectVolume.handlePartitionAdded
    simp only [hgd]
    rw [if_neg h]
    by_cases hn : evt.PARTN.getD 1 > s.vol.mDiskNumParts
    · rw [if_pos hn, if_pos hmaj]
      exact ⟨rfl, rfl, rfl, rfl, rfl, rfl⟩
    · rw [if_neg hn, if_pos hmaj]
      exact ⟨rfl, rfl, rfl, rfl, rfl, rfl⟩

/-- C12, witness: the disk event `evtAddOtherDisk` is not claimed by `sys0`; the
partition event `evtAddPartZero` (PARTN = 0) is out of range, also when it goes through
handleBlockEvent on the volume `sysNoMediaIdx0`; the partition event
`evtAddPartOtherMajor` (PARTN = 2, major 9) meets the Pending volume of disk 8:16. -/
theorem C12_rejected_events_alter_nothing_witness :
    (∃ t, DirectVolume.handleBlockEvent envOk 32 evtAddOtherDisk sys0 = some (-1, t) ∧
        t.vol = sys0.vol ∧ t.trace = sys0.trace) ∧
    DirectVolume.handlePartitionAdded envOk 32 evtAddPartZero sysPending = sysPending ∧
    (∃ t, DirectVolume.handleBlockEvent envOk 32 evtAddPartZero sysNoMediaIdx0 = some (0, t) ∧
        t.vol = { sysNoMediaIdx0.vol with
          mDiskMajor := evtAddPartZero.MAJOR, mDiskMinor := evtAddPartZero.MINOR } ∧
        t.trace = sysNoMediaIdx0.trace ++
          [Call.mknod (snprintf 255 (nodePath evtAddPartZero.MAJOR evtAddPartZero.MINOR))
            (MKDEV evtAddPartZero.MAJOR evtAddPartZero.MINOR)]) ∧
    ((DirectVolume.handlePartitionAdded envOk 32 evtAddPartOtherMajor sysPending).trace =
        sysPending.trace ∧
      (DirectVolume.handlePartitionAdded envOk 32 evtAddPartOtherMajor sysPending).vol.mState =
        sysPending.vol.mState ∧
      (DirectVolume.handlePartitionAdded envOk 32 evtAddPartOtherMajor sysPending).vol.mDiskMajor =
        sysPending.vol.mDiskMajor ∧
      (DirectVolume.handlePartitionAdded envOk 32 evtAddPartOtherMajor sysPending).vol.mDiskMinor =
        sysPending.vol.mDiskMinor ∧
      (DirectVolume.handlePartitionAdded envOk 32 evtAddPartOtherMajor
        sysPending).vol.mPendingPartMap = sysPending.vol.mPendingPartMap ∧
      (DirectVolume.handlePartitionAdded envOk 32 evtAddPartOtherMajor sysPending).vol.mPartMinors =
        sysPending.vol.mPartMinors) :=
  ⟨(C12_rejected_events_alter_nothing envOk 32 evtAddOtherDisk sys0).1 (by decide),
   (C12_rejected_events_alter_nothing envOk 32 evtAddPartZero sysPending).2.1 (by decide),
   (C12_rejected_events_alter_nothing envOk 32 evtAddPartZero sysNoMediaIdx0).2.2.1
     (by decide) (by decide) (by decide) (by decide) (by decide),
   (C12_rejected_events_alter_nothing envOk 32 evtAddPartOtherMajor sysPending).2.2.2
     (by decide) (by decide)⟩

/-- C12, counterexample: two dropped events that alter the volume. The uevent
`evtAddPartZero` carries PARTN = 0, outside 1..MAX_PARTITIONS; handled by the NoMedia
volume `sysNoMediaIdx0` (no disk recorded, disk_major = disk_minor = -1) it is dropped
by handlePartitionAdded, yet disk_major and disk_minor are 8 and 16 afterwards. The
uevent `evtAddPartOtherMajor` has major 9 while the disk of `sysPending` is 8:16;
handlePartitionAdded drops it for the different major, yet the partition count has gone
from 1 to 2. -/
theorem C12_counterexample :
    (evtAddPartZero.PARTN = some 0 ∧ sysNoMediaIdx0.vol.mDiskMajor = -1 ∧
      sysNoMediaIdx0.vol.mDiskMinor = -1 ∧
      (DirectVolume.handleBlockEvent envOk 32 evtAddPartZero sysNoMediaIdx0).map
        (fun r => (r.1, r.2.vol.mState, r.2.vol.mDiskMajor, r.2.vol.mDiskMinor,
          broadcasts ResponseCode.VolumeDiskInserted r.2.trace)) =
        some (0, State_NoMedia, 8, 16, [])) ∧
    (evtAddPartOtherMajor.MAJOR = 9 ∧ sysPending.vol.mDiskMajor = 8 ∧
      sysPending.vol.mDiskNumParts = 1 ∧
      (DirectVolume.handlePartitionAdded envOk 32 evtAddPartOtherMajor sysPending).vol.mState =
        State_Pending ∧
      (DirectVolume.handlePartitionAdded envOk 32 evtAddPartOtherMajor sysPending).trace =
        sysPending.trace ∧
      (DirectVolume.handlePartitionAdded envOk 32 evtAddPartOtherMajor
        sysPending).vol.mDiskNumParts = 2) := by
  decide

/-! ## C13: a partition event without PARTN -/

/-- C13 (as amended): a partition event that carries no PARTN parameter, delivered
through handleBlockEvent, is rejected whatever its action and the state of the volume:
-1 is returned, `errno` is ENODEV, and nothing else changes, so the minor is not
recorded and pending_part_mask is as before. Taking a missing PARTN as 1 is what
handlePartitionAdded does when called directly, which handleBlockEvent never does for
such an event. -/
theorem C13_missing_partn_rejected (env : Env) (MAX_PARTITIONS : Int) (evt : NetlinkEvent)
    (s : Sys) (htype : evt.DEVTYPE = "partition") (hpartn : evt.PARTN = none) :
    DirectVolume.handleBlockEvent env MAX_PARTITIONS evt s =
      some (-1, { s with errno := ENODEV }) ∧
    DirectVolume.handlePartitionAdded env MAX_PARTITIONS evt s =
      DirectVolume.handlePartitionAdded env MAX_PARTITIONS { evt with PARTN := some 1 } s := by
  constructor
  · apply handleBlockEvent_rejected
    unfold DirectVolume.acceptsEvent
    simp [htype, hpartn]
  · unfold DirectVolume.handlePartitionAdded
    simp only [hpartn]

/-- C13, witness: the uevent `evtAddPartNoPartn` for the volume `sysNoMediaAwaiting`. -/
theorem C13_missing_partn_rejected_witness :
    DirectVolume.handleBlockEvent envOk 32 evtAddPartNoPartn sysNoMediaAwaiting =
      some (-1, { sysNoMediaAwaiting with errno := ENODEV }) ∧
    DirectVolume.handlePartitionAdded envOk 32 evtAddPartNoPartn sysNoMediaAwaiting =
      DirectVolume.handlePartitionAdded envOk 32 { evtAddPartNoPartn with PARTN := some 1 }
        sysNoMediaAwaiting :=
  C13_missing_partn_rejected envOk 32 evtAddPartNoPartn sysNoMediaAwaiting (by decide) (by decide)

/-- C13, counterexample: the volume `sysNoMediaAwaiting` is in NoMedia, claims
/sys/block/sdb with partition index 1, has recorded no minor (-1) and has bit 1 of
pending_part_mask set. The uevent `add DEVPATH=/sys/block/sdb/sdb1 DEVTYPE=partition
MAJOR=8 MINOR=17` without PARTN is answered with -1: the minor recorded is still -1 and
the mask is still 2. The same uevent with PARTN=1 returns 0, records minor 17 and
clears the mask. -/
theorem C13_counterexample :
    sysNoMediaAwaiting.vol.mState = State_NoMedia ∧
    DirectVolume.claimsPath sysNoMediaAwaiting.vol evtAddPartNoPartn.DEVPATH = true ∧
    evtAddPartNoPartn.PARTN = none ∧
    (DirectVolume.handleBlockEvent envOk 32 evtAddPartNoPartn sysNoMediaAwaiting).map
        (fun r => (r.1, partMinor0 r.2.vol.mPartMinors, r.2.vol.mPendingPartMap)) =
      some (-1, -1, 2) ∧
    (DirectVolume.handleBlockEvent envOk 32 evtAddPart sysNoMediaAwaiting).map
        (fun r => (r.1, partMinor0 r.2.vol.mPartMinors, r.2.vol.mPendingPartMap)) =
      some (0, 17, 0) := by
  decide

/-! ## C14: Add(disk) outside NoMedia -/

/-- Bit `k` of the mask of `m` partitions is set exactly for `1 ≤ k ≤ m` (for `m ≤ 31`,
where no shift leaves the 32 bits). -/
theorem partMask_testBit (m : Nat) (hm : m ≤ 31) (k : Nat) :
    (partMask (m : Int)).testBit k = decide (1 ≤ k ∧ k ≤ m) := by
  induction m with
  | zero =>
    have : partMask ((0 : Nat) : Int) = 0 := rfl
    rw [this, Nat.zero_testBit]
    symm
    rw [decide_eq_false_iff_not]
    omega
  | succ j ih =>
    have hs := partMask_succ j
    have hj : shl1 (j + 1) = 2 ^ (j + 1) := by
      unfold shl1
      apply Nat.mod_eq_of_lt
      calc 2 ^ (j + 1) ≤ 2 ^ 31 := Nat.pow_le_pow_right (by norm_num) (by omega)
        _ < 4294967296 := by norm_num
    push_cast
    rw [hs, Nat.testBit_or, ih (by omega), hj, Nat.testBit_two_pow]
    by_cases h1 : j + 1 = k
    · subst h1
      simp
    · have : (decide (j + 1 = k)) = false := decide_eq_false h1
      rw [this, Bool.or_false]
      congr 1
      apply propext
      constructor
      · rintro ⟨a, b⟩; exact ⟨a, by omega⟩
      · rintro ⟨a, b⟩; exact ⟨a, by omega⟩

/-- The loop of handleDiskAdded computes the value of `((1 << (n+1)) - 1) & ~1`. -/
theorem partMask_eq_formula (m : Nat) (hm : m ≤ 30) :
    partMask (m : Int) = (shl1 (m + 1) - 1) &&& not32 1 := by
  interval_cases m <;> rfl

/-- DirectVolume::handleDiskAdded run in NoMedia, for an event that announces between 0
and 30 partitions (1 when NPARTS is missing). -/
theorem handleDiskAdded_outcome (env : Env) (evt : NetlinkEvent) (s : Sys)
    (hst : s.vol.mState = State_NoMedia)
    (h0 : 0 ≤ evt.NPARTS.getD 1) (h30 : evt.NPARTS.getD 1 ≤ 30) :
    AddDiskOutcome (evt.NPARTS.getD 1) s (DirectVolume.handleDiskAdded env evt s) ∧
    (DirectVolume.handleDiskAdded env evt s).vol.mDiskMajor = s.vol.mDiskMajor ∧
    (DirectVolume.handleDiskAdded env evt s).vol.mDiskMinor = s.vol.mDiskMinor := by
  have hgd : (match evt.NPARTS with
      | some n => n
      | none => (1 : Int)) = evt.NPARTS.getD 1 := by
    cases evt.NPARTS <;> rfl
  obtain ⟨m, hm⟩ : ∃ m : Nat, evt.NPARTS.getD 1 = (m : Int) := ⟨_, (Int.toNat_of_nonneg h0).symm⟩
  have hm30 : m ≤ 30 := by omega
  have hbits : ∀ k : Nat, (partMask (m : Int)).testBit k = true ↔ 1 ≤ k ∧ (k : Int) ≤ (m : Int) := by
    intro k
    rw [partMask_testBit m (by omega) k, decide_eq_true_iff]
    constructor
    · rintro ⟨a, b⟩; exact ⟨a, by exact_mod_cast b⟩
    · rintro ⟨a, b⟩; exact ⟨a, by exact_mod_cast b⟩
  unfold DirectVolume.handleDiskAdded AddDiskOutcome
  simp only [hgd]
  rw [hm]
  by_cases hz : (m : Int) = 0
  · rw [if_pos hz]
    rw [call_vol, call_trace, setState_vol _ _ _ (by simp [hst]),
      setState_trace _ _ _ (by simp [hst])]
    refine ⟨⟨?_, hbits, fun _ => ⟨rfl, ?_⟩, fun h => absurd hz h⟩, rfl, rfl⟩
    · rw [Int.toNat_natCast]; exact partMask_eq_formula m hm30
    · rw [broadcasts_append, broadcasts_append]
      simp [broadcasts, stateChangeCall]
  · rw [if_neg hz]
    rw [setState_vol _ _ _ (by simp [hst]), setState_trace _ _ _ (by simp [hst])]
    refine ⟨⟨?_, hbits, fun h => absurd h hz, fun _ => ⟨rfl, ?_⟩⟩, rfl, rfl⟩
    · rw [Int.toNat_natCast]; exact partMask_eq_formula m hm30
    · rw [broadcasts_append]
      simp [broadcasts, stateChangeCall]

/-- C15: for a DirectVolume in NoMedia and an Add(disk) event with NPARTS = n, where
0 <= n <= 30 and n is 1 when NPARTS is missing, handleDiskAdded leaves
pending_part_mask equal to `((1 << (n+1)) - 1) & ~1`, exactly the bits 1..n; with n = 0
the state becomes Idle and one DiskInserted broadcast is sent, otherwise the state
becomes Pending and no DiskInserted broadcast is sent (`AddDiskOutcome`). The same
holds for the event delivered through handleBlockEvent on a claimed path, which
returns 0 and has recorded the MAJOR and MINOR of the event as the disk device. -/
theorem C15_add_disk_pending_mask (env : Env) (MAX_PARTITIONS : Int) (evt : NetlinkEvent)
    (s : Sys) (n : Int) (hst : s.vol.mState = State_NoMedia) (hn : n = evt.NPARTS.getD 1)
    (h0 : 0 ≤ n) (h30 : n ≤ 30) :
    AddDiskOutcome n s (DirectVolume.handleDiskAdded env evt s) ∧
    (evt.action = NlActionAdd → evt.DEVTYPE = "disk" →
      DirectVolume.claimsPath s.vol evt.DEVPATH = true →
      ∃ t, DirectVolume.handleBlockEvent env MAX_PARTITIONS evt s = some (0, t) ∧
        AddDiskOutcome n s t ∧ t.vol.mDiskMajor = evt.MAJOR ∧ t.vol.mDiskMinor = evt.MINOR) := by
  subst hn
  refine ⟨(handleDiskAdded_outcome env evt s hst h0 h30).1, ?_⟩
  intro hact htype hclaim
  have hacc : DirectVolume.acceptsEvent s.vol evt = true := by
    unfold DirectVolume.acceptsEvent
    simp [htype, hclaim]
  rw [handleBlockEvent_accepted env _ evt s hacc, if_pos hact, if_neg (by simp [hst]),
    if_pos htype]
  obtain ⟨⟨h1, h2, h3, h4⟩, h5, h6⟩ := handleDiskAdded_outcome env evt
    (Volume.createDeviceNode env (snprintf 255 (nodePath evt.MAJOR evt.MINOR))
      evt.MAJOR evt.MINOR
      { s with errno := ENODEV, vol := { s.vol with
          mDiskMajor := evt.MAJOR, mDiskMinor := evt.MINOR } }).2
    (by rw [createDeviceNode_vol]; exact hst) h0 h30
  rw [createDeviceNode_vol] at h5 h6
  rw [createDeviceNode_trace, createDeviceNode_vol, broadcasts_append] at h3
  rw [createDeviceNode_trace, broadcasts_append] at h4
  have hmk : broadcasts ResponseCode.VolumeDiskInserted
      [Call.mknod (snprintf 255 (nodePath evt.MAJOR evt.MINOR)) (MKDEV evt.MAJOR evt.MINOR)] =
      [] := rfl
  rw [hmk, List.append_nil] at h3 h4
  exact ⟨_, rfl, ⟨h1, h2, h3, h4⟩, h5, h6⟩

/-- C15, witness: the uevent `evtAddDiskNoParts` (NPARTS = 0) for the volume `sys0`. -/
theorem C15_add_disk_pending_mask_witness :
    AddDiskOutcome 0 sys0 (DirectVolume.handleDiskAdded envOk evtAddDiskNoParts sys0) ∧
    (evtAddDiskNoParts.action = NlActionAdd → evtAddDiskNoParts.DEVTYPE = "disk" →
      DirectVolume.claimsPath sys0.vol evtAddDiskNoParts.DEVPATH = true →
      ∃ t, DirectVolume.handleBlockEvent envOk 32 evtAddDiskNoParts sys0 = some (0, t) ∧
        AddDiskOutcome 0 sys0 t ∧ t.vol.mDiskMajor = evtAddDiskNoParts.MAJOR ∧
        t.vol.mDiskMinor = evtAddDiskNoParts.MINOR) :=
  C15_add_disk_pending_mask envOk 32 evtAddDiskNoParts sys0 0 (by decide) (by decide)
    (by decide) (by decide)

/-! ## C16: Remove(disk) in Pending -/

/-- C16: for every DirectVolume in Pending, handling a Remove(disk) event leaves the
volume in NoMedia. handleDiskRemoved returns, and what it does is setState(NoMedia):
the one call made is the state-change broadcast Pending -> NoMedia, so the
partition-removal handling is not run and no DiskRemoved broadcast is sent. For
handleBlockEvent the event is handled (0 is returned) exactly when the volume claims
its DEVPATH, and then the same holds. -/
theorem C16_remove_disk_from_pending (env : Env) (MAX_PARTITIONS : Int) (evt : NetlinkEvent)
    (s : Sys) (hst : s.vol.mState = State_Pending) (hact : evt.action = NlActionRemove)
    (htype : evt.DEVTYPE = "disk") :
    (∃ t, DirectVolume.handleDiskRemoved env evt s = some t ∧
      t.vol.mState = State_NoMedia ∧
      t.trace = s.trace ++ [stateChangeCall s State_NoMedia] ∧
      broadcasts ResponseCode.VolumeDiskRemoved t.trace =
        broadcasts ResponseCode.VolumeDiskRemoved s.trace) ∧
    (∃ rc t, DirectVolume.handleBlockEvent env MAX_PARTITIONS evt s = some (rc, t) ∧
      (rc = 0 ↔ DirectVolume.claimsPath s.vol evt.DEVPATH = true) ∧
      (rc = 0 →
        t.vol.mState = State_NoMedia ∧
        t.trace = s.trace ++ [stateChangeCall s State_NoMedia] ∧
        broadcasts ResponseCode.VolumeDiskRemoved t.trace =
          broadcasts ResponseCode.VolumeDiskRemoved s.trace)) := by
  have key : ∀ s1 : Sys, s1.vol = s.vol → s1.trace = s.trace →
      DirectVolume.handleDiskRemoved env evt s1 = some (Volume.setState env State_NoMedia s1) ∧
      (Volume.setState env State_NoMedia s1).vol.mState = State_NoMedia ∧
      (Volume.setState env State_NoMedia s1).trace = s.trace ++ [stateChangeCall s State_NoMedia] ∧
      broadcasts ResponseCode.VolumeDiskRemoved (Volume.setState env State_NoMedia s1).trace =
        broadcasts ResponseCode.VolumeDiskRemoved s.trace := by
    intro s1 hv ht
    have hst1 : s1.vol.mState = State_Pending := by rw [hv]; exact hst
    have hne : s1.vol.mState ≠ State_NoMedia := by rw [hst1]; decide
    have htr : (Volume.setState env State_NoMedia s1).trace =
        s.trace ++ [stateChangeCall s State_NoMedia] := by
      rw [setState_trace _ _ _ hne, ht]
      unfold stateChangeCall
      rw [hv]
    refine ⟨?_, ?_, htr, ?_⟩
    · unfold DirectVolume.handleDiskRemoved
      rw [if_neg (by simp [hst1])]
    · rw [setState_vol _ _ _ hne]
    · rw [htr, broadcasts_append]
      simp [broadcasts, stateChangeCall]
  constructor
  · exact ⟨_, key s rfl rfl⟩
  · have hacc : DirectVolume.acceptsEvent s.vol evt = DirectVolume.claimsPath s.vol evt.DEVPATH := by
      unfold DirectVolume.acceptsEvent
      simp [htype]
    cases hc : DirectVolume.claimsPath s.vol evt.DEVPATH with
    | false =>
      rw [hc] at hacc
      rw [handleBlockEvent_rejected env _ evt s hacc]
      refine ⟨_, _, rfl, by decide, ?_⟩
      intro h; exact absurd h (by decide)
    | true =>
      rw [hc] at hacc
      have hnr : evt.action ≠ NlActionAdd := by rw [hact]; decide
      obtain ⟨k1, k2, k3, k4⟩ := key { s with errno := ENODEV } rfl rfl
      rw [handleBlockEvent_accepted env _ evt s hacc, if_neg hnr, if_pos hact,
        if_neg (by rw [hst]; decide), if_pos htype, k1]
      exact ⟨_, _, rfl, by simp, fun _ => ⟨k2, k3, k4⟩⟩

/-- C16, witness: the Pending volume `sysPending` loses its disk. -/
theorem C16_remove_disk_from_pending_witness :
    (∃ t, DirectVolume.handleDiskRemoved envOk evtRemoveDisk sysPending = some t ∧
      t.vol.mState = State_NoMedia ∧
      t.trace = sysPending.trace ++ [stateChangeCall sysPending State_NoMedia] ∧
      broadcasts ResponseCode.VolumeDiskRemoved t.trace =
        broadcasts ResponseCode.VolumeDiskRemoved sysPending.trace) ∧
    (∃ rc t, DirectVolume.handleBlockEvent envOk 32 evtRemoveDisk sysPending = some (rc, t) ∧
      (rc = 0 ↔ DirectVolume.claimsPath sysPending.vol evtRemoveDisk.DEVPATH = true) ∧
      (rc = 0 →
        t.vol.mState = State_NoMedia ∧
        t.trace = sysPending.trace ++ [stateChangeCall sysPending State_NoMedia] ∧
        broadcasts ResponseCode.VolumeDiskRemoved t.trace =
          broadcasts ResponseCode.VolumeDiskRemoved sysPending.trace)) :=
  C16_remove_disk_from_pending envOk 32 evtRemoveDisk sysPending (by decide) (by decide)
    (by decide)

/-! ## C17: Change(disk) -/

/-- C17 (as amended): handleDiskChanged acts on a Change(disk) event only when the MAJOR
and MINOR of the event equal disk_major and disk_minor. Then the partition count
becomes n, the NPARTS of the event (1 when missing), and pending_part_mask the mask of
the partitions 1..n; in Formatting the state is left alone and no call is made,
otherwise the state becomes Idle when n = 0 and Pending when n is not 0, from whatever
state the volume was in. An event with a different MAJOR or MINOR changes nothing.
handleBlockEvent returns 0 for every Change(disk) event on a claimed path, with
handleDiskChanged run. -/
theorem C17_change_disk (env : Env) (MAX_PARTITIONS : Int) (evt : NetlinkEvent) (s : Sys) :
    (evt.MAJOR = s.vol.mDiskMajor ∧ evt.MINOR = s.vol.mDiskMinor →
      (DirectVolume.handleDiskChanged env evt s).vol.mDiskNumParts = evt.NPARTS.getD 1 ∧
      (DirectVolume.handleDiskChanged env evt s).vol.mPendingPartMap =
        partMask (evt.NPARTS.getD 1) ∧
      (s.vol.mState = State_Formatting →
        (DirectVolume.handleDiskChanged env evt s).vol.mState = State_Formatting ∧
        (DirectVolume.handleDiskChanged env evt s).trace = s.trace) ∧
      (s.vol.mState ≠ State_Formatting → evt.NPARTS.getD 1 = 0 →
        (DirectVolume.handleDiskChanged env evt s).vol.mState = State_Idle) ∧
      (s.vol.mState ≠ State_Formatting → evt.NPARTS.getD 1 ≠ 0 →
        (DirectVolume.handleDiskChanged env evt s).vol.mState = State_Pending)) ∧
    (¬ (evt.MAJOR = s.vol.mDiskMajor ∧ evt.MINOR = s.vol.mDiskMinor) →
      DirectVolume.handleDiskChanged env evt s = s) ∧
    (evt.action = NlActionChange → evt.DEVTYPE = "disk" →
      DirectVolume.claimsPath s.vol evt.DEVPATH = true →
      DirectVolume.handleBlockEvent env MAX_PARTITIONS evt s =
        some (0, DirectVolume.handleDiskChanged env evt { s with errno := ENODEV })) := by
  have hgd : (match evt.NPARTS with
      | some n => n
      | none => (1 : Int)) = evt.NPARTS.getD 1 := by
    cases evt.NPARTS <;> rfl
  refine ⟨?_, ?_, ?_⟩
  · rintro ⟨hma, hmi⟩
    have hm : ¬ (evt.MAJOR ≠ s.vol.mDiskMajor ∨ evt.MINOR ≠ s.vol.mDiskMinor) := by
      simp [hma, hmi]
    unfold DirectVolume.handleDiskChanged
    simp only [hgd]
    rw [if_neg hm]
    by_cases hf : s.vol.mState = State_Formatting
    · rw [if_neg (by simp [hf])]
      exact ⟨rfl, rfl, fun _ => ⟨hf, rfl⟩, fun h => absurd hf h, fun h => absurd hf h⟩
    · rw [if_pos (by simpa using hf)]
      by_cases hz : evt.NPARTS.getD 1 = 0
      · rw [if_pos hz]
        obtain ⟨r, hr⟩ := setState_frame env State_Idle
          { s with vol := { s.vol with mDiskNumParts := evt.NPARTS.getD 1,
                                       mPendingPartMap := partMask (evt.NPARTS.getD 1) } }
        rw [hr]
        exact ⟨rfl, rfl, fun h => absurd h hf, fun _ _ => rfl, fun _ h => absurd hz h⟩
      · rw [if_neg hz]
        obtain ⟨r, hr⟩ := setState_frame env State_Pending
          { s with vol := { s.vol with mDiskNumParts := evt.NPARTS.getD 1,
                                       mPendingPartMap := partMask (evt.NPARTS.getD 1) } }
        rw [hr]
        exact ⟨rfl, rfl, fun h => absurd h hf, fun _ h => absurd h hz, fun _ _ => rfl⟩
  · intro hm
    have hm1 : evt.MAJOR ≠ s.vol.mDiskMajor ∨ evt.MINOR ≠ s.vol.mDiskMinor := by
      by_cases h : evt.MAJOR = s.vol.mDiskMajor
      · right; intro h2; exact hm ⟨h, h2⟩
      · left; exact h
    unfold DirectVolume.handleDiskChanged
    simp only []
    rw [if_pos hm1]
  · intro hact htype hclaim
    have hacc : DirectVolume.acceptsEvent s.vol evt = true := by
      unfold DirectVolume.acceptsEvent
      simp [htype, hclaim]
    rw [handleBlockEvent_accepted env _ evt s hacc, if_neg (by rw [hact]; decide),
      if_neg (by rw [hact]; decide), if_pos hact, if_pos htype]

/-- C17, witness: the Pending volume `sysPending` of disk 8:16 gets a Change(disk)
uevent of that disk and, as a second case, one with another minor. -/
theorem C17_change_disk_witness :
    ((DirectVolume.handleDiskChanged envOk evtChangeDisk sysPending).vol.mDiskNumParts =
        evtChangeDisk.NPARTS.getD 1 ∧
      (DirectVolume.handleDiskChanged envOk evtChangeDisk sysPending).vol.mPendingPartMap =
        partMask (evtChangeDisk.NPARTS.getD 1) ∧
      (sysPending.vol.mState = State_Formatting →
        (DirectVolume.handleDiskChanged envOk evtChangeDisk sysPending).vol.mState =
          State_Formatting ∧
        (DirectVolume.handleDiskChanged envOk evtChangeDisk sysPending).trace =
          sysPending.trace) ∧
      (sysPending.vol.mState ≠ State_Formatting → evtChangeDisk.NPARTS.getD 1 = 0 →
        (DirectVolume.handleDiskChanged envOk evtChangeDisk sysPending).vol.mState = State_Idle) ∧
      (sysPending.vol.mState ≠ State_Formatting → evtChangeDisk.NPARTS.getD 1 ≠ 0 →
        (DirectVolume.handleDiskChanged envOk evtChangeDisk sysPending).vol.mState =
          State_Pending)) ∧
    DirectVolume.handleDiskChanged envOk { evtChangeDisk with MINOR := 0 } sysPending =
      sysPending ∧
    DirectVolume.handleBlockEvent envOk 32 evtChangeDisk sysPending =
      some (0, DirectVolume.handleDiskChanged envOk evtChangeDisk
        { sysPending with errno := ENODEV }) :=
  ⟨(C17_change_disk envOk 32 evtChangeDisk sysPending).1 (by decide),
   (C17_change_disk envOk 32 { evtChangeDisk with MINOR := 0 } sysPending).2.1 (by decide),
   (C17_change_disk envOk 32 evtChangeDisk sysPending).2.2 (by decide) (by decide) (by decide)⟩

/-- C17, counterexample: the volume `sysIdle` became Idle on the Add of its partition
8:17, which handleBlockEvent recorded as the disk device. The uevent
`change DEVPATH=/sys/block/sdb DEVTYPE=disk MAJOR=8 MINOR=16 NPARTS=1` of the disk is
handled (0 is returned) and changes nothing: the state is still Idle, not Pending, and
pending_part_mask is still 0, not the mask of one partition. -/
theorem C17_counterexample :
    evtChangeDisk.action = NlActionChange ∧ evtChangeDisk.DEVTYPE = "disk" ∧
    evtChangeDisk.NPARTS = some 1 ∧
    sysIdle.vol.mState = State_Idle ∧ sysIdle.vol.mPendingPartMap = 0 ∧
    DirectVolume.handleBlockEvent envOk 32 evtChangeDisk sysIdle =
      some (0, { sysIdle with errno := ENODEV }) ∧
    DirectVolume.handleDiskChanged envOk evtChangeDisk sysIdle = sysIdle ∧
    partMask 1 = 2 := by
  decide

/-! ## C18: handlePartitionRemoved -/

/-- Volume::setState sends no broadcast other than the state change. -/
theorem setState_broadcasts (env : Env) (st : State) (s : Sys) (code : ResponseCode)
    (hcode : code ≠ ResponseCode.VolumeStateChange) :
    broadcasts code (Volume.setState env st s).trace = broadcasts code s.trace := by
  by_cases h : s.vol.mState = st
  · rw [setState_same _ _ _ h]
  · rw [setState_trace _ _ _ h, broadcasts_append]
    have : broadcasts code [stateChangeCall s st] = [] := by
      unfold broadcasts stateChangeCall
      simp [Ne.symm hcode]
    rw [this, List.append_nil]

/-- Volume::setState leaves label and mountpoints alone. -/
theorem setState_label (env : Env) (st : State) (s : Sys) :
    (Volume.setState env st s).vol.mLabel = s.vol.mLabel ∧
    (Volume.setState env st s).vol.mFuseMountpoint = s.vol.mFuseMountpoint := by
  obtain ⟨r, hr⟩ := setState_frame env st s
  rw [hr]
  exact ⟨rfl, rfl⟩

/-- Volume::unmountVol leaves label and public mountpoint alone. -/
theorem unmountVol_label (env : Env) (force revert : Bool) (s : Sys) :
    (Volume.unmountVol env force revert s).2.vol.mLabel = s.vol.mLabel ∧
    (Volume.unmountVol env force revert s).2.vol.mFuseMountpoint = s.vol.mFuseMountpoint := by
  by_cases h : s.vol.mState = State_Mounted
  · obtain ⟨hout, _⟩ := unmountVol_mounted env force revert s h
    rcases hout with ⟨_, hv | hv⟩ | ⟨_, hv | hv⟩
    · rw [hv]; exact ⟨rfl, rfl⟩
    · rw [hv]; unfold DirectVolume.revertDeviceInfo; split_ifs <;> exact ⟨rfl, rfl⟩
    · rw [hv]; exact ⟨rfl, rfl⟩
    · rw [hv]; exact ⟨rfl, rfl⟩
  · unfold Volume.unmountVol
    rw [if_pos h]
    exact ⟨rfl, rfl⟩

/-- The `bad removal` broadcast is one DiskRemoved broadcast. -/
theorem broadcastBadRemoval_spec (env : Env) (evt : NetlinkEvent) (s : Sys) :
    (DirectVolume.broadcastBadRemoval env evt s).vol = s.vol ∧
    broadcasts ResponseCode.VolumeDiskRemoved (DirectVolume.broadcastBadRemoval env evt s).trace =
      broadcasts ResponseCode.VolumeDiskRemoved s.trace ++
        [snprintf 255 (badRemovalMsg s.vol.mLabel s.vol.mFuseMountpoint evt.MAJOR evt.MINOR)] := by
  unfold DirectVolume.broadcastBadRemoval
  rw [call_vol, call_trace, broadcasts_append]
  exact ⟨rfl, by simp [broadcasts]⟩

/-- After Volume::setState the volume is in the state asked for. -/
theorem setState_state (env : Env) (st : State) (s : Sys) :
    (Volume.setState env st s).vol.mState = st := by
  obtain ⟨r, hr⟩ := setState_frame env st s
  rw [hr]

/-- C18: for every volume state other than Checking and every removed (major, minor),
handlePartitionRemoved returns, and exactly one DiskRemoved broadcast has been sent by
then: the DiskRemoved broadcasts are those sent before and the `bad removal` text
naming the removed device. If the state was neither Mounted nor Shared, the state
afterwards is NoMedia. -/
theorem C18_partition_removed_one_broadcast (env : Env) (evt : NetlinkEvent) (s : Sys)
    (hst : s.vol.mState ≠ State_Checking) :
    ∃ t, DirectVolume.handlePartitionRemoved env evt s = some t ∧
      broadcasts ResponseCode.VolumeDiskRemoved t.trace =
        broadcasts ResponseCode.VolumeDiskRemoved s.trace ++
          [snprintf 255 (badRemovalMsg s.vol.mLabel s.vol.mFuseMountpoint evt.MAJOR evt.MINOR)] ∧
      (s.vol.mState ≠ State_Mounted → s.vol.mState ≠ State_Shared →
        t.vol.mState = State_NoMedia) := by
  have hcode : ResponseCode.VolumeDiskRemoved ≠ ResponseCode.VolumeStateChange := by decide
  unfold DirectVolume.handlePartitionRemoved
  rw [if_neg hst]
  by_cases h1 : s.vol.mState ≠ State_Mounted ∧ s.vol.mState ≠ State_Shared
  · rw [if_pos h1]
    obtain ⟨b1, b2⟩ := broadcastBadRemoval_spec env evt (Volume.setState env State_NoMedia s)
    obtain ⟨l1, l2⟩ := setState_label env State_NoMedia s
    refine ⟨_, rfl, ?_, fun _ _ => ?_⟩
    · rw [b2, setState_broadcasts _ _ _ _ hcode, l1, l2]
    · rw [b1, setState_state]
  · rw [if_neg h1]
    by_cases h2 : MKDEV evt.MAJOR evt.MINOR = s.vol.mCurrentlyMountedKdev
    · rw [if_pos h2]
      dsimp only
      have hb := broadcasts_of_ext ResponseCode.VolumeDiskRemoved
        (unmountVol_ext env true false s) isUnmountVolCall_not_diskRemoved
      obtain ⟨l1, l2⟩ := unmountVol_label env true false s
      by_cases hrc : (Volume.unmountVol env true false s).1 ≠ 0
      · rw [if_pos hrc]
        obtain ⟨b1, b2⟩ := broadcastBadRemoval_spec env evt (Volume.unmountVol env true false s).2
        refine ⟨_, rfl, ?_, fun a b => absurd ⟨a, b⟩ h1⟩
        rw [b2, hb, l1, l2]
      · rw [if_neg hrc]
        obtain ⟨b1, b2⟩ := broadcastBadRemoval_spec env evt
          (Volume.setState env State_NoMedia (Volume.unmountVol env true false s).2)
        obtain ⟨m1, m2⟩ := setState_label env State_NoMedia (Volume.unmountVol env true false s).2
        refine ⟨_, rfl, ?_, fun a b => absurd ⟨a, b⟩ h1⟩
        rw [b2, setState_broadcasts _ _ _ _ hcode, hb, m1, m2, l1, l2]
    · rw [if_neg h2]
      by_cases h3 : s.vol.mState = State_Shared
      · rw [if_pos h3]
        dsimp only
        obtain ⟨b1, b2⟩ := broadcastBadRemoval_spec env evt
          (Volume.setState env State_NoMedia (call env (Call.unshareVolume s.vol.mLabel "ums") s).2)
        obtain ⟨m1, m2⟩ := setState_label env State_NoMedia
          (call env (Call.unshareVolume s.vol.mLabel "ums") s).2
        refine ⟨_, rfl, ?_, fun a b => absurd ⟨a, b⟩ h1⟩
        rw [b2, setState_broadcasts _ _ _ _ hcode, m1, m2, call_vol, call_trace, broadcasts_append]
        simp [broadcasts]
      · rw [if_neg h3]
        obtain ⟨b1, b2⟩ := broadcastBadRemoval_spec env evt s
        exact ⟨_, rfl, b2, fun a b => absurd ⟨a, b⟩ h1⟩

/-- C18, witness: the Idle volume `sysIdle` loses its partition 8:17. -/
theorem C18_partition_removed_one_broadcast_witness :
    ∃ t, DirectVolume.handlePartitionRemoved envOk evtRemovePart sysIdle = some t ∧
      broadcasts ResponseCode.VolumeDiskRemoved t.trace =
        broadcasts ResponseCode.VolumeDiskRemoved sysIdle.trace ++
          [snprintf 255 (badRemovalMsg sysIdle.vol.mLabel sysIdle.vol.mFuseMountpoint
            evtRemovePart.MAJOR evtRemovePart.MINOR)] ∧
      (sysIdle.vol.mState ≠ State_Mounted → sysIdle.vol.mState ≠ State_Shared →
        t.vol.mState = State_NoMedia) :=
  C18_partition_removed_one_broadcast envOk evtRemovePart sysIdle (by decide)

/-! ## The retry loop of doMoveMount -/

theorem killAction_eq_retrySignal (force : Bool) (retries : Nat) :
    killAction force retries = retrySignal force retries := by
  unfold killAction retrySignal ACTION_SIGHUP ACTION_SIGKILL ACTION_NONE
  cases force
  · simp
  · simp only [true_and, if_true]
    split_ifs <;> first | rfl | omega

/-- A sequence of attempts that the move-mount contract allows is no longer than the
budget, and not empty when there is a budget. -/
theorem moveMountContract_length (n : Nat) :
    ∀ (outs : List (Int × Int)) (rc : Int), moveMountContract n outs = some rc →
      outs.length ≤ n ∧ (0 < n → outs ≠ []) ∧ (rc = 0 ∨ rc = -1) := by
  induction n with
  | zero =>
    intro outs rc h
    cases outs with
    | nil =>
      simp only [moveMountContract, Option.some.injEq] at h
      exact ⟨le_refl _, fun h0 => absurd h0 (by decide), Or.inr h.symm⟩
    | cons o rest => simp [moveMountContract] at h
  | succ k ih =>
    intro outs rc h
    cases outs with
    | nil => simp [moveMountContract] at h
    | cons o rest =>
      obtain ⟨ret, err⟩ := o
      simp only [moveMountContract] at h
      split_ifs at h with h1 h2 h3 h4
      · subst h2
        simp only [Option.some.injEq] at h
        exact ⟨by simp, fun _ => by simp, Or.inl h.symm⟩
      · subst h4
        simp only [Option.some.injEq] at h
        exact ⟨by simp, fun _ => by simp, Or.inr h.symm⟩
      · obtain ⟨a, _, c⟩ := ih rest rc h
        exact ⟨by simp; omega, fun _ => by simp, c⟩

/-- The run of the retry loop of doMoveMount, entered with `n` attempts left: the calls
it makes are those of `moveMountCalls` for the outcomes of its attempts, these outcomes
meet the move-mount contract with the value returned, and when all of them are Busy
failures the loop has used up all `n` attempts and leaves `errno` at EBUSY. -/
theorem doMoveMountLoop_run (env : Env) (src dst : String) (force : Bool) (n : Nat) :
    ∀ s : Sys, ∃ cs,
      (Volume.doMoveMountLoop env src dst force n s).2.trace = s.trace ++ cs ∧
      cs = moveMountCalls src dst force n (moveMountAttempts env s.trace s.errno cs) ∧
      moveMountContract n (moveMountAttempts env s.trace s.errno cs) =
        some (Volume.doMoveMountLoop env src dst force n s).1 ∧
      ((∀ o ∈ moveMountAttempts env s.trace s.errno cs, o.1 ≠ 0 ∧ o.2 = EBUSY) →
        (Volume.doMoveMountLoop env src dst force n s).2.errno = EBUSY ∧
        (moveMountAttempts env s.trace s.errno cs).length = n) := by
  induction n with
  | zero =>
    intro s
    exact ⟨[], by simp [Volume.doMoveMountLoop], rfl, rfl, fun _ => ⟨rfl, rfl⟩⟩
  | succ k ih =>
    intro s
    unfold Volume.doMoveMountLoop
    dsimp only
    by_cases h1 : (call env (Call.mount src dst MountFlag.MS_MOVE) s).1.ret = 0
    · rw [if_pos h1]
      rw [call_reply] at h1
      refine ⟨[Call.mount src dst MountFlag.MS_MOVE], rfl, ?_, ?_, ?_⟩
      · simp [moveMountAttempts, isMoveMount, moveMountCalls, h1]
      · simp [moveMountAttempts, isMoveMount, moveMountContract, h1]
      · intro h
        have := h ((env s.trace (Call.mount src dst MountFlag.MS_MOVE)).ret,
          (env s.trace (Call.mount src dst MountFlag.MS_MOVE)).err.getD s.errno)
          (by simp [moveMountAttempts, isMoveMount])
        exact absurd h1 this.1
    · rw [if_neg h1]
      by_cases h2 : (call env (Call.mount src dst MountFlag.MS_MOVE) s).2.errno ≠ EBUSY
      · rw [if_pos h2]
        rw [call_reply] at h1
        rw [call_errno] at h2
        refine ⟨[Call.mount src dst MountFlag.MS_MOVE], rfl, ?_, ?_, ?_⟩
        · simp [moveMountAttempts, isMoveMount, moveMountCalls, h1, h2]
        · simp [moveMountAttempts, isMoveMount, moveMountContract, h1, h2]
        · intro h
          have := h ((env s.trace (Call.mount src dst MountFlag.MS_MOVE)).ret,
            (env s.trace (Call.mount src dst MountFlag.MS_MOVE)).err.getD s.errno)
            (by simp [moveMountAttempts, isMoveMount])
          exact absurd this.2 h2
      · rw [if_neg h2]
        obtain ⟨cs, c1, c2, c3, c4⟩ := ih
          (call env (Call.usleep (1000 * 250))
            (call env (Call.killProcessesWithOpenFiles src (killAction force k))
              (call env (Call.mount src dst MountFlag.MS_MOVE) s).2).2).2
        rw [call_reply] at h1
        rw [call_errno, not_not] at h2
        simp only [call_trace, call_errno] at c1 c2 c3 c4
        have hatt : moveMountAttempts env s.trace s.errno
            ([Call.mount src dst MountFlag.MS_MOVE,
              Call.killProcessesWithOpenFiles src (killAction force k),
              Call.usleep (1000 * 250)] ++ cs) =
            ((env s.trace (Call.mount src dst MountFlag.MS_MOVE)).ret,
              (env s.trace (Call.mount src dst MountFlag.MS_MOVE)).err.getD s.errno) ::
            moveMountAttempts env
              (s.trace ++ [Call.mount src dst MountFlag.MS_MOVE] ++
                [Call.killProcessesWithOpenFiles src (killAction force k)] ++
                [Call.usleep (1000 * 250)])
              ((env (s.trace ++ [Call.mount src dst MountFlag.MS_MOVE] ++
                  [Call.killProcessesWithOpenFiles src (killAction force k)])
                (Call.usleep (1000 * 250))).err.getD
                ((env (s.trace ++ [Call.mount src dst MountFlag.MS_MOVE])
                  (Call.killProcessesWithOpenFiles src (killAction force k))).err.getD
                  ((env s.trace (Call.mount src dst MountFlag.MS_MOVE)).err.getD s.errno)))
              cs := by
          simp [moveMountAttempts, isMoveMount]
        rw [h2] at c2 c3 c4 hatt
        refine ⟨[Call.mount src dst MountFlag.MS_MOVE,
              Call.killProcessesWithOpenFiles src (killAction force k),
              Call.usleep (1000 * 250)] ++ cs, ?_, ?_, ?_, ?_⟩
        · rw [c1]; simp
        · rw [hatt]
          simp only [moveMountCalls, h1, ne_eq, not_false_eq_true, and_self, if_true]
          rw [← c2, killAction_eq_retrySignal]
          rfl
        · rw [hatt]
          simp only [moveMountContract, h1, ne_eq, not_true_eq_false, if_false]
          exact c3
        · rw [hatt]
          intro h
          obtain ⟨e1, e2⟩ := c4 (fun o ho => h o (List.mem_cons_of_mem _ ho))
          exact ⟨e1, by rw [List.length_cons, e2]⟩

/-- When every attempt of an allowed sequence is a Busy failure, the result is -1. -/
theorem moveMountContract_all_busy (n : Nat) :
    ∀ (outs : List (Int × Int)) (rc : Int), moveMountContract n outs = some rc →
      (∀ o ∈ outs, o.1 ≠ 0 ∧ o.2 = EBUSY) → rc = -1 := by
  induction n with
  | zero =>
    intro outs rc h _
    cases outs with
    | nil =>
      simp only [moveMountContract, Option.some.injEq] at h
      exact h.symm
    | cons o rest => simp [moveMountContract] at h
  | succ k ih =>
    intro outs rc h hall
    cases outs with
    | nil => simp [moveMountContract] at h
    | cons o rest =>
      obtain ⟨ret, err⟩ := o
      obtain ⟨b1, b2⟩ := hall (ret, err) (List.mem_cons_self _ _)
      simp only [moveMountContract] at h
      rw [if_neg b1, if_neg (by simpa using b2)] at h
      exact ih rest rc h (fun o ho => hall o (List.mem_cons_of_mem _ ho))

/-- When an attempt of an allowed sequence is not a Busy failure, the calls of the loop
end with a move mount: nothing follows the attempt that decides. -/
theorem moveMountCalls_getLast (src dst : String) (force : Bool) (n : Nat) :
    ∀ (outs : List (Int × Int)) (rc : Int), moveMountContract n outs = some rc →
      (∃ o ∈ outs, ¬ (o.1 ≠ 0 ∧ o.2 = EBUSY)) →
      (moveMountCalls src dst force n outs).getLast? =
        some (Call.mount src dst MountFlag.MS_MOVE) := by
  induction n with
  | zero =>
    intro outs rc h hex
    cases outs with
    | nil => obtain ⟨o, ho, _⟩ := hex; cases ho
    | cons o rest => simp [moveMountContract] at h
  | succ k ih =>
    intro outs rc h hex
    cases outs with
    | nil => simp [moveMountContract] at h
    | cons o rest =>
      obtain ⟨ret, err⟩ := o
      simp only [moveMountContract] at h
      by_cases hb : ret ≠ 0 ∧ err = EBUSY
      · rw [if_neg hb.1, if_neg (by simpa using hb.2)] at h
        have hex1 : ∃ o ∈ rest, ¬ (o.1 ≠ 0 ∧ o.2 = EBUSY) := by
          obtain ⟨o, ho, hn⟩ := hex
          rcases List.mem_cons.mp ho with rfl | ho
          · exact absurd hb hn
          · exact ⟨o, ho, hn⟩
        have hl := ih rest rc h hex1
        have hne : moveMountCalls src dst force k rest ≠ [] := by
          intro h0; rw [h0] at hl; simp at hl
        simp only [moveMountCalls, hb, ne_eq, not_false_eq_true, and_self, if_true]
        have happ : Call.mount src dst MountFlag.MS_MOVE ::
            ([Call.killProcessesWithOpenFiles src (retrySignal force k), Call.usleep 250000] ++
              moveMountCalls src dst force k rest) =
            [Call.mount src dst MountFlag.MS_MOVE,
              Call.killProcessesWithOpenFiles src (retrySignal force k), Call.usleep 250000] ++
              moveMountCalls src dst force k rest := rfl
        rw [happ, List.getLast?_append_of_ne_nil _ hne]
        exact hl
      · simp only [moveMountCalls]
        rw [if_neg hb]
        rfl

/-! ## C19: the attempts of doMoveMount -/

/-- C19: Volume::doMoveMount with a non-null destination `d` that can be created (mkdir
succeeds or fails with EEXIST) makes, after the mkdir, the calls `cs`, among them the
mount attempts with the outcomes `outs` (value returned, `errno`): at least one and at
most five, and they meet the move-mount contract for five attempts with the value
doMoveMount returns: an attempt that succeeds is the last and 0 is returned, a failure
whose error is not Busy is the last and -1 is returned, a Busy failure is followed by
the next attempt. When an attempt is not a Busy failure the calls end with a mount:
doMoveMount returns right after that attempt. When all attempts are Busy failures there
were five of them, -1 is returned and `errno` is EBUSY. -/
theorem C19_move_mount_attempts (env : Env) (src d : String) (force : Bool) (s : Sys)
    (hdst : (env s.trace (Call.mkdir d 0o074)).ret = 0 ∨
      (env s.trace (Call.mkdir d 0o074)).err.getD s.errno = EEXIST) :
    ∃ cs outs,
      (Volume.doMoveMount env src (some d) force s).2.trace =
        s.trace ++ [Call.mkdir d 0o074] ++ cs ∧
      outs = moveMountAttempts env (s.trace ++ [Call.mkdir d 0o074])
        ((env s.trace (Call.mkdir d 0o074)).err.getD s.errno) cs ∧
      1 ≤ outs.length ∧ outs.length ≤ 5 ∧
      moveMountContract 5 outs = some (Volume.doMoveMount env src (some d) force s).1 ∧
      ((∃ o ∈ outs, ¬ (o.1 ≠ 0 ∧ o.2 = EBUSY)) →
        cs.getLast? = some (Call.mount src d MountFlag.MS_MOVE)) ∧
      ((∀ o ∈ outs, o.1 ≠ 0 ∧ o.2 = EBUSY) →
        outs.length = 5 ∧ (Volume.doMoveMount env src (some d) force s).1 = -1 ∧
        (Volume.doMoveMount env src (some d) force s).2.errno = EBUSY) := by
  have hmk : ¬ ((call env (Call.mkdir d 0o074) s).1.ret ≠ 0 ∧
      (call env (Call.mkdir d 0o074) s).2.errno ≠ EEXIST) := by
    rw [call_reply, call_errno]
    rcases hdst with h | h
    · simp [h]
    · simp [h]
  unfold Volume.doMoveMount
  dsimp only
  rw [if_neg hmk]
  obtain ⟨cs, c1, c2, c3, c4⟩ := doMoveMountLoop_run env src d force 5
    (call env (Call.mkdir d 0o074) s).2
  simp only [call_trace, call_errno] at c1 c2 c3 c4
  obtain ⟨l1, l2, _⟩ := moveMountContract_length 5 _ _ c3
  refine ⟨cs, _, c1, rfl, ?_, l1, c3, ?_, ?_⟩
  · exact Nat.pos_of_ne_zero (fun h0 => l2 (by decide) (List.length_eq_zero.mp h0))
  · intro hex
    have := moveMountCalls_getLast src d force 5 _ _ c3 hex
    rw [← c2] at this
    exact this
  · intro hall
    obtain ⟨e1, e2⟩ := c4 hall
    exact ⟨e2, moveMountContract_all_busy 5 _ _ c3 hall, e1⟩

/-- C19, witness: in the environment `envMoveThird` the move mount of the staging
directory to the mountpoint of `sysIdle` fails twice with EBUSY and then succeeds.
Three attempts are made and 0 is returned. -/
theorem C19_move_mount_attempts_witness :
    (∃ cs outs,
      (Volume.doMoveMount envMoveThird SEC_STGDIR (some "/mnt/media_rw/sdcard1") false
        sysIdle).2.trace = sysIdle.trace ++ [Call.mkdir "/mnt/media_rw/sdcard1" 0o074] ++ cs ∧
      outs = moveMountAttempts envMoveThird
        (sysIdle.trace ++ [Call.mkdir "/mnt/media_rw/sdcard1" 0o074])
        ((envMoveThird sysIdle.trace (Call.mkdir "/mnt/media_rw/sdcard1" 0o074)).err.getD
          sysIdle.errno) cs ∧
      1 ≤ outs.length ∧ outs.length ≤ 5 ∧
      moveMountContract 5 outs = some (Volume.doMoveMount envMoveThird SEC_STGDIR
        (some "/mnt/media_rw/sdcard1") false sysIdle).1 ∧
      ((∃ o ∈ outs, ¬ (o.1 ≠ 0 ∧ o.2 = EBUSY)) →
        cs.getLast? = some (Call.mount SEC_STGDIR "/mnt/media_rw/sdcard1" MountFlag.MS_MOVE)) ∧
      ((∀ o ∈ outs, o.1 ≠ 0 ∧ o.2 = EBUSY) →
        outs.length = 5 ∧ (Volume.doMoveMount envMoveThird SEC_STGDIR
          (some "/mnt/media_rw/sdcard1") false sysIdle).1 = -1 ∧
        (Volume.doMoveMount envMoveThird SEC_STGDIR (some "/mnt/media_rw/sdcard1") false
          sysIdle).2.errno = EBUSY)) ∧
    (Volume.doMoveMount envMoveThird SEC_STGDIR (some "/mnt/media_rw/sdcard1") false
        sysIdle).1 = 0 ∧
    moveMountAttempts envMoveThird sysIdle.trace sysIdle.errno
        ((Volume.doMoveMount envMoveThird SEC_STGDIR (some "/mnt/media_rw/sdcard1") false
          sysIdle).2.trace.drop sysIdle.trace.length) = [(-1, 16), (-1, 16), (0, 16)] :=
  ⟨C19_move_mount_attempts envMoveThird SEC_STGDIR "/mnt/media_rw/sdcard1" false sysIdle
    (by decide), by decide, by decide⟩

/-! ## C20: signals and pauses of doMoveMount -/

/-- For attempts that all fail with Busy and use up the budget, the calls of the loop
do not depend on anything else. -/
theorem moveMountCalls_all_busy (src dst : String) (force : Bool) (n : Nat) :
    ∀ outs : List (Int × Int), outs.length = n → (∀ o ∈ outs, o.1 ≠ 0 ∧ o.2 = EBUSY) →
      moveMountCalls src dst force n outs =
        moveMountCalls src dst force n (List.replicate n (-1, EBUSY)) := by
  induction n with
  | zero =>
    intro outs hl _
    rw [List.length_eq_zero.mp hl]
    rfl
  | succ k ih =>
    intro outs hl hall
    cases outs with
    | nil => simp at hl
    | cons o rest =>
      obtain ⟨ret, err⟩ := o
      have hb := hall (ret, err) (List.mem_cons_self _ _)
      have hr := ih rest (by simpa using hl) (fun o ho => hall o (List.mem_cons_of_mem _ ho))
      rw [List.replicate_succ]
      simp only [moveMountCalls]
      rw [if_pos hb, if_pos (by decide), hr]

/-- Without `force` the loop hands no signal to killProcessesWithOpenFiles. -/
theorem moveMountCalls_no_force (src dst : String) (n : Nat) :
    ∀ (outs : List (Int × Int)) (p : String) (a : Int),
      Call.killProcessesWithOpenFiles p a ∈ moveMountCalls src dst false n outs →
      a = ACTION_NONE := by
  induction n with
  | zero =>
    intro outs p a h
    simp [moveMountCalls] at h
  | succ k ih =>
    intro outs p a h
    cases outs with
    | nil => simp [moveMountCalls] at h
    | cons o rest =>
      obtain ⟨ret, err⟩ := o
      simp only [moveMountCalls] at h
      split_ifs at h
      · simp only [List.mem_cons, List.mem_append, reduceCtorEq, false_or,
          List.not_mem_nil, or_false, Call.killProcessesWithOpenFiles.injEq] at h
        rcases h with ⟨_, ha⟩ | h
        · rw [ha]; simp [retrySignal]
        · exact ih rest p a h
      · simp at h

/-- C20: Volume::doMoveMount with a destination `d` that can be created makes, after the
mkdir, exactly the calls of `moveMountCalls` for the outcomes `outs` of its attempts:
every attempt that fails with Busy is followed by a call of killProcessesWithOpenFiles
on the source path and by usleep(250000), a pause of 250 ms, before the next attempt.
With `force` the call signals SIGHUP when 2 retries remain and SIGKILL when 1 remains,
and nothing otherwise; without `force` no call of killProcessesWithOpenFiles carries a
signal. When the attempts keep failing with Busy the calls are the fifteen listed:
five attempts, a pause after each, no signal after the first two and after the last
(which no retry follows), and with `force` SIGHUP after the third, SIGKILL after the
fourth. -/
theorem C20_move_mount_signals (env : Env) (src d : String) (force : Bool) (s : Sys)
    (hdst : (env s.trace (Call.mkdir d 0o074)).ret = 0 ∨
      (env s.trace (Call.mkdir d 0o074)).err.getD s.errno = EEXIST) :
    ∃ cs outs,
      (Volume.doMoveMount env src (some d) force s).2.trace =
        s.trace ++ [Call.mkdir d 0o074] ++ cs ∧
      outs = moveMountAttempts env (s.trace ++ [Call.mkdir d 0o074])
        ((env s.trace (Call.mkdir d 0o074)).err.getD s.errno) cs ∧
      cs = moveMountCalls src d force 5 outs ∧
      (force = false → ∀ p a, Call.killProcessesWithOpenFiles p a ∈ cs → a = ACTION_NONE) ∧
      ((∀ o ∈ outs, o.1 ≠ 0 ∧ o.2 = EBUSY) →
        cs = [Call.mount src d MountFlag.MS_MOVE,
              Call.killProcessesWithOpenFiles src ACTION_NONE, Call.usleep 250000,
              Call.mount src d MountFlag.MS_MOVE,
              Call.killProcessesWithOpenFiles src ACTION_NONE, Call.usleep 250000,
              Call.mount src d MountFlag.MS_MOVE,
              Call.killProcessesWithOpenFiles src (if force then ACTION_SIGHUP else ACTION_NONE),
              Call.usleep 250000,
              Call.mount src d MountFlag.MS_MOVE,
              Call.killProcessesWithOpenFiles src (if force then ACTION_SIGKILL else ACTION_NONE),
              Call.usleep 250000,
              Call.mount src d MountFlag.MS_MOVE,
              Call.killProcessesWithOpenFiles src ACTION_NONE, Call.usleep 250000]) := by
  have hmk : ¬ ((call env (Call.mkdir d 0o074) s).1.ret ≠ 0 ∧
      (call env (Call.mkdir d 0o074) s).2.errno ≠ EEXIST) := by
    rw [call_reply, call_errno]
    rcases hdst with h | h
    · simp [h]
    · simp [h]
  unfold Volume.doMoveMount
  dsimp only
  rw [if_neg hmk]
  obtain ⟨cs, c1, c2, c3, c4⟩ := doMoveMountLoop_run env src d force 5
    (call env (Call.mkdir d 0o074) s).2
  simp only [call_trace, call_errno] at c1 c2 c3 c4
  refine ⟨cs, _, c1, rfl, c2, ?_, ?_⟩
  · intro hf p a hmem
    rw [c2, hf] at hmem
    exact moveMountCalls_no_force src d 5 _ p a hmem
  · intro hall
    obtain ⟨_, e2⟩ := c4 hall
    rw [c2, moveMountCalls_all_busy src d force 5 _ e2 hall]
    cases force <;> rfl

/-- C20, witness: in the environment `envMoveBusy` every move mount fails with EBUSY;
the move of the staging directory to the mountpoint of `sysIdle` is tried with `force`.
The calls made are the mkdir and the fifteen calls of the loop, with SIGHUP (1) after
the third attempt and SIGKILL (2) after the fourth, and -1 is returned. -/
theorem C20_move_mount_signals_witness :
    (∃ cs outs,
      (Volume.doMoveMount envMoveBusy SEC_STGDIR (some "/mnt/media_rw/sdcard1") true
        sysIdle).2.trace = sysIdle.trace ++ [Call.mkdir "/mnt/media_rw/sdcard1" 0o074] ++ cs ∧
      outs = moveMountAttempts envMoveBusy
        (sysIdle.trace ++ [Call.mkdir "/mnt/media_rw/sdcard1" 0o074])
        ((envMoveBusy sysIdle.trace (Call.mkdir "/mnt/media_rw/sdcard1" 0o074)).err.getD
          sysIdle.errno) cs ∧
      cs = moveMountCalls SEC_STGDIR "/mnt/media_rw/sdcard1" true 5 outs ∧
      (true = false → ∀ p a, Call.killProcessesWithOpenFiles p a ∈ cs → a = ACTION_NONE) ∧
      ((∀ o ∈ outs, o.1 ≠ 0 ∧ o.2 = EBUSY) →
        cs = [Call.mount SEC_STGDIR "/mnt/media_rw/sdcard1" MountFlag.MS_MOVE,
              Call.killProcessesWithOpenFiles SEC_STGDIR ACTION_NONE, Call.usleep 250000,
              Call.mount SEC_STGDIR "/mnt/media_rw/sdcard1" MountFlag.MS_MOVE,
              Call.killProcessesWithOpenFiles SEC_STGDIR ACTION_NONE, Call.usleep 250000,
              Call.mount SEC_STGDIR "/mnt/media_rw/sdcard1" MountFlag.MS_MOVE,
              Call.killProcessesWithOpenFiles SEC_STGDIR
                (if true then ACTION_SIGHUP else ACTION_NONE),
              Call.usleep 250000,
              Call.mount SEC_STGDIR "/mnt/media_rw/sdcard1" MountFlag.MS_MOVE,
              Call.killProcessesWithOpenFiles SEC_STGDIR
                (if true then ACTION_SIGKILL else ACTION_NONE),
              Call.usleep 250000,
              Call.mount SEC_STGDIR "/mnt/media_rw/sdcard1" MountFlag.MS_MOVE,
              Call.killProcessesWithOpenFiles SEC_STGDIR ACTION_NONE, Call.usleep 250000])) ∧
    Volume.doMoveMount envMoveBusy SEC_STGDIR (some "/mnt/media_rw/sdcard1") true
        { sysIdle with trace := [] } =
      (-1, { sysIdle with errno := EBUSY, trace :=
        [Call.mkdir "/mnt/media_rw/sdcard1" 0o074,
         Call.mount SEC_STGDIR "/mnt/media_rw/sdcard1" MountFlag.MS_MOVE,
         Call.killProcessesWithOpenFiles SEC_STGDIR 0, Call.usleep 250000,
         Call.mount SEC_STGDIR "/mnt/media_rw/sdcard1" MountFlag.MS_MOVE,
         Call.killProcessesWithOpenFiles SEC_STGDIR 0, Call.usleep 250000,
         Call.mount SEC_STGDIR "/mnt/media_rw/sdcard1" MountFlag.MS_MOVE,
         Call.killProcessesWithOpenFiles SEC_STGDIR 1, Call.usleep 250000,
         Call.mount SEC_STGDIR "/mnt/media_rw/sdcard1" MountFlag.MS_MOVE,
         Call.killProcessesWithOpenFiles SEC_STGDIR 2, Call.usleep 250000,
         Call.mount SEC_STGDIR "/mnt/media_rw/sdcard1" MountFlag.MS_MOVE,
         Call.killProcessesWithOpenFiles SEC_STGDIR 0, Call.usleep 250000] }) :=
  ⟨C20_move_mount_signals envMoveBusy SEC_STGDIR "/mnt/media_rw/sdcard1" true sysIdle
    (by decide), by decide⟩

/-! ## The attempts of doUnmount -/

theorem umountDone_fst (env : Env) (path : String) (s : Sys) :
    (Volume.umountDone env path s).1 =
      umountSettled ((env s.trace (Call.umount path)).ret,
        (env s.trace (Call.umount path)).err.getD s.errno) := rfl

theorem umountDone_snd (env : Env) (path : String) (s : Sys) :
    (Volume.umountDone env path s).2 = (call env (Call.umount path) s).2 := rfl

/-- The run of the `force` loop of doUnmount, entered with `n` rounds left before
attempt number `i`. -/
theorem doUnmountKill_run (env : Env) (path : String) (n : Nat) :
    ∀ (i : Nat) (s : Sys), 2 ≤ i → ∃ cs,
      (Volume.doUnmountKill env path n s).2.trace = s.trace ++ cs ∧
      cs = unmountCalls path i n (umountAttempts env s.trace s.errno cs) ∧
      unmountContract n (umountAttempts env s.trace s.errno cs) =
        some (if (Volume.doUnmountKill env path n s).1 then 0 else -1) := by
  induction n with
  | zero =>
    intro i s _
    exact ⟨[], by simp [Volume.doUnmountKill], rfl, rfl⟩
  | succ k ih =>
    intro i s hi
    have hround : unmountRound path i =
        [Call.killProcessesWithOpenFiles path 1, Call.killProcessesWithOpenFiles path 2,
         Call.usleep (2000 * 1000), Call.umount path] := by
      unfold unmountRound
      rw [if_neg (by omega), if_neg (by omega)]
      rfl
    have hatt : ∀ cs, umountAttempts env s.trace s.errno
        ([Call.killProcessesWithOpenFiles path 1, Call.killProcessesWithOpenFiles path 2,
          Call.usleep (2000 * 1000), Call.umount path] ++ cs) =
        ((env (call env (Call.usleep (2000 * 1000))
            (call env (Call.killProcessesWithOpenFiles path 2)
              (call env (Call.killProcessesWithOpenFiles path 1) s).2).2).2.trace
            (Call.umount path)).ret,
          (env (call env (Call.usleep (2000 * 1000))
            (call env (Call.killProcessesWithOpenFiles path 2)
              (call env (Call.killProcessesWithOpenFiles path 1) s).2).2).2.trace
            (Call.umount path)).err.getD
            (call env (Call.usleep (2000 * 1000))
              (call env (Call.killProcessesWithOpenFiles path 2)
                (call env (Call.killProcessesWithOpenFiles path 1) s).2).2).2.errno) ::
        umountAttempts env
          (call env (Call.umount path) (call env (Call.usleep (2000 * 1000))
            (call env (Call.killProcessesWithOpenFiles path 2)
              (call env (Call.killProcessesWithOpenFiles path 1) s).2).2).2).2.trace
          (call env (Call.umount path) (call env (Call.usleep (2000 * 1000))
            (call env (Call.killProcessesWithOpenFiles path 2)
              (call env (Call.killProcessesWithOpenFiles path 1) s).2).2).2).2.errno cs := by
      intro cs
      simp [umountAttempts, isUmount]
    unfold Volume.doUnmountKill
    dsimp only
    rw [umountDone_snd, umountDone_fst]
    generalize hs3 : (call env (Call.usleep (2000 * 1000))
        (call env (Call.killProcessesWithOpenFiles path 2)
          (call env (Call.killProcessesWithOpenFiles path 1) s).2).2).2 = s3 at hatt ⊢
    have ht3 : s3.trace = s.trace ++ [Call.killProcessesWithOpenFiles path 1,
        Call.killProcessesWithOpenFiles path 2, Call.usleep (2000 * 1000)] := by
      rw [← hs3]; simp
    by_cases hd : umountSettled ((env s3.trace (Call.umount path)).ret,
        (env s3.trace (Call.umount path)).err.getD s3.errno) = true
    · rw [if_pos hd]
      refine ⟨[Call.killProcessesWithOpenFiles path 1, Call.killProcessesWithOpenFiles path 2,
        Call.usleep (2000 * 1000), Call.umount path], ?_, ?_, ?_⟩
      · rw [call_trace, ht3]; simp
      · have := hatt []
        rw [List.append_nil] at this
        rw [this]
        simp [unmountCalls, hd, hround, umountAttempts]
      · have := hatt []
        rw [List.append_nil] at this
        rw [this]
        simp [unmountContract, hd, umountAttempts]
    · rw [if_neg hd]
      obtain ⟨cs, c1, c2, c3⟩ := ih (i + 1) (call env (Call.umount path) s3).2 (by omega)
      refine ⟨[Call.killProcessesWithOpenFiles path 1, Call.killProcessesWithOpenFiles path 2,
        Call.usleep (2000 * 1000), Call.umount path] ++ cs, ?_, ?_, ?_⟩
      · rw [c1, call_trace, ht3]; simp
      · rw [hatt cs]
        simp only [unmountCalls, hd, Bool.false_eq_true, if_false, hround]
        rw [← c2]
      · rw [hatt cs]
        simp only [unmountContract, hd, Bool.false_eq_true, if_false]
        exact c3

/-- The run of Volume::doUnmount: the calls it makes are those of `unmountCalls` for
the outcomes of its attempts, and these outcomes meet the doUnmount contract with the
value returned. -/
theorem doUnmount_run (env : Env) (path : String) (force : Bool) (s : Sys) :
    ∃ cs,
      (Volume.doUnmount env path force s).2.trace = s.trace ++ cs ∧
      cs = unmountCalls path 0 (unmountBudget force) (umountAttempts env s.trace s.errno cs) ∧
      unmountContract (unmountBudget force) (umountAttempts env s.trace s.errno cs) =
        some (Volume.doUnmount env path force s).1 := by
  have hb : ∃ b, unmountBudget force = b + 2 ∧ (force = true → b = 20) ∧ (force = false → b = 0) := by
    cases force
    · exact ⟨0, rfl, fun h => absurd h (by decide), fun _ => rfl⟩
    · exact ⟨20, rfl, fun _ => rfl, fun h => absurd h (by decide)⟩
  obtain ⟨b, hb1, hb2, hb3⟩ := hb
  rw [hb1]
  have hr0 : unmountRound path 0 = [Call.umount path] := rfl
  have hr1 : unmountRound path 1 = [Call.usleep (5000 * 1000), Call.umount path] := rfl
  unfold Volume.doUnmount
  dsimp only
  rw [umountDone_fst, umountDone_snd]
  by_cases hd0 : umountSettled ((env s.trace (Call.umount path)).ret,
      (env s.trace (Call.umount path)).err.getD s.errno) = true
  · rw [if_pos hd0]
    refine ⟨[Call.umount path], rfl, ?_, ?_⟩
    · simp [umountAttempts, isUmount, unmountCalls, hd0, hr0]
    · simp [umountAttempts, isUmount, unmountContract, hd0]
  · rw [if_neg hd0]
    unfold Volume.doUnmountRetry
    dsimp only
    rw [umountDone_fst, umountDone_snd]
    generalize hs1 : (call env (Call.usleep (5000 * 1000))
      (call env (Call.umount path) s).2).2 = s1
    have ht1 : s1.trace = s.trace ++ [Call.umount path, Call.usleep (5000 * 1000)] := by
      rw [← hs1]; simp
    have he1 : s1.errno = (env (s.trace ++ [Call.umount path])
        (Call.usleep (5000 * 1000))).err.getD
        ((env s.trace (Call.umount path)).err.getD s.errno) := by
      rw [← hs1]; rfl
    have hatt : ∀ cs, umountAttempts env s.trace s.errno
        ([Call.umount path, Call.usleep (5000 * 1000), Call.umount path] ++ cs) =
        ((env s.trace (Call.umount path)).ret,
          (env s.trace (Call.umount path)).err.getD s.errno) ::
        ((env s1.trace (Call.umount path)).ret,
          (env s1.trace (Call.umount path)).err.getD s1.errno) ::
        umountAttempts env (call env (Call.umount path) s1).2.trace
          (call env (Call.umount path) s1).2.errno cs := by
      intro cs
      rw [call_trace, call_errno, ht1, he1]
      simp [umountAttempts, isUmount]
    by_cases hd1 : umountSettled ((env s1.trace (Call.umount path)).ret,
        (env s1.trace (Call.umount path)).err.getD s1.errno) = true
    · rw [if_pos hd1]
      dsimp only
      rw [if_pos rfl]
      have := hatt []
      rw [List.append_nil] at this
      refine ⟨[Call.umount path, Call.usleep (5000 * 1000), Call.umount path], ?_, ?_, ?_⟩
      · rw [call_trace, ht1]; simp
      · rw [this]
        simp [unmountCalls, hd0, hd1, hr0, hr1, umountAttempts]
      · rw [this]
        simp [unmountContract, hd0, hd1, umountAttempts]
    · rw [if_neg hd1]
      unfold Volume.doUnmountRetry
      dsimp only
      rw [if_neg (by decide)]
      cases force with
      | false =>
        have hb0 := hb3 rfl
        subst hb0
        rw [if_neg (by decide)]
        have := hatt []
        rw [List.append_nil] at this
        refine ⟨[Call.umount path, Call.usleep (5000 * 1000), Call.umount path], ?_, ?_, ?_⟩
        · unfold Volume.doUnmountGiveUp
          rw [call_trace, ht1]; simp
        · rw [this]
          simp [unmountCalls, hd0, hd1, hr0, hr1, umountAttempts]
        · rw [this]
          simp [unmountContract, hd0, hd1, umountAttempts, Volume.doUnmountGiveUp]
      | true =>
        have hb0 := hb2 rfl
        subst hb0
        rw [if_pos rfl]
        obtain ⟨cs, c1, c2, c3⟩ := doUnmountKill_run env path 20 2
          (call env (Call.umount path) s1).2 (le_refl _)
        refine ⟨[Call.umount path, Call.usleep (5000 * 1000), Call.umount path] ++ cs,
          ?_, ?_, ?_⟩
        · by_cases hk : (Volume.doUnmountKill env path 20 (call env (Call.umount path) s1).2).1 = true
          · rw [if_pos hk, c1, call_trace, ht1]; simp
          · rw [if_neg hk]
            unfold Volume.doUnmountGiveUp
            rw [c1, call_trace, ht1]; simp
        · rw [hatt cs]
          simp only [unmountCalls, hd0, hd1, Bool.false_eq_true, if_false, hr0, hr1]
          rw [← c2]
          rfl
        · rw [hatt cs]
          simp only [unmountContract, hd0, hd1, Bool.false_eq_true, if_false]
          rw [c3]
          by_cases hk : (Volume.doUnmountKill env path 20 (call env (Call.umount path) s1).2).1 = true
          · rw [if_pos hk, if_pos hk]
          · rw [if_neg hk, if_neg hk]
            rfl

/-- A sequence of attempts that the doUnmount contract allows is no longer than the
budget and not empty when there is a budget; when no attempt settles the unmount, the
budget is used up and the result is -1. -/
theorem unmountContract_length (n : Nat) :
    ∀ (outs : List (Int × Int)) (rc : Int), unmountContract n outs = some rc →
      outs.length ≤ n ∧ (0 < n → outs ≠ []) ∧
      ((∀ o ∈ outs, umountSettled o = false) → rc = -1 ∧ outs.length = n) := by
  induction n with
  | zero =>
    intro outs rc h
    cases outs with
    | nil =>
      simp only [unmountContract, Option.some.injEq] at h
      exact ⟨le_refl _, fun h0 => absurd h0 (by decide), fun _ => ⟨h.symm, rfl⟩⟩
    | cons o rest => simp [unmountContract] at h
  | succ k ih =>
    intro outs rc h
    cases outs with
    | nil => simp [unmountContract] at h
    | cons o rest =>
      simp only [unmountContract] at h
      split_ifs at h with h1 h2
      · subst h2
        refine ⟨by simp, fun _ => by simp, fun hall => ?_⟩
        have := hall o (List.mem_cons_self _ _)
        rw [h1] at this
        exact absurd this (by decide)
      · obtain ⟨a, _, c⟩ := ih rest rc h
        refine ⟨by simp; omega, fun _ => by simp, fun hall => ?_⟩
        obtain ⟨c1, c2⟩ := c (fun o ho => hall o (List.mem_cons_of_mem _ ho))
        exact ⟨c1, by simp [c2]⟩

/-- The attempts seen among calls are as many as the umount calls. -/
theorem umountAttempts_length (env : Env) (cs : List Call) :
    ∀ (pre : List Call) (e : Int), (umountAttempts env pre e cs).length = cs.countP isUmount := by
  induction cs with
  | nil => intro pre e; rfl
  | cons c rest ih =>
    intro pre e
    unfold umountAttempts
    by_cases hc : isUmount c = true
    · rw [if_pos hc, List.length_cons, ih, List.countP_cons_of_pos _ _ hc]
    · rw [if_neg hc, ih, List.countP_cons_of_neg _ _ hc]

/-- Volume::doUnmount returns 0 or, with `errno` at EBUSY, -1. -/
theorem doUnmount_result (env : Env) (path : String) (force : Bool) (s : Sys) :
    (Volume.doUnmount env path force s).1 = 0 ∨
    ((Volume.doUnmount env path force s).1 = -1 ∧
      (Volume.doUnmount env path force s).2.errno = EBUSY) := by
  unfold Volume.doUnmount Volume.doUnmountGiveUp
  dsimp only
  split_ifs
  all_goals first
    | exact Or.inl rfl
    | exact Or.inr ⟨rfl, rfl⟩

/-! ## C21: the attempts of doUnmount -/

/-- C21: Volume::doUnmount makes the calls `cs`, among them the umount attempts with
the outcomes `outs` (value returned, `errno`): at least one, at most 2 without `force`
and at most 22 with it. The calls are those of `unmountCalls`: the immediate attempt,
the retry after a sleep of 5 s, and with `force` up to 20 rounds, each with SIGHUP and
SIGKILL to the holders of open files and a sleep of 2 s before its umount. The
outcomes meet the doUnmount contract with the value returned: the first attempt that
succeeds or fails with EINVAL or ENOENT is the last and 0 is returned; when no attempt
does so, all attempts allowed were made, -1 is returned and `errno` is EBUSY. -/
theorem C21_doUnmount_attempts (env : Env) (path : String) (force : Bool) (s : Sys) :
    ∃ cs outs,
      (Volume.doUnmount env path force s).2.trace = s.trace ++ cs ∧
      outs = umountAttempts env s.trace s.errno cs ∧
      cs.countP isUmount = outs.length ∧
      1 ≤ outs.length ∧
      (force = false → outs.length ≤ 2) ∧ (force = true → outs.length ≤ 22) ∧
      cs = unmountCalls path 0 (unmountBudget force) outs ∧
      unmountContract (unmountBudget force) outs =
        some (Volume.doUnmount env path force s).1 ∧
      ((∀ o ∈ outs, umountSettled o = false) →
        outs.length = unmountBudget force ∧
        (Volume.doUnmount env path force s).1 = -1 ∧
        (Volume.doUnmount env path force s).2.errno = EBUSY) := by
  obtain ⟨cs, c1, c2, c3⟩ := doUnmount_run env path force s
  obtain ⟨l1, l2, l3⟩ := unmountContract_length _ _ _ c3
  refine ⟨cs, _, c1, rfl, (umountAttempts_length env cs _ _).symm, ?_, ?_, ?_, c2, c3, ?_⟩
  · exact Nat.pos_of_ne_zero (fun h0 =>
      l2 (by cases force <;> decide) (List.length_eq_zero.mp h0))
  · intro hf; rw [hf] at l1; exact l1
  · intro hf; rw [hf] at l1; exact l1
  · intro hall
    obtain ⟨r1, r2⟩ := l3 hall
    refine ⟨r2, r1, ?_⟩
    rcases doUnmount_result env path force s with h0 | ⟨_, he⟩
    · rw [h0] at r1; exact absurd r1 (by decide)
    · exact he

/-! ## unmountVol on a Mounted volume -/

/-- On a Mounted volume unmountVol is its unmounting part run after the prelude. -/
theorem unmountVol_eq_secure (env : Env) (force revert : Bool) (s : Sys)
    (h : s.vol.mState = State_Mounted) :
    Volume.unmountVol env force revert s =
      Volume.unmountVolSecure env force revert s.vol.mFlags.VOL_PROVIDES_ASEC
        (Volume.unmountVolPrelude env s) := by
  unfold Volume.unmountVol Volume.unmountVolCleanupAsec Volume.unmountVolPrelude
  rw [if_neg (by simp [h])]
  dsimp only
  split_ifs <;> rfl

/-- The volume object and the calls made when unmountVol starts to unmount. -/
theorem unmountVolPrelude_spec (env : Env) (s : Sys) (h : s.vol.mState = State_Mounted) :
    (Volume.unmountVolPrelude env s).vol = { s.vol with mState := State_Idle } ∧
    (Volume.unmountVolPrelude env s).trace = s.trace ++
      [Call.sendBroadcast ResponseCode.VolumeStateChange
         (snprintf 255 (stateChangedMsg s.vol.mLabel s.vol.mFuseMountpoint
           State_Mounted State_Unmounting)),
       Call.sendBroadcast ResponseCode.VolumeStateChange
         (snprintf 255 (stateChangedMsg s.vol.mLabel s.vol.mFuseMountpoint
           State_Unmounting State_Idle))] ++
      ([Call.cleanupISO s.vol.mLabel true] ++
        (if s.vol.mFlags.VOL_PROVIDES_ASEC = true then [Call.usleep (1000 * 1000)] else []) ++
        [Call.cleanupAsec s.vol.mLabel true,
         Call.property_set "ctl.stop" (fuseService s.vol.mLabel)]) := by
  have hv1 : (Volume.setState env State_Unmounting s).vol =
      { s.vol with mState := State_Unmounting } := by
    rw [setState_vol _ _ _ (by rw [h]; decide)]
    simp [h]
  have ht1 := setState_trace env State_Unmounting s (by rw [h]; decide)
  have hv2 : (Volume.setState env State_Idle (Volume.setState env State_Unmounting s)).vol =
      { s.vol with mState := State_Idle } := by
    rw [setState_vol _ _ _ (by rw [hv1]; simp), hv1]
    simp
  have ht2 := setState_trace env State_Idle (Volume.setState env State_Unmounting s)
    (by rw [hv1]; simp)
  rw [ht1] at ht2
  simp only [stateChangeCall, hv1, h] at ht2
  unfold Volume.unmountVolPrelude
  dsimp only
  generalize Volume.setState env State_Idle (Volume.setState env State_Unmounting s) = s2
    at hv2 ht2 ⊢
  split_ifs with hpa
  · simp [hv2, ht2]
  · simp [hv2, ht2]

theorem isUnmountCall_quiet (c : Call) (h : isUnmountCall c = true) :
    isUnmountQuietCall c = true := by
  cases c <;> simp_all [isUnmountCall, isUnmountQuietCall]

theorem unmountVolFailRemountSecure_fst (env : Env) (pa : Bool) (s : Sys) :
    (Volume.unmountVolFailRemountSecure env pa s).1 = -1 := by
  unfold Volume.unmountVolFailRemountSecure Volume.unmountVolOutMounted
    Volume.unmountVolOutNoMedia
  dsimp only
  split_ifs <;> rfl

/-- When the unmounting part of unmountVol returns 0, it has made only unmount calls
and the crypto revert: no state change is broadcast. -/
theorem unmountVolReal_success_ext (env : Env) (force revert pa : Bool) (s : Sys)
    (h : (Volume.unmountVolReal env force revert pa s).1 = 0) :
    Ext isUnmountQuietCall s (Volume.unmountVolReal env force revert pa s).2 := by
  have hd := ext_mono (doUnmount_steps env s.vol.mMountpoint force s).2 isUnmountCall_quiet
  unfold Volume.unmountVolReal at h ⊢
  dsimp only at h ⊢
  split_ifs at h ⊢
  · rw [unmountVolFailRemountSecure_fst] at h
    exact absurd h (by decide)
  · exact ext_of_trace (t := (call env (Call.cryptfs_revert_volume
        (Volume.doUnmount env s.vol.mMountpoint force s).2.vol.mLabel)
        (Volume.doUnmount env s.vol.mMountpoint force s).2).2) rfl
      (ext_trans hd (ext_call env _ _ rfl))
  · exact ext_of_trace (t := (Volume.doUnmount env s.vol.mMountpoint force s).2) rfl hd

theorem unmountVolSecure_success_ext (env : Env) (force revert pa : Bool) (s : Sys)
    (h : (Volume.unmountVolSecure env force revert pa s).1 = 0) :
    Ext isUnmountQuietCall s (Volume.unmountVolSecure env force revert pa s).2 := by
  have hd := ext_mono (doUnmount_steps env SEC_ASECDIR_EXT force s).2 isUnmountCall_quiet
  unfold Volume.unmountVolSecure Volume.unmountVolOutMounted at h ⊢
  dsimp only at h ⊢
  split_ifs at h ⊢
  · simp at h
  · exact ext_trans hd (unmountVolReal_success_ext env force revert pa _ h)
  · exact unmountVolReal_success_ext env force revert pa _ h

/-! ## C22: the successful unmount -/

/-- C22: when Volume::unmountVol returns 0 on a Mounted volume, the calls it made start
with the two state-change broadcasts Mounted -> Unmounting and Unmounting -> Idle;
then come the teardown steps: ISO cleanup, (a sleep,) ASEC cleanup, stop of the FUSE
service, and the unmount calls (with the crypto revert), among which there is no
further state-change broadcast. So the VolumeStateChange broadcasts sent are exactly
these two, one per transition, both before any teardown step. The volume is left in
Idle with current_mounted_kdev at the null value. -/
theorem C22_unmountVol_success (env : Env) (force revert : Bool) (s : Sys)
    (hst : s.vol.mState = State_Mounted)
    (hrc : (Volume.unmountVol env force revert s).1 = 0) :
    (Volume.unmountVol env force revert s).2.vol.mState = State_Idle ∧
    (Volume.unmountVol env force revert s).2.vol.mCurrentlyMountedKdev = KDEV_NULL ∧
    (∃ rest, (Volume.unmountVol env force revert s).2.trace = s.trace ++
        [Call.sendBroadcast ResponseCode.VolumeStateChange
           (snprintf 255 (stateChangedMsg s.vol.mLabel s.vol.mFuseMountpoint
             State_Mounted State_Unmounting)),
         Call.sendBroadcast ResponseCode.VolumeStateChange
           (snprintf 255 (stateChangedMsg s.vol.mLabel s.vol.mFuseMountpoint
             State_Unmounting State_Idle))] ++
        ([Call.cleanupISO s.vol.mLabel true] ++
          (if s.vol.mFlags.VOL_PROVIDES_ASEC = true then [Call.usleep (1000 * 1000)] else []) ++
          [Call.cleanupAsec s.vol.mLabel true,
           Call.property_set "ctl.stop" (fuseService s.vol.mLabel)]) ++ rest ∧
      ∀ c ∈ rest, isUnmountQuietCall c = true) ∧
    broadcasts ResponseCode.VolumeStateChange (Volume.unmountVol env force revert s).2.trace =
      broadcasts ResponseCode.VolumeStateChange s.trace ++
        [snprintf 255 (stateChangedMsg s.vol.mLabel s.vol.mFuseMountpoint
           State_Mounted State_Unmounting),
         snprintf 255 (stateChangedMsg s.vol.mLabel s.vol.mFuseMountpoint
           State_Unmounting State_Idle)] := by
  obtain ⟨hout, _⟩ := unmountVol_mounted env force revert s hst
  have hvol : (Volume.unmountVol env force revert s).2.vol.mState = State_Idle ∧
      (Volume.unmountVol env force revert s).2.vol.mCurrentlyMountedKdev = KDEV_NULL := by
    rcases hout with ⟨_, hv | hv⟩ | ⟨hneg, _⟩
    · rw [hv]; exact ⟨rfl, rfl⟩
    · rw [hv]; exact ⟨rfl, rfl⟩
    · rw [hrc] at hneg; exact absurd hneg (by decide)
  rw [unmountVol_eq_secure env force revert s hst] at hrc ⊢
  obtain ⟨rest, hr1, hr2⟩ := unmountVolSecure_success_ext env force revert _ _ hrc
  obtain ⟨_, pt⟩ := unmountVolPrelude_spec env s hst
  rw [hr1, pt]
  have hq : broadcasts ResponseCode.VolumeStateChange rest = [] :=
    broadcasts_nil_of _ rest (fun c hc msg hcm => by
      have := hr2 c hc
      rw [hcm] at this
      simp [isUnmountQuietCall] at this)
  refine ⟨?_, ?_, ⟨rest, rfl, hr2⟩, ?_⟩
  · rw [← unmountVol_eq_secure env force revert s hst]; exact hvol.1
  · rw [← unmountVol_eq_secure env force revert s hst]; exact hvol.2
  · rw [broadcasts_append, broadcasts_append, broadcasts_append, hq]
    split_ifs <;> simp [broadcasts]

/-- C22, witness: the volume `sysMounted` is unmounted while every call succeeds. -/
theorem C22_unmountVol_success_witness :
    (Volume.unmountVol envOk false false sysMounted).2.vol.mState = State_Idle ∧
    (Volume.unmountVol envOk false false sysMounted).2.vol.mCurrentlyMountedKdev = KDEV_NULL ∧
    (∃ rest, (Volume.unmountVol envOk false false sysMounted).2.trace = sysMounted.trace ++
        [Call.sendBroadcast ResponseCode.VolumeStateChange
           (snprintf 255 (stateChangedMsg sysMounted.vol.mLabel sysMounted.vol.mFuseMountpoint
             State_Mounted State_Unmounting)),
         Call.sendBroadcast ResponseCode.VolumeStateChange
           (snprintf 255 (stateChangedMsg sysMounted.vol.mLabel sysMounted.vol.mFuseMountpoint
             State_Unmounting State_Idle))] ++
        ([Call.cleanupISO sysMounted.vol.mLabel true] ++
          (if sysMounted.vol.mFlags.VOL_PROVIDES_ASEC = true then [Call.usleep (1000 * 1000)]
           else []) ++
          [Call.cleanupAsec sysMounted.vol.mLabel true,
           Call.property_set "ctl.stop" (fuseService sysMounted.vol.mLabel)]) ++ rest ∧
      ∀ c ∈ rest, isUnmountQuietCall c = true) ∧
    broadcasts ResponseCode.VolumeStateChange
        (Volume.unmountVol envOk false false sysMounted).2.trace =
      broadcasts ResponseCode.VolumeStateChange sysMounted.trace ++
        [snprintf 255 (stateChangedMsg sysMounted.vol.mLabel sysMounted.vol.mFuseMountpoint
           State_Mounted State_Unmounting),
         snprintf 255 (stateChangedMsg sysMounted.vol.mLabel sysMounted.vol.mFuseMountpoint
           State_Unmounting State_Idle)] :=
  C22_unmountVol_success envOk false false sysMounted (by decide) (by decide)

/-! ## C23: the failed unmount -/

theorem directVolume_state_eta (v : DirectVolume) (st : State) (h : v.mState = st) :
    { v with mState := st } = v := by
  subst h
  rfl

/-- The unmounting of the mountpoint in unmountVol when doUnmount fails: -1 is
returned; the volume is as `v0` (Mounted) when it provides no ASEC storage or the
secure area was bound again, and `v0` in NoMedia when binding it again failed. -/
theorem unmountVolReal_failure (env : Env) (force revert pa : Bool) (q : Sys)
    (v0 : DirectVolume) (hq : q.vol = { v0 with mState := State_Idle })
    (hv0 : v0.mState = State_Mounted)
    (hfail : (Volume.doUnmount env q.vol.mMountpoint force q).1 ≠ 0) :
    (Volume.unmountVolReal env force revert pa q).1 = -1 ∧
    ((pa = false ∨ (Volume.mountAsecExternal env
        (Volume.doUnmount env q.vol.mMountpoint force q).2).1 = 0) →
      (Volume.unmountVolReal env force revert pa q).2.vol = v0) ∧
    (pa = true → (Volume.mountAsecExternal env
        (Volume.doUnmount env q.vol.mMountpoint force q).2).1 ≠ 0 →
      (Volume.unmountVolReal env force revert pa q).2.vol =
        { v0 with mState := State_NoMedia }) := by
  have hv := (doUnmount_steps env q.vol.mMountpoint force q).1
  have ha := (mountAsecExternal_steps env (Volume.doUnmount env q.vol.mMountpoint force q).2).1
  unfold Volume.unmountVolReal
  dsimp only
  rw [if_pos hfail]
  unfold Volume.unmountVolFailRemountSecure Volume.unmountVolOutMounted
    Volume.unmountVolOutNoMedia
  dsimp only
  cases pa with
  | false =>
    rw [if_neg (by decide)]
    refine ⟨rfl, fun _ => ?_, fun h => absurd h (by decide)⟩
    rw [setState_vol _ _ _ (by rw [hv, hq]; simp), hv, hq]
    simp only [reduceCtorEq, false_and, if_false]
    exact directVolume_state_eta v0 State_Mounted hv0
  | true =>
    rw [if_pos rfl]
    by_cases hb : (Volume.mountAsecExternal env
        (Volume.doUnmount env q.vol.mMountpoint force q).2).1 ≠ 0
    · rw [if_pos hb]
      refine ⟨rfl, fun h => ?_, fun _ _ => ?_⟩
      · rcases h with h | h
        · exact absurd h (by decide)
        · exact absurd h hb
      · rw [setState_vol _ _ _ (by rw [ha, hv, hq]; simp), ha, hv, hq]
        simp
    · rw [if_neg hb]
      refine ⟨rfl, fun _ => ?_, fun _ h => absurd h hb⟩
      rw [setState_vol _ _ _ (by rw [ha, hv, hq]; simp), ha, hv, hq]
      simp only [reduceCtorEq, false_and, if_false]
      exact directVolume_state_eta v0 State_Mounted hv0

/-- C23: on a Mounted volume, a failing Volume::unmountVol returns -1 with
current_mounted_kdev unchanged. If the volume provides ASEC storage and the unmount of
the secure bind at /mnt/secure/asec fails, the volume is left as it was, in Mounted. If
the unmount of the mountpoint fails, the volume is left as it was, in Mounted, when it
provides no ASEC storage or the secure area is bound again with success, and is left in
NoMedia (nothing else changed) when binding the secure area again fails. These are the
only failures. -/
theorem C23_unmountVol_failure (env : Env) (force revert : Bool) (s : Sys)
    (hst : s.vol.mState = State_Mounted) :
    ((Volume.unmountVol env force revert s).1 ≠ 0 →
      (Volume.unmountVol env force revert s).1 = -1 ∧
      (Volume.unmountVol env force revert s).2.vol.mCurrentlyMountedKdev =
        s.vol.mCurrentlyMountedKdev ∧
      ((s.vol.mFlags.VOL_PROVIDES_ASEC = true ∧
          (Volume.doUnmount env SEC_ASECDIR_EXT force (Volume.unmountVolPrelude env s)).1 ≠ 0) ∨
        (Volume.doUnmount env s.vol.mMountpoint force
          (Volume.unmountVolBindGone env force s)).1 ≠ 0)) ∧
    (s.vol.mFlags.VOL_PROVIDES_ASEC = true →
      (Volume.doUnmount env SEC_ASECDIR_EXT force (Volume.unmountVolPrelude env s)).1 ≠ 0 →
      (Volume.unmountVol env force revert s).1 = -1 ∧
      (Volume.unmountVol env force revert s).2.vol = s.vol) ∧
    ((s.vol.mFlags.VOL_PROVIDES_ASEC = true →
        (Volume.doUnmount env SEC_ASECDIR_EXT force (Volume.unmountVolPrelude env s)).1 = 0) →
      (Volume.doUnmount env s.vol.mMountpoint force
        (Volume.unmountVolBindGone env force s)).1 ≠ 0 →
      (Volume.unmountVol env force revert s).1 = -1 ∧
      ((s.vol.mFlags.VOL_PROVIDES_ASEC = false ∨
          (Volume.mountAsecExternal env (Volume.doUnmount env s.vol.mMountpoint force
            (Volume.unmountVolBindGone env force s)).2).1 = 0) →
        (Volume.unmountVol env force revert s).2.vol = s.vol) ∧
      (s.vol.mFlags.VOL_PROVIDES_ASEC = true →
        (Volume.mountAsecExternal env (Volume.doUnmount env s.vol.mMountpoint force
          (Volume.unmountVolBindGone env force s)).2).1 ≠ 0 →
        (Volume.unmountVol env force revert s).2.vol =
          { s.vol with mState := State_NoMedia })) := by
  obtain ⟨pv, _⟩ := unmountVolPrelude_spec env s hst
  have hbv : (Volume.unmountVolBindGone env force s).vol = { s.vol with mState := State_Idle } := by
    unfold Volume.unmountVolBindGone
    split_ifs
    · rw [(doUnmount_steps env SEC_ASECDIR_EXT force _).1, pv]
    · exact pv
  have hmp : (Volume.unmountVolBindGone env force s).vol.mMountpoint = s.vol.mMountpoint := by
    rw [hbv]
  have heq := unmountVol_eq_secure env force revert s hst
  -- the failure at the secure bind
  have hA : s.vol.mFlags.VOL_PROVIDES_ASEC = true →
      (Volume.doUnmount env SEC_ASECDIR_EXT force (Volume.unmountVolPrelude env s)).1 ≠ 0 →
      (Volume.unmountVol env force revert s).1 = -1 ∧
      (Volume.unmountVol env force revert s).2.vol = s.vol := by
    intro hpa hf
    rw [heq]
    unfold Volume.unmountVolSecure Volume.unmountVolOutMounted
    dsimp only
    rw [if_pos hpa, if_pos hf]
    refine ⟨rfl, ?_⟩
    rw [setState_vol _ _ _ (by rw [(doUnmount_steps env SEC_ASECDIR_EXT force _).1, pv]; simp),
      (doUnmount_steps env SEC_ASECDIR_EXT force _).1, pv]
    simp only [reduceCtorEq, false_and, if_false]
    exact directVolume_state_eta s.vol State_Mounted hst
  -- from the unmount of the mountpoint on
  have hB : (s.vol.mFlags.VOL_PROVIDES_ASEC = true →
        (Volume.doUnmount env SEC_ASECDIR_EXT force (Volume.unmountVolPrelude env s)).1 = 0) →
      Volume.unmountVol env force revert s =
        Volume.unmountVolReal env force revert s.vol.mFlags.VOL_PROVIDES_ASEC
          (Volume.unmountVolBindGone env force s) := by
    intro hok
    rw [heq]
    unfold Volume.unmountVolSecure Volume.unmountVolBindGone
    dsimp only
    by_cases hpa : s.vol.mFlags.VOL_PROVIDES_ASEC = true
    · rw [if_pos hpa, if_neg (by rw [hok hpa]; decide), if_pos hpa]
    · rw [if_neg hpa, if_neg hpa]
  refine ⟨?_, hA, ?_⟩
  · intro hne
    obtain ⟨hout, _⟩ := unmountVol_mounted env force revert s hst
    have h1 : (Volume.unmountVol env force revert s).1 = -1 ∧
        (Volume.unmountVol env force revert s).2.vol.mCurrentlyMountedKdev =
          s.vol.mCurrentlyMountedKdev := by
      rcases hout with ⟨h0, _⟩ | ⟨hneg, hv | hv⟩
      · exact absurd h0 hne
      · exact ⟨hneg, by rw [hv]⟩
      · exact ⟨hneg, by rw [hv]⟩
    refine ⟨h1.1, h1.2, ?_⟩
    by_cases hsec : s.vol.mFlags.VOL_PROVIDES_ASEC = true ∧
        (Volume.doUnmount env SEC_ASECDIR_EXT force (Volume.unmountVolPrelude env s)).1 ≠ 0
    · exact Or.inl hsec
    · right
      have hok : s.vol.mFlags.VOL_PROVIDES_ASEC = true →
          (Volume.doUnmount env SEC_ASECDIR_EXT force (Volume.unmountVolPrelude env s)).1 = 0 :=
        fun hpa => by
          by_contra hc
          exact hsec ⟨hpa, hc⟩
      intro hz
      rw [hB hok] at hne
      apply hne
      unfold Volume.unmountVolReal
      dsimp only
      rw [hmp, if_neg (by rw [hz]; decide)]
      split_ifs <;> rfl
  · intro hok hf
    rw [hB hok]
    rw [← hmp] at hf ⊢
    exact unmountVolReal_failure env force revert _ _ s.vol hbv hst hf

/-- C23, witness: the volume `sysMountedAsec` provides ASEC storage; in the environment
`envUnmountRebindFails` the secure bind is unmounted, the unmount of the mountpoint
fails and binding the secure area again fails. unmountVol returns -1 and leaves the
volume in NoMedia, nothing else changed. -/
theorem C23_unmountVol_failure_witness :
    (Volume.unmountVol envUnmountRebindFails false false sysMountedAsec).1 = -1 ∧
    (Volume.unmountVol envUnmountRebindFails false false sysMountedAsec).2.vol =
      { sysMountedAsec.vol with mState := State_NoMedia } :=
  ⟨((C23_unmountVol_failure envUnmountRebindFails false false sysMountedAsec
      (by decide)).2.2 (by decide) (by decide)).1,
   ((C23_unmountVol_failure envUnmountRebindFails false false sysMountedAsec
      (by decide)).2.2 (by decide) (by decide)).2.2 (by decide) (by decide)⟩

/-! ## mountVol failing after it entered Checking -/

/-- The body of the loop of mountVol as a decision over the three steps that can fail. -/
theorem mountVolDevice_cases (env : Env) (pa : Bool) (dev : Nat) (s : Sys) :
    Volume.mountVolDevice env pa dev s =
      if (Volume.mountVolProbed env pa dev s).1 = true then
        (-1, Volume.revertChecking env (Volume.mountVolProbed env pa dev s).2)
      else if (Volume.mountVolBound env pa dev s).1 ≠ 0 then
        (-1, Volume.revertChecking env
          (call env (Call.umount SEC_STGDIR) (Volume.mountVolBound env pa dev s).2).2)
      else if (Volume.mountVolMoved env pa dev s).1 ≠ 0 then
        (-1, Volume.revertChecking env
          (call env (Call.umount SEC_STGDIR)
            (if pa then (call env (Call.umount SEC_ASECDIR_EXT)
              (Volume.mountVolMoved env pa dev s).2).2
             else (Volume.mountVolMoved env pa dev s).2)).2)
      else Volume.mountVolFinish env dev (Volume.mountVolMoved env pa dev s).2 := by
  unfold Volume.mountVolDevice Volume.mountVolSecure Volume.mountVolMove Volume.mountVolMoved
    Volume.mountVolBound Volume.mountVolProbed
  dsimp only
  cases pa
  · simp only [Bool.false_eq_true, if_false, ne_eq, not_true_eq_false]
  · simp only [if_true]

theorem isMountFailCall_of_probe (c : Call) (h : isProbeCall c = true) :
    isMountFailCall c = true := by
  simp [isMountFailCall, isMountMidCall, h]

theorem isMountFailCall_of_metadata (c : Call) (h : isMetadataCall c = true) :
    isMountFailCall c = true := by
  simp [isMountFailCall, isMountMidCall, h]

theorem isMountFailCall_of_asec (c : Call) (h : isAsecSetupCall c = true) :
    isMountFailCall c = true := by
  simp [isMountFailCall, isMountMidCall, h]

theorem isMountFailCall_of_move (c : Call) (h : isMoveMountCall c = true) :
    isMountFailCall c = true := by
  simp [isMountFailCall, isMountMidCall, h]

/-- The volume object and the calls up to each of the three steps of the loop body of
mountVol, entered in Idle: the volume is in Checking, only UUID and user label may
differ otherwise from the volume at entry, and the calls are calls of
`isMountFailCall`. -/
theorem mountVolSteps_spec (env : Env) (pa : Bool) (dev : Nat) (s : Sys)
    (h : s.vol.mState = State_Idle) :
    ((Volume.mountVolProbed env pa dev s).2.vol = { s.vol with mState := State_Checking } ∧
      Ext isMountFailCall s (Volume.mountVolProbed env pa dev s).2) ∧
    ((∃ u l, (Volume.mountVolBound env pa dev s).2.vol =
        { s.vol with mUuid := u, mUserLabel := l, mState := State_Checking }) ∧
      Ext isMountFailCall s (Volume.mountVolBound env pa dev s).2) ∧
    ((∃ u l, (Volume.mountVolMoved env pa dev s).2.vol =
        { s.vol with mUuid := u, mUserLabel := l, mState := State_Checking }) ∧
      Ext isMountFailCall s (Volume.mountVolMoved env pa dev s).2) := by
  have hc : (Volume.setState env State_Checking s).vol = { s.vol with mState := State_Checking } := by
    rw [setState_vol _ _ _ (by rw [h]; decide)]
    simp [h]
  have hce : Ext isMountFailCall s
      ({ Volume.setState env State_Checking s with errno := 0 } : Sys) :=
    ext_errno 0 (ext_setState env State_Checking (fun _ => rfl) (ext_refl _ s))
  have hp := probeFilesystems_steps env (nodePath (MAJOR dev) (MINOR dev))
    (if pa then 0o007 else 0o002) { Volume.setState env State_Checking s with errno := 0 }
  have hpv : (Volume.mountVolProbed env pa dev s).2.vol = { s.vol with mState := State_Checking } := by
    unfold Volume.mountVolProbed
    rw [hp.1]
    exact hc
  have hpe : Ext isMountFailCall s (Volume.mountVolProbed env pa dev s).2 := by
    unfold Volume.mountVolProbed
    exact ext_trans hce (ext_mono hp.2 isMountFailCall_of_probe)
  obtain ⟨u, l, hm⟩ := extractMetadata_vol env (nodePath (MAJOR dev) (MINOR dev))
    (Volume.mountVolProbed env pa dev s).2
  have hme := ext_trans hpe (ext_mono (extractMetadata_ext env (nodePath (MAJOR dev) (MINOR dev))
    (Volume.mountVolProbed env pa dev s).2) isMountFailCall_of_metadata)
  have hbv : (Volume.mountVolBound env pa dev s).2.vol =
      { s.vol with mUuid := u, mUserLabel := l, mState := State_Checking } := by
    unfold Volume.mountVolBound
    split_ifs
    · rw [(mountAsecExternal_steps env _).1, hm, hpv]
    · dsimp only
      rw [hm, hpv]
  have hbe : Ext isMountFailCall s (Volume.mountVolBound env pa dev s).2 := by
    unfold Volume.mountVolBound
    split_ifs
    · exact ext_trans hme (ext_mono (mountAsecExternal_steps env _).2 isMountFailCall_of_asec)
    · exact hme
  have hmv := doMoveMount_steps env SEC_STGDIR
    (some (Volume.mountVolBound env pa dev s).2.vol.mMountpoint) false
    (Volume.mountVolBound env pa dev s).2
  refine ⟨⟨hpv, hpe⟩, ⟨⟨u, l, hbv⟩, hbe⟩, ⟨⟨u, l, ?_⟩, ?_⟩⟩
  · unfold Volume.mountVolMoved
    rw [hmv.1, hbv]
  · unfold Volume.mountVolMoved
    exact ext_trans hbe (ext_mono hmv.2 isMountFailCall_of_move)

/-- Leaving Checking on a failure: the volume goes to Idle with one state-change
broadcast. -/
theorem revertChecking_spec (env : Env) (x : Sys) (h : x.vol.mState = State_Checking) :
    (Volume.revertChecking env x).vol = { x.vol with mState := State_Idle } ∧
    (∃ msg, (Volume.revertChecking env x).trace =
      x.trace ++ [Call.sendBroadcast ResponseCode.VolumeStateChange msg]) ∧
    Ext isMountFailCall x (Volume.revertChecking env x) := by
  refine ⟨revertChecking_vol env x h,
    ⟨snprintf 255 (stateChangedMsg x.vol.mLabel x.vol.mFuseMountpoint x.vol.mState State_Idle), ?_⟩,
    ext_revertChecking env (fun _ => rfl) (ext_refl _ x)⟩
  unfold Volume.revertChecking
  rw [if_pos h, setState_trace _ _ _ (by rw [h]; decide)]
  rfl

/-! ## C24: mountVol failing after it entered Checking -/

/-- C24: the loop body of Volume::mountVol (`Volume.mountVolDevice`) is entered in Idle
and sets Checking. When it fails, -1 is returned, the volume is back in Idle with
current_mounted_kdev unchanged, and among the calls made there is no property_set, so
the FUSE service was not started. The failure is one of three: all four drivers
failed, and the only call after the probes is the state-change broadcast; or the
volume provides ASEC storage and mountAsecExternal failed, and then umount of the
staging directory was called, followed by the state-change broadcast; or doMoveMount
failed, and then umount was called on the secure bind /mnt/secure/asec (if the volume
provides ASEC storage) and on the staging directory, followed by the state-change
broadcast. When mountVol is called on an Idle volume, is not stopped by its first
tests and needs no decryption set-up, it is this loop body run after the prelude. -/
theorem C24_mountVol_failure (env : Env) (pa : Bool) (dev : Nat) (s : Sys)
    (hidle : s.vol.mState = State_Idle)
    (hfail : (Volume.mountVolDevice env pa dev s).1 ≠ 0) :
    (Volume.mountVolDevice env pa dev s).1 = -1 ∧
    (Volume.mountVolDevice env pa dev s).2.vol.mState = State_Idle ∧
    (Volume.mountVolDevice env pa dev s).2.vol.mCurrentlyMountedKdev =
      s.vol.mCurrentlyMountedKdev ∧
    (∃ cs, (Volume.mountVolDevice env pa dev s).2.trace = s.trace ++ cs ∧
      (∀ c ∈ cs, isMountFailCall c = true) ∧
      ∀ key value, Call.property_set key value ∉ cs) ∧
    (((Volume.mountVolProbed env pa dev s).1 = true ∧
        ∃ msg, (Volume.mountVolDevice env pa dev s).2.trace =
          (Volume.mountVolProbed env pa dev s).2.trace ++
            [Call.sendBroadcast ResponseCode.VolumeStateChange msg]) ∨
      ((Volume.mountVolProbed env pa dev s).1 = false ∧ pa = true ∧
        (Volume.mountVolBound env pa dev s).1 ≠ 0 ∧
        ∃ msg, (Volume.mountVolDevice env pa dev s).2.trace =
          (Volume.mountVolBound env pa dev s).2.trace ++
            [Call.umount SEC_STGDIR, Call.sendBroadcast ResponseCode.VolumeStateChange msg]) ∨
      ((Volume.mountVolProbed env pa dev s).1 = false ∧
        (Volume.mountVolBound env pa dev s).1 = 0 ∧
        (Volume.mountVolMoved env pa dev s).1 ≠ 0 ∧
        ∃ msg, (Volume.mountVolDevice env pa dev s).2.trace =
          (Volume.mountVolMoved env pa dev s).2.trace ++
            (if pa then [Call.umount SEC_ASECDIR_EXT] else []) ++
            [Call.umount SEC_STGDIR, Call.sendBroadcast ResponseCode.VolumeStateChange msg])) ∧
    (∀ s0 : Sys, s0.vol.mState = State_Idle → Volume.mountGate env s0 = false →
      Volume.mountpointFound env s0 = false →
      (¬ (s0.vol.mFlags.VOL_PROVIDES_ASEC = true ∧ s0.vol.mFlags.VOL_NONREMOVABLE = true ∧
        s0.vol.mFlags.VOL_ENCRYPTABLE = true) ∨ s0.vol.mIsDecrypted = true) →
      Volume.mountVol env s0 =
        Volume.mountVolDevice env s0.vol.mFlags.VOL_PROVIDES_ASEC
          ((DirectVolume.getDeviceNodes s0.vol).headD 0) (Volume.mountVolPrelude env s0)) := by
  obtain ⟨⟨pv, pe⟩, ⟨⟨u, l, bv⟩, be⟩, ⟨⟨u1, l1, mv⟩, me⟩⟩ := mountVolSteps_spec env pa dev s hidle
  have hK : ∀ cs : List Call, (∀ c ∈ cs, isMountFailCall c = true) →
      ∀ key value, Call.property_set key value ∉ cs := by
    intro cs hcs key value hmem
    have := hcs _ hmem
    simp [isMountFailCall, isMountMidCall, isProbeCall, isMetadataCall, isAsecSetupCall,
      isMoveMountCall, isStateChangeCall, isUmount] at this
  have hext : ∀ {x : Sys}, Ext isMountFailCall s x → ∃ cs, x.trace = s.trace ++ cs ∧
      (∀ c ∈ cs, isMountFailCall c = true) ∧ ∀ key value, Call.property_set key value ∉ cs :=
    fun hx => by
      obtain ⟨cs, h1, h2⟩ := hx
      exact ⟨cs, h1, h2, hK cs h2⟩
  have hlink : ∀ s0 : Sys, s0.vol.mState = State_Idle → Volume.mountGate env s0 = false →
      Volume.mountpointFound env s0 = false →
      (¬ (s0.vol.mFlags.VOL_PROVIDES_ASEC = true ∧ s0.vol.mFlags.VOL_NONREMOVABLE = true ∧
        s0.vol.mFlags.VOL_ENCRYPTABLE = true) ∨ s0.vol.mIsDecrypted = true) →
      Volume.mountVol env s0 =
        Volume.mountVolDevice env s0.vol.mFlags.VOL_PROVIDES_ASEC
          ((DirectVolume.getDeviceNodes s0.vol).headD 0) (Volume.mountVolPrelude env s0) :=
    fun s0 h1 h2 h3 h4 => mountVol_eq_mountVolDevice env s0 h1 h2 h3 h4
  have hcases := mountVolDevice_cases env pa dev s
  by_cases hp : (Volume.mountVolProbed env pa dev s).1 = true
  · rw [if_pos hp] at hcases
    obtain ⟨r1, ⟨msg, r2⟩, r3⟩ := revertChecking_spec env (Volume.mountVolProbed env pa dev s).2
      (by rw [pv])
    rw [hcases]
    refine ⟨rfl, ?_, ?_, hext (ext_trans pe r3), Or.inl ⟨hp, msg, r2⟩, hlink⟩
    · rw [r1]
    · rw [r1, pv]
  · rw [if_neg hp] at hcases
    have hpf : (Volume.mountVolProbed env pa dev s).1 = false := by simpa using hp
    by_cases hb : (Volume.mountVolBound env pa dev s).1 ≠ 0
    · rw [if_pos hb] at hcases
      obtain ⟨r1, ⟨msg, r2⟩, r3⟩ := revertChecking_spec env
        (call env (Call.umount SEC_STGDIR) (Volume.mountVolBound env pa dev s).2).2
        (by rw [call_vol, bv])
      have hpa : pa = true := by
        cases pa
        · exact absurd rfl hb
        · rfl
      rw [hcases]
      refine ⟨rfl, ?_, ?_,
        hext (ext_trans (ext_trans be (ext_call env (Call.umount SEC_STGDIR) _ rfl)) r3),
        Or.inr (Or.inl ⟨hpf, hpa, hb, msg, ?_⟩), hlink⟩
      · rw [r1]
      · rw [r1, call_vol, bv]
      · rw [r2, call_trace, List.append_assoc]
        rfl
    · rw [if_neg hb] at hcases
      have hb0 : (Volume.mountVolBound env pa dev s).1 = 0 := by
        by_contra hc
        exact hb hc
      by_cases hm : (Volume.mountVolMoved env pa dev s).1 ≠ 0
      · rw [if_pos hm] at hcases
        have hu : Ext isMountFailCall s
            (call env (Call.umount SEC_STGDIR)
              (if pa then (call env (Call.umount SEC_ASECDIR_EXT)
                (Volume.mountVolMoved env pa dev s).2).2
               else (Volume.mountVolMoved env pa dev s).2)).2 := by
          cases pa
          · exact ext_trans me (ext_call env (Call.umount SEC_STGDIR) _ rfl)
          · exact ext_trans (ext_trans me (ext_call env (Call.umount SEC_ASECDIR_EXT) _ rfl))
              (ext_call env (Call.umount SEC_STGDIR) _ rfl)
        have huv : (call env (Call.umount SEC_STGDIR)
              (if pa then (call env (Call.umount SEC_ASECDIR_EXT)
                (Volume.mountVolMoved env pa dev s).2).2
               else (Volume.mountVolMoved env pa dev s).2)).2.vol =
            { s.vol with mUuid := u1, mUserLabel := l1, mState := State_Checking } := by
          cases pa
          · rw [call_vol]; exact mv
          · rw [call_vol]; simp only [if_true]; rw [call_vol]; exact mv
        obtain ⟨r1, ⟨msg, r2⟩, r3⟩ := revertChecking_spec env _ (by rw [huv])
        rw [hcases]
        refine ⟨rfl, ?_, ?_, hext (ext_trans hu r3),
          Or.inr (Or.inr ⟨hpf, hb0, hm, msg, ?_⟩), hlink⟩
        · rw [r1]
        · rw [r1, huv]
        · rw [r2, call_trace]
          cases pa
          · simp
          · simp
      · rw [if_neg hm] at hcases
        rw [hcases] at hfail
        exact absurd rfl hfail

/-- C24, witness: the Idle volume `sysIdle` (no ASEC storage) is mounted from device
8:17 while every move mount fails with EINVAL: the NTFS driver mounts the device,
doMoveMount fails, umount of the staging directory is called and the volume is back in
Idle; -1 is returned. -/
theorem C24_mountVol_failure_witness :
    ((Volume.mountVolDevice envMoveInval false 2065 { sysIdle with trace := [] }).1 = -1 ∧
      (Volume.mountVolDevice envMoveInval false 2065
        { sysIdle with trace := [] }).2.vol.mState = State_Idle ∧
      (Volume.mountVolDevice envMoveInval false 2065
        { sysIdle with trace := [] }).2.vol.mCurrentlyMountedKdev =
        sysIdle.vol.mCurrentlyMountedKdev) ∧
    (Volume.mountVolDevice envMoveInval false 2065 { sysIdle with trace := [] }).2.trace =
      [Call.sendBroadcast ResponseCode.VolumeStateChange
         "Volume sdcard1 /storage/sdcard1 state changed from 1 (Idle-Unmounted) to 3 (Checking)",
       Call.Ntfs_doMount "/dev/block/vold/8:17" "/mnt/secure/staging" 2,
       Call.popen_blkid "/system/bin/blkid -c /dev/null /dev/block/vold/8:17",
       Call.sendBroadcast ResponseCode.VolumeUuidChange "sdcard1 /storage/sdcard1",
       Call.sendBroadcast ResponseCode.VolumeUserLabelChange "sdcard1 /storage/sdcard1",
       Call.mkdir "/mnt/media_rw/sdcard1" 0o074,
       Call.mount "/mnt/secure/staging" "/mnt/media_rw/sdcard1" MountFlag.MS_MOVE,
       Call.umount "/mnt/secure/staging",
       Call.sendBroadcast ResponseCode.VolumeStateChange
         "Volume sdcard1 /storage/sdcard1 state changed from 3 (Checking) to 1 (Idle-Unmounted)"] :=
  ⟨⟨(C24_mountVol_failure envMoveInval false 2065 { sysIdle with trace := [] }
      (by decide) (by decide)).1,
    (C24_mountVol_failure envMoveInval false 2065 { sysIdle with trace := [] }
      (by decide) (by decide)).2.1,
    (C24_mountVol_failure envMoveInval false 2065 { sysIdle with trace := [] }
      (by decide) (by decide)).2.2.1⟩, by decide⟩


/-! ## C28: the candidate device of getDeviceNodes -/

/-- C28 (amended): getDeviceNodes always returns exactly one candidate device. For a volume
that stands for the whole device (partition index -1) and whose disk has no partitions the
candidate is the whole disk (disk major, disk minor); for every other volume, also one
configured for a partition whose disk reports no partitions, it is (disk major,
part_minors[0]). -/
theorem C28_getDeviceNodes_candidate (v : DirectVolume) :
    (DirectVolume.getDeviceNodes v).length = 1 ∧
    (v.mPartIdx = -1 ∧ v.mDiskNumParts = 0 →
      DirectVolume.getDeviceNodes v = [MKDEV v.mDiskMajor v.mDiskMinor]) ∧
    (¬ (v.mPartIdx = -1 ∧ v.mDiskNumParts = 0) →
      DirectVolume.getDeviceNodes v = [MKDEV v.mDiskMajor (partMinor0 v.mPartMinors)]) := by
  unfold DirectVolume.getDeviceNodes
  refine ⟨?_, ?_, ?_⟩
  · split_ifs <;> rfl
  · intro h
    rw [if_pos h]
  · intro h
    rw [if_neg h]

/-- C28, witness: the whole-device volume `sysIdleWhole` on the disk 8:16 without
partitions gets the disk itself, and the volume `sysIdle` on partition 8:17 gets the
recorded partition minor. -/
theorem C28_getDeviceNodes_candidate_witness :
    (sysIdleWhole.vol.mPartIdx = -1 ∧ sysIdleWhole.vol.mDiskNumParts = 0) ∧
    DirectVolume.getDeviceNodes sysIdleWhole.vol = [MKDEV 8 16] ∧
    ¬ (sysIdle.vol.mPartIdx = -1 ∧ sysIdle.vol.mDiskNumParts = 0) ∧
    DirectVolume.getDeviceNodes sysIdle.vol = [MKDEV 8 17] :=
  ⟨by decide, (C28_getDeviceNodes_candidate sysIdleWhole.vol).2.1 (by decide), by decide,
    (C28_getDeviceNodes_candidate sysIdle.vol).2.2 (by decide)⟩

/-- C28, counterexample: the volume `sys0` is configured for partition 1; after the uevent
`add DEVTYPE=disk MAJOR=8 MINOR=16 NPARTS=0` (accepted, result 0) its disk has partition
count 0, and getDeviceNodes gives the device made of the disk major and part_minors[0] = -1
(the pattern 4294967295), not the whole disk 8:16 (2064). -/
theorem C28_counterexample :
    (DirectVolume.handleBlockEvent envOk 32 evtAddDiskNoParts sys0).map
      (fun r => (r.1, r.2.vol.mPartIdx, r.2.vol.mDiskNumParts,
        DirectVolume.getDeviceNodes r.2.vol,
        [MKDEV r.2.vol.mDiskMajor r.2.vol.mDiskMinor])) =
      some (0, 1, 0, [4294967295], [2064]) := by
  decide

/-! ## C29: updateDeviceInfo and revertDeviceInfo -/

/-- C29: for a volume that is not decrypted, has a partition index other than -1 and
exactly one sysfs path, updateDeviceInfo(p, M, m) returns 0 and sets the disk major to M,
the disk minor, the partition index and part_minors[0] to m, and the decrypted flag; a
following revertDeviceInfo restores the disk major, disk minor, partition index and the
partition minors to their values before the update and clears the flag. updateDeviceInfo
returns -1 and changes nothing when the partition index is -1 or the number of paths is
not 1, and revertDeviceInfo changes nothing on a volume that is not decrypted. -/
theorem C29_decryption_round_trip (p : String) (M m : Int) (v : DirectVolume) :
    (v.mIsDecrypted = false → v.mPartIdx ≠ -1 → v.mPaths.length = 1 →
      (DirectVolume.updateDeviceInfo p M m v).1 = 0 ∧
      (DirectVolume.updateDeviceInfo p M m v).2.mDiskMajor = M ∧
      (DirectVolume.updateDeviceInfo p M m v).2.mDiskMinor = m ∧
      (DirectVolume.updateDeviceInfo p M m v).2.mPartIdx = m ∧
      partMinor0 (DirectVolume.updateDeviceInfo p M m v).2.mPartMinors = m ∧
      (DirectVolume.updateDeviceInfo p M m v).2.mIsDecrypted = true ∧
      (DirectVolume.revertDeviceInfo (DirectVolume.updateDeviceInfo p M m v).2).mDiskMajor =
        v.mDiskMajor ∧
      (DirectVolume.revertDeviceInfo (DirectVolume.updateDeviceInfo p M m v).2).mDiskMinor =
        v.mDiskMinor ∧
      (DirectVolume.revertDeviceInfo (DirectVolume.updateDeviceInfo p M m v).2).mPartIdx =
        v.mPartIdx ∧
      (DirectVolume.revertDeviceInfo (DirectVolume.updateDeviceInfo p M m v).2).mPartMinors =
        v.mPartMinors ∧
      (DirectVolume.revertDeviceInfo (DirectVolume.updateDeviceInfo p M m v).2).mIsDecrypted =
        false) ∧
    (v.mPartIdx = -1 ∨ v.mPaths.length ≠ 1 →
      DirectVolume.updateDeviceInfo p M m v = (-1, v)) ∧
    (v.mIsDecrypted = false → DirectVolume.revertDeviceInfo v = v) := by
  refine ⟨?_, ?_, ?_⟩
  · intro _ hidx hlen
    unfold DirectVolume.updateDeviceInfo DirectVolume.revertDeviceInfo
    rw [if_neg hidx, if_neg (by simp [hlen])]
    simp [partMinor0, setPartMinor0]
  · intro h
    unfold DirectVolume.updateDeviceInfo
    rcases h with h | h
    · rw [if_pos h]
    · by_cases hidx : v.mPartIdx = -1
      · rw [if_pos hidx]
      · rw [if_neg hidx, if_pos h]
  · intro h
    unfold DirectVolume.revertDeviceInfo
    simp [h]

/-- C29, witness: the volume `sysIdle` (partition 8:17 of the disk 8:16, one sysfs path,
not decrypted) is pointed at the mapped device 254:0 and reverted; the whole-device volume
`sysIdleWhole` refuses the update. -/
theorem C29_decryption_round_trip_witness :
    (sysIdle.vol.mIsDecrypted = false ∧ sysIdle.vol.mPartIdx ≠ -1 ∧
      sysIdle.vol.mPaths.length = 1) ∧
    ((DirectVolume.updateDeviceInfo "/devices/virtual/block/dm-0" 254 0 sysIdle.vol).1 = 0 ∧
      (DirectVolume.updateDeviceInfo "/devices/virtual/block/dm-0" 254 0
        sysIdle.vol).2.mDiskMajor = 254 ∧
      (DirectVolume.revertDeviceInfo (DirectVolume.updateDeviceInfo
        "/devices/virtual/block/dm-0" 254 0 sysIdle.vol).2).mDiskMajor = 8 ∧
      (DirectVolume.revertDeviceInfo (DirectVolume.updateDeviceInfo
        "/devices/virtual/block/dm-0" 254 0 sysIdle.vol).2).mPartMinors = [17]) ∧
    DirectVolume.updateDeviceInfo "/devices/virtual/block/dm-0" 254 0 sysIdleWhole.vol =
      (-1, sysIdleWhole.vol) ∧
    DirectVolume.revertDeviceInfo sysIdle.vol = sysIdle.vol :=
  have h := C29_decryption_round_trip "/devices/virtual/block/dm-0" 254 0 sysIdle.vol
  have h1 := h.1 (by decide) (by decide) (by decide)
  ⟨by decide, ⟨h1.1, h1.2.1, h1.2.2.2.2.2.2.1, h1.2.2.2.2.2.2.2.2.2.1⟩,
    (C29_decryption_round_trip "/devices/virtual/block/dm-0" 254 0 sysIdleWhole.vol).2.1
      (Or.inl (by decide)),
    h.2.2 (by decide)⟩


/-! ## C27: partitions arriving after Add(disk) -/

theorem lockedFrom_refl (t : List CmdCall) : LockedFrom false t t :=
  ⟨[], [], by simp, by simp, by simp⟩

/-- A call that is no lock operation and no container operation, before the lock. -/
theorem lockedFrom_quiet (env : CmdEnv) (c : CmdCall) (t u : List CmdCall)
    (h : LockedFrom false t u) (h1 : isLockOp c = false) (h2 : isContainerOp c = false) :
    LockedFrom false t (cmdCall env c u).2 := by
  obtain ⟨pre, mid, hu, hpre, hmid⟩ := h
  refine ⟨pre ++ [c], [], ?_, ?_, by simp⟩
  · simp only [cmdCall, hu, Bool.false_eq_true, if_false, List.append_nil, List.append_assoc]
  · intro x hx
    rcases List.mem_append.1 hx with hx | hx
    · exact hpre x hx
    · rw [List.mem_singleton.1 hx]
      exact ⟨h1, h2⟩

/-- Taking the lock. -/
theorem lockedFrom_lock (env : CmdEnv) (t u : List CmdCall) (h : LockedFrom false t u) :
    LockedFrom true t (cmdCall env CmdCall.lockActiveContainers u).2 := by
  obtain ⟨pre, mid, hu, hpre, hmid⟩ := h
  refine ⟨pre, [], ?_, hpre, by simp⟩
  simp only [cmdCall, hu, Bool.false_eq_true, if_false, List.append_nil, if_true]

/-- A call other than a lock operation, while the lock is held. -/
theorem lockedFrom_call (env : CmdEnv) (c : CmdCall) (t u : List CmdCall)
    (h : LockedFrom true t u) (h1 : isLockOp c = false) :
    LockedFrom true t (cmdCall env c u).2 := by
  obtain ⟨pre, mid, hu, hpre, hmid⟩ := h
  refine ⟨pre, mid ++ [c], ?_, hpre, ?_⟩
  · simp only [cmdCall, hu, if_true, List.append_assoc, List.cons_append]
  · intro x hx
    rcases List.mem_append.1 hx with hx | hx
    · exact hmid x hx
    · rw [List.mem_singleton.1 hx]
      exact h1

theorem lockedFrom_dumpArgs (env : CmdEnv) (argv : List String) (k : Int) (held : Bool)
    (t u : List CmdCall) (h : LockedFrom held t u) :
    LockedFrom held t (dumpArgs env argv k u) := by
  cases held
  · exact lockedFrom_quiet env _ t u h rfl rfl
  · exact lockedFrom_call env _ t u h rfl

theorem lockedFrom_listAsecsLoop (env : CmdEnv) (names : List String) :
    ∀ (t u : List CmdCall), LockedFrom true t u →
      LockedFrom true t (AsecCmd.listAsecsLoop env names u) := by
  induction names with
  | nil => intro t u h; exact h
  | cons a rest ih =>
    intro t u h
    unfold AsecCmd.listAsecsLoop
    split_ifs
    · exact ih t u h
    · exact ih t _ (lockedFrom_call env _ t u h rfl)
    · exact ih t u h

theorem lockedFrom_listAsecsInDirectory (env : CmdEnv) (dir : String) (t u : List CmdCall)
    (h : LockedFrom true t u) :
    LockedFrom true t (AsecCmd.listAsecsInDirectory env dir u) := by
  unfold AsecCmd.listAsecsInDirectory
  simp only []
  split_ifs
  · exact lockedFrom_call env _ t _ (lockedFrom_call env _ t u h rfl) rfl
  · exact lockedFrom_call env _ t _
      (lockedFrom_listAsecsLoop env _ t _ (lockedFrom_call env _ t u h rfl)) rfl

/-- Releasing the lock and making quiet calls afterwards closes the bracket. -/
theorem lockBracket_of_unlock (t u : List CmdCall) (post : List CmdCall)
    (h : LockedFrom true t u)
    (hpost : ∀ c ∈ post, isLockOp c = false ∧ isContainerOp c = false) :
    ∃ cs, u ++ CmdCall.unlockActiveContainers :: post = t ++ cs ∧ LockBracket cs := by
  obtain ⟨pre, mid, hu, hpre, hmid⟩ := h
  refine ⟨pre ++ CmdCall.lockActiveContainers :: (mid ++
    CmdCall.unlockActiveContainers :: post), ?_, pre, mid, post, rfl, hpre, hmid, hpost⟩
  simp only [hu, if_true, List.append_assoc, List.cons_append]

theorem usageErrorUnlock_bracket (env : CmdEnv) (usage : String) (t u : List CmdCall)
    (h : LockedFrom true t u) :
    ∃ cs, (usageErrorUnlock env usage u).2 = t ++ cs ∧ LockBracket cs := by
  have h1 := lockBracket_of_unlock t _ [] (lockedFrom_call env
    (CmdCall.sendMsg ReplyCode.CommandSyntaxError usage false) t u h rfl) (by simp)
  simpa [usageErrorUnlock, cmdCall] using h1

theorem pathResultUnlock_bracket (env : CmdEnv) (path : String) (t u : List CmdCall)
    (h : LockedFrom true t u) :
    ∃ cs, (pathResultUnlock env path u).2 = t ++ cs ∧ LockBracket cs := by
  have h1 := lockBracket_of_unlock t _ [] (lockedFrom_call env
    (CmdCall.sendMsg ReplyCode.AsecPathResult path false) t u h rfl) (by simp)
  simpa [pathResultUnlock, cmdCall] using h1

theorem runCommandResult_bracket (env : CmdEnv) (what : String) (rc : Int)
    (t u : List CmdCall) (h : LockedFrom true t u) :
    ∃ cs, (runCommandResult env what rc u).2 = t ++ cs ∧ LockBracket cs := by
  unfold runCommandResult
  simp only []
  split_ifs
  · have h1 := lockBracket_of_unlock t u
      [CmdCall.sendMsg ReplyCode.CommandOkay (what ++ " operation succeeded") false] h
      (by simp [isLockOp, isContainerOp])
    simpa [cmdCall] using h1
  · have h1 := lockBracket_of_unlock t u
      [CmdCall.convertFromErrno, CmdCall.sendMsg (ReplyCode.ofInt
        (env (u ++ [CmdCall.unlockActiveContainers]) CmdCall.convertFromErrno).ret)
        (what ++ " operation failed") true] h
      (by simp [isLockOp, isContainerOp])
    simpa [cmdCall] using h1

theorem asecRunCommandRest_bracket (env : CmdEnv) (argv : List String) (t u : List CmdCall)
    (h : LockedFrom true t u) :
    ∃ cs, (AsecCmd.runCommandRest env argv u).2 = t ++ cs ∧ LockBracket cs := by
  unfold AsecCmd.runCommandRest
  simp only []
  split_ifs
  all_goals
    first
    | apply usageErrorUnlock_bracket
    | apply runCommandResult_bracket
    | apply pathResultUnlock_bracket
  all_goals
    repeat (first
      | assumption
      | apply lockedFrom_dumpArgs
      | refine lockedFrom_call _ _ _ _ ?_ rfl)

theorem asecRunCommandLocked_bracket (env : CmdEnv) (argv : List String) (t u : List CmdCall)
    (h : LockedFrom true t u) :
    ∃ cs, (AsecCmd.runCommandLocked env argv u).2 = t ++ cs ∧ LockBracket cs := by
  unfold AsecCmd.runCommandLocked
  simp only []
  split_ifs
  all_goals
    first
    | apply asecRunCommandRest_bracket
    | apply usageErrorUnlock_bracket
    | apply runCommandResult_bracket
  all_goals
    repeat (first
      | assumption
      | apply lockedFrom_dumpArgs
      | apply lockedFrom_listAsecsInDirectory
      | refine lockedFrom_call _ _ _ _ ?_ rfl)

theorem obbRunCommand_bracket (env : CmdEnv) (argv : List String) (t : List CmdCall)
    (h : ¬ argv.length < 2) :
    ∃ cs, (ObbCmd.runCommand env argv t).2 = t ++ cs ∧ LockBracket cs := by
  have hl := lockedFrom_lock env t t (lockedFrom_refl t)
  unfold ObbCmd.runCommand
  rw [if_neg h]
  simp only []
  split_ifs
  all_goals
    first
    | apply usageErrorUnlock_bracket
    | apply runCommandResult_bracket
    | apply pathResultUnlock_bracket
  all_goals
    repeat (first
      | assumption
      | apply lockedFrom_dumpArgs
      | refine lockedFrom_call _ _ _ _ ?_ rfl)

theorem isoRunCommand_bracket (env : CmdEnv) (argv : List String) (t : List CmdCall)
    (h : ¬ argv.length < 2) :
    ∃ cs, (ISOCmd.runCommand env argv t).2 = t ++ cs ∧ LockBracket cs := by
  have hl := lockedFrom_lock env t _ (lockedFrom_dumpArgs env argv (-1) false t t
    (lockedFrom_refl t))
  unfold ISOCmd.runCommand
  rw [if_neg h]
  simp only []
  split_ifs
  all_goals
    first
    | apply usageErrorUnlock_bracket
    | apply runCommandResult_bracket
    | apply pathResultUnlock_bracket
  all_goals
    repeat (first
      | assumption
      | refine lockedFrom_call _ _ _ _ ?_ rfl)

/-- C25: for every argument vector, environment and history `t`, each of the runCommand
handlers of AsecCmd, ObbCmd and ISOCmd either is called with fewer than two arguments and
then makes no lock operation and no container operation at all, or makes calls that take
the container lock exactly once and release it exactly once afterwards, with every
VolumeManager container operation between the two (see `LockBracket`); this covers every
exit path, the syntax-error returns included. -/
theorem C25_container_lock_released (env : CmdEnv) (argv : List String) (t : List CmdCall) :
    (argv.length < 2 →
      (∃ cs, (AsecCmd.runCommand env argv t).2 = t ++ cs ∧
        ∀ c ∈ cs, isLockOp c = false ∧ isContainerOp c = false) ∧
      (∃ cs, (ObbCmd.runCommand env argv t).2 = t ++ cs ∧
        ∀ c ∈ cs, isLockOp c = false ∧ isContainerOp c = false) ∧
      (∃ cs, (ISOCmd.runCommand env argv t).2 = t ++ cs ∧
        ∀ c ∈ cs, isLockOp c = false ∧ isContainerOp c = false)) ∧
    (2 ≤ argv.length →
      (∃ cs, (AsecCmd.runCommand env argv t).2 = t ++ cs ∧ LockBracket cs) ∧
      (∃ cs, (ObbCmd.runCommand env argv t).2 = t ++ cs ∧ LockBracket cs) ∧
      (∃ cs, (ISOCmd.runCommand env argv t).2 = t ++ cs ∧ LockBracket cs)) := by
  constructor
  · intro h
    refine ⟨⟨[CmdCall.sendMsg ReplyCode.CommandSyntaxError "Missing Argument" false], ?_, ?_⟩,
      ⟨[CmdCall.sendMsg ReplyCode.CommandSyntaxError "Missing Argument" false], ?_, ?_⟩,
      ⟨[CmdCall.sendMsg ReplyCode.CommandSyntaxError "Missing Argument" false], ?_, ?_⟩⟩
    · unfold AsecCmd.runCommand
      rw [if_pos h]
      rfl
    · simp [isLockOp, isContainerOp]
    · unfold ObbCmd.runCommand
      rw [if_pos h]
      rfl
    · simp [isLockOp, isContainerOp]
    · unfold ISOCmd.runCommand
      rw [if_pos h]
      rfl
    · simp [isLockOp, isContainerOp]
  · intro h
    have h2 : ¬ argv.length < 2 := by omega
    refine ⟨?_, obbRunCommand_bracket env argv t h2, isoRunCommand_bracket env argv t h2⟩
    unfold AsecCmd.runCommand
    rw [if_neg h2]
    exact asecRunCommandLocked_bracket env argv t _
      (lockedFrom_lock env t t (lockedFrom_refl t))

/-- C25, witness: `asec create foo` (too few arguments for create) takes the lock, logs
the line, reports the syntax error and releases the lock; `asec` alone touches neither
the lock nor a container. -/
theorem C25_container_lock_released_witness :
    (["asec"].length < 2 ∧
      AsecCmd.runCommand cmdEnvOk ["asec"] [] =
        (0, [CmdCall.sendMsg ReplyCode.CommandSyntaxError "Missing Argument" false])) ∧
    (2 ≤ ["asec", "create", "foo"].length ∧
      (AsecCmd.runCommand cmdEnvOk ["asec", "create", "foo"] []).2 =
        [CmdCall.lockActiveContainers, CmdCall.SLOGD "asec create foo",
          CmdCall.sendMsg ReplyCode.CommandSyntaxError
            ("Usage: asec create <container-id> <size_mb> <fstype> <key> <ownerUid> " ++
              "<isExternal>") false,
          CmdCall.unlockActiveContainers]) ∧
    (∃ cs, (AsecCmd.runCommand cmdEnvOk ["asec"] []).2 = [] ++ cs ∧
      ∀ c ∈ cs, isLockOp c = false ∧ isContainerOp c = false) ∧
    (∃ cs, (AsecCmd.runCommand cmdEnvOk ["asec", "create", "foo"] []).2 = [] ++ cs ∧
      LockBracket cs) :=
  ⟨⟨by decide, by decide⟩, ⟨by decide, by decide⟩,
    ((C25_container_lock_released cmdEnvOk ["asec"] []).1 (by decide)).1,
    ((C25_container_lock_released cmdEnvOk ["asec", "create", "foo"] []).2 (by decide)).1⟩


/-! ## C26: the sector count of asec create -/

/-- Sizes up to 2047 MB are converted to sectors without overflow: the count is
`2048 * m`. -/
theorem asecNumSectors_small (size_mb : String) (m : Nat) (hm : atoi size_mb = (m : Int))
    (hle : m ≤ 2047) : asecNumSectors size_mb = some (2048 * m) := by
  unfold asecNumSectors mulInt32 toU32
  rw [hm, if_pos (by constructor <;> omega)]
  simp only [Option.map_some']
  have h2 : Int.tdiv ((m : Int) * (1024 * 1024)) 512 = ((2048 * m : Nat) : Int) := by
    rw [Int.tdiv_eq_ediv (by positivity) (by norm_num)]
    push_cast
    omega
  rw [h2]
  have h3 : ((2048 * m : Nat) : Int) % 4294967296 = ((2048 * m : Nat) : Int) := by
    push_cast
    omega
  rw [h3, Int.toNat_natCast]

/-- The sector count, when C defines one, is the value of an `unsigned int`. -/
theorem asecNumSectors_lt (size_mb : String) (v : Nat) (h : asecNumSectors size_mb = some v) :
    v < 4294967296 := by
  unfold asecNumSectors at h
  cases hp : mulInt32 (atoi size_mb) (1024 * 1024) with
  | none => rw [hp] at h; simp at h
  | some p =>
    rw [hp] at h
    simp only [Option.map_some', Option.some.injEq] at h
    rw [← h]
    unfold toU32
    omega

/-- C26 (amended): for `asec create` with eight arguments and a size argument of m
megabytes, `0 ≤ m ≤ 2047` (the sizes for which the product `m * 1024 * 1024` fits the
`int` it is computed in), the sector count passed to createAsec is `2048 * m`; createAsec
is called right after the lock is taken and the line is logged, and it is the only
container operation of the invocation. In every case a sector count that C defines is
below 2^32. -/
theorem C26_asec_create_sector_count (env : CmdEnv) (argv : List String) (t : List CmdCall)
    (m : Nat) (hlen : argv.length = 8) (h1 : argvAt argv 1 = "create")
    (hm : atoi (argvAt argv 3) = (m : Int)) (hle : m ≤ 2047) :
    asecNumSectors (argvAt argv 3) = some (2048 * m) ∧
    (∃ cs, (AsecCmd.runCommand env argv t).2 =
        t ++ [CmdCall.lockActiveContainers, CmdCall.SLOGD (dumpArgsBuffer argv 5),
          CmdCall.createAsec (argvAt argv 2) (some (2048 * m)) (argvAt argv 4)
            (argvAt argv 5) (atoi (argvAt argv 6)) (decide (atoi (argvAt argv 7) = 1))] ++ cs ∧
      ∀ c ∈ cs, isContainerOp c = false) ∧
    (∀ (size_mb : String) (v : Nat), asecNumSectors size_mb = some v → v < 4294967296) := by
  have hs := asecNumSectors_small (argvAt argv 3) m hm hle
  refine ⟨hs, ?_, asecNumSectors_lt⟩
  unfold AsecCmd.runCommand AsecCmd.runCommandLocked
  rw [if_neg (by omega)]
  simp only [h1]
  rw [if_neg (by decide), if_pos trivial, if_neg (by simp [hlen]), hs]
  unfold runCommandResult
  simp only [cmdCall, dumpArgs]
  split_ifs
  · exact ⟨[CmdCall.unlockActiveContainers,
      CmdCall.sendMsg ReplyCode.CommandOkay ("asec" ++ " operation succeeded") false],
      by simp, by simp [isContainerOp]⟩
  · exact ⟨[CmdCall.unlockActiveContainers, CmdCall.convertFromErrno,
      CmdCall.sendMsg (ReplyCode.ofInt (env (t ++ [CmdCall.lockActiveContainers] ++
        [CmdCall.SLOGD (dumpArgsBuffer argv 5)] ++
        [CmdCall.createAsec (argvAt argv 2) (some (2048 * m)) (argvAt argv 4)
          (argvAt argv 5) (atoi (argvAt argv 6)) (decide (atoi (argvAt argv 7) = 1))] ++
        [CmdCall.unlockActiveContainers]) CmdCall.convertFromErrno).ret)
        ("asec" ++ " operation failed") true],
      by simp, by simp [isContainerOp]⟩

/-- C26, witness: `asec create foo 2047 fat key 1000 1`, the largest size whose product
fits `int`, passes 2048 * 2047 = 4192256 sectors. -/
theorem C26_asec_create_sector_count_witness :
    (["asec", "create", "foo", "2047", "fat", "key", "1000", "1"].length = 8 ∧
      argvAt ["asec", "create", "foo", "2047", "fat", "key", "1000", "1"] 1 = "create" ∧
      atoi (argvAt ["asec", "create", "foo", "2047", "fat", "key", "1000", "1"] 3) =
        ((2047 : Nat) : Int) ∧ 2047 ≤ 2047) ∧
    asecNumSectors (argvAt ["asec", "create", "foo", "2047", "fat", "key", "1000", "1"] 3) =
      some (2048 * 2047) ∧
    (AsecCmd.runCommand cmdEnvOk ["asec", "create", "foo", "2047", "fat", "key", "1000", "1"]
      []).2 =
      [CmdCall.lockActiveContainers,
        CmdCall.SLOGD "asec create foo 2047 fat \x7b\x7d 1000 1",
        CmdCall.createAsec "foo" (some 4192256) "fat" "key" 1000 true,
        CmdCall.unlockActiveContainers,
        CmdCall.sendMsg ReplyCode.CommandOkay "asec operation succeeded" false] :=
  ⟨⟨by decide, by decide, by decide, by decide⟩,
    (C26_asec_create_sector_count cmdEnvOk
      ["asec", "create", "foo", "2047", "fat", "key", "1000", "1"] [] 2047 (by decide)
      (by decide) (by decide) (by decide)).1,
    by decide⟩

/-- C26, counterexample: `asec create foo 2097152 fat key 1000 1` asks for m = 2097152 MB
(2 TB), and m is not negative. The claimed count 2048 * 2097152 = 2^32 is not below 2^32,
so it is not the value of an `unsigned int`: whatever createAsec is passed, it is not the
claimed count. (The product 2097152 * 1048576 = 2^41 does not fit `int` either, so C
defines no value for the count.) -/
theorem C26_counterexample :
    atoi "2097152" = 2097152 ∧
    ¬ (2048 * 2097152 < 4294967296) ∧
    asecNumSectors "2097152" ≠ some (2048 * 2097152) ∧
    asecNumSectors "2097152" = none ∧
    (AsecCmd.runCommand cmdEnvOk
      ["asec", "create", "foo", "2097152", "fat", "key", "1000", "1"] []).2 =
      [CmdCall.lockActiveContainers,
        CmdCall.SLOGD "asec create foo 2097152 fat \x7b\x7d 1000 1",
        CmdCall.createAsec "foo" none "fat" "key" 1000 true,
        CmdCall.unlockActiveContainers,
        CmdCall.sendMsg ReplyCode.CommandOkay "asec operation succeeded" false] := by
  decide


/-! ## C30: the obscured argument of dumpArgs -/

theorem strlen_append (a b : String) : strlen (a ++ b) = strlen a + strlen b := by
  unfold strlen
  obtain ⟨a⟩ := a
  obtain ⟨b⟩ := b
  rw [show ((⟨a⟩ : String) ++ ⟨b⟩) = ⟨a ++ b⟩ from rfl]
  simp only [String.utf8ByteSize_mk, String.utf8Len_append]

/-- The loop of dumpArgs does not look at the obscured argument beyond its length. -/
theorem dumpArgsLoop_obscured (argc : Nat) (x y : String) (post : List String)
    (hxy : strlen x = strlen y) (pre : List String) :
    ∀ (i : Nat) (buf : String),
      dumpArgsLoop argc ((i + pre.length : Nat) : Int) i (pre ++ x :: post) buf =
        dumpArgsLoop argc ((i + pre.length : Nat) : Int) i (pre ++ y :: post) buf := by
  induction pre with
  | nil =>
    intro i buf
    simp only [List.nil_append, List.length_nil, Nat.add_zero]
    unfold dumpArgsLoop
    simp only [if_true, hxy]
  | cons a pre ih =>
    intro i buf
    have hk : ((i + (a :: pre).length : Nat) : Int) = ((i + 1 + pre.length : Nat) : Int) := by
      simp only [List.length_cons]
      congr 1
      omega
    have hne : ¬ ((i : Int) = ((i + 1 + pre.length : Nat) : Int)) := by
      push_cast
      omega
    rw [hk, List.cons_append, List.cons_append]
    unfold dumpArgsLoop
    simp only [hne, if_false]
    rw [ih (i + 1), ih (i + 1), ih (i + 1)]

/-- Whatever the sizes, the text written by the loop of dumpArgs is the text so far
followed by the pieces of some of the arguments, in order: an argument is written as its
piece or skipped. -/
theorem dumpArgsLoop_sublist (argc : Nat) (k : Int) (rest : List String) :
    ∀ (i : Nat) (buf : String), ∃ l, List.Sublist l (argPieces argc k i rest) ∧
      dumpArgsLoop argc k i rest buf = l.foldl (fun acc p => acc ++ p) buf := by
  induction rest with
  | nil =>
    intro i buf
    exact ⟨[], List.Sublist.slnil, rfl⟩
  | cons a rest ih =>
    intro i buf
    unfold dumpArgsLoop argPieces
    by_cases hk : (i : Int) = k
    · simp only [hk, if_true, argPiece]
      split_ifs
      · obtain ⟨l, hl, he⟩ := ih (i + 1) (buf ++ "\x7b\x7d ")
        exact ⟨_ :: l, List.Sublist.cons₂ _ hl, he⟩
      · obtain ⟨l, hl, he⟩ := ih (i + 1) buf
        exact ⟨l, List.Sublist.cons _ hl, he⟩
    · simp only [hk, if_false, argPiece]
      by_cases hlast : i ≠ argc - 1
      · simp only [if_pos hlast]
        split_ifs
        · obtain ⟨l, hl, he⟩ := ih (i + 1) (buf ++ a ++ " ")
          refine ⟨_ :: l, List.Sublist.cons₂ _ hl, ?_⟩
          rw [he, List.foldl_cons, String.append_assoc]
        · obtain ⟨l, hl, he⟩ := ih (i + 1) buf
          exact ⟨l, List.Sublist.cons _ hl, he⟩
      · simp only [if_neg hlast]
        split_ifs
        · obtain ⟨l, hl, he⟩ := ih (i + 1) (buf ++ a)
          exact ⟨_ :: l, List.Sublist.cons₂ _ hl, he⟩
        · obtain ⟨l, hl, he⟩ := ih (i + 1) buf
          exact ⟨l, List.Sublist.cons _ hl, he⟩

theorem argBytes_cons (a : String) (rest : List String) :
    argBytes (a :: rest) = strlen a + 1 + argBytes rest := by
  simp [argBytes]

theorem obscureArg_nil (j : Int) : obscureArg [] j = [] := by
  unfold obscureArg
  split_ifs <;> rfl

theorem obscureArg_neg (l : List String) (j : Int) (hj : j < 0) : obscureArg l j = l := by
  unfold obscureArg
  rw [if_neg (by omega)]

theorem obscureArg_cons_zero (a : String) (l : List String) :
    obscureArg (a :: l) 0 = "\x7b\x7d" :: l := by
  unfold obscureArg
  simp

theorem obscureArg_cons_ne (a : String) (l : List String) (j : Int) (hj : j ≠ 0) :
    obscureArg (a :: l) j = a :: obscureArg l (j - 1) := by
  unfold obscureArg
  by_cases h : 0 ≤ j
  · have h1 : 0 ≤ j - 1 := by omega
    have h2 : j.toNat = (j - 1).toNat + 1 := by omega
    rw [if_pos h, if_pos h1, h2, List.set_cons_succ]
  · have h1 : ¬ (0 ≤ j - 1) := by omega
    rw [if_neg h, if_neg h1]

theorem dumpArgsLoop_cons (argc : Nat) (k : Int) (i : Nat) (a : String) (rest : List String)
    (buf : String) :
    dumpArgsLoop argc k i (a :: rest) buf =
      if (strlen buf +
          (if (i : Int) = k then ((strlen a + 1) % 4294967296 + 2) % 4294967296
           else (strlen a + 1) % 4294967296)) % 4294967296 < 4096 - 1 then
        if (i : Int) = k then dumpArgsLoop argc k (i + 1) rest (buf ++ "\x7b\x7d ")
        else if i ≠ argc - 1 then dumpArgsLoop argc k (i + 1) rest (buf ++ a ++ " ")
        else dumpArgsLoop argc k (i + 1) rest (buf ++ a)
      else dumpArgsLoop argc k (i + 1) rest buf := by
  conv_lhs => unfold dumpArgsLoop

/-- When all arguments fit, the loop of dumpArgs writes every argument, the obscured one
as the two braces, with one space between two arguments, and one more space at the end
when the obscured argument is the last one. -/
theorem dumpArgsLoop_fits (argc : Nat) (k : Int) (rest : List String) :
    ∀ (a : String) (i : Nat) (buf : String), i + 1 + rest.length = argc →
      strlen buf + argBytes (a :: rest) + (if (i : Int) ≤ k then 2 else 0) < 4095 →
      dumpArgsLoop argc k i (a :: rest) buf =
        String.intercalate.go (buf ++ (if (i : Int) = k then "\x7b\x7d" else a)) " "
          (obscureArg rest (k - i - 1)) ++
          (if 0 ≤ k ∧ k + 1 = (argc : Int) then " " else "") := by
  induction rest with
  | nil =>
    intro a i buf hlen hfit
    rw [argBytes_cons] at hfit
    simp only [List.length_nil, Nat.add_zero] at hlen
    rw [dumpArgsLoop_cons, obscureArg_nil]
    by_cases hk : (i : Int) = k
    · have hle : (i : Int) ≤ k := by omega
      rw [if_pos hle] at hfit
      simp only [hk, if_true]
      rw [if_pos (by omega), if_pos ⟨by omega, by omega⟩]
      simp only [dumpArgsLoop, String.intercalate.go]
      rw [String.append_assoc]
      rfl
    · simp only [hk, if_false]
      rw [if_pos (by split_ifs at hfit <;> omega), if_neg (by omega), if_neg (by omega)]
      simp only [dumpArgsLoop, String.intercalate.go, String.append_empty]
  | cons b rest ih =>
    intro a i buf hlen hfit
    rw [argBytes_cons] at hfit
    simp only [List.length_cons] at hlen
    rw [dumpArgsLoop_cons]
    by_cases hk : (i : Int) = k
    · have hle : (i : Int) ≤ k := by omega
      rw [if_pos hle] at hfit
      simp only [hk, if_true]
      rw [if_pos (by omega)]
      have hne : ¬ (((i + 1 : Nat) : Int) = k) := by push_cast; omega
      have hnle : ¬ (((i + 1 : Nat) : Int) ≤ k) := by push_cast; omega
      rw [ih b (i + 1) (buf ++ "\x7b\x7d ") (by omega)
        (by rw [if_neg hnle, strlen_append]
            have h3 : strlen "\x7b\x7d " = 3 := by decide
            omega)]
      rw [if_neg hne, obscureArg_neg _ _ (by push_cast; omega),
        obscureArg_neg _ _ (by omega), String.intercalate.go]
      have hb : buf ++ "\x7b\x7d " = buf ++ "\x7b\x7d" ++ " " := by
        rw [String.append_assoc]
        rfl
      rw [hb]
    · simp only [hk, if_false]
      rw [if_pos (by split_ifs at hfit <;> omega), if_pos (by omega)]
      rw [ih b (i + 1) (buf ++ a ++ " ") (by omega)
        (by rw [strlen_append, strlen_append]
            have h1 : strlen " " = 1 := by decide
            split_ifs at hfit ⊢ <;> push_cast at * <;> omega)]
      by_cases hk1 : ((i + 1 : Nat) : Int) = k
      · have hz : k - (i : Int) - 1 = 0 := by push_cast at hk1; omega
        rw [if_pos hk1, hz, obscureArg_cons_zero, String.intercalate.go,
          obscureArg_neg _ _ (by push_cast; omega)]
      · have hz : k - (i : Int) - 1 ≠ 0 := by push_cast at hk1; omega
        have he : k - ((i + 1 : Nat) : Int) - 1 = k - (i : Int) - 1 - 1 := by push_cast; omega
        rw [if_neg hk1, obscureArg_cons_ne _ _ _ hz, String.intercalate.go, he]

/-- The text of dumpArgs when all arguments fit (`argBytes argv + 2 < 4095`): the
arguments with the obscured one replaced by the braces, separated by single spaces, and
one more space when the obscured argument is the last one. -/
theorem dumpArgsBuffer_fits (argv : List String) (k : Int)
    (hfit : argBytes argv + 2 < 4095) :
    dumpArgsBuffer argv k =
      " ".intercalate (obscureArg argv k) ++
        (if 0 ≤ k ∧ k + 1 = (argv.length : Int) then " " else "") := by
  cases argv with
  | nil =>
    rw [obscureArg_nil, if_neg (by simp only [List.length_nil]; push_cast; omega)]
    rfl
  | cons a rest =>
    unfold dumpArgsBuffer
    have h0 : strlen "" = 0 := by decide
    rw [dumpArgsLoop_fits _ k rest a 0 "" (by simp only [List.length_cons]; omega)
      (by rw [h0]; split_ifs <;> omega)]
    simp only [String.empty_append, Nat.cast_zero, sub_zero]
    by_cases hk : (0 : Int) = k
    · rw [if_pos hk, ← hk, obscureArg_cons_zero, obscureArg_neg _ _ (by omega)]
      rfl
    · have hk0 : k ≠ 0 := fun h => hk h.symm
      rw [if_neg hk, obscureArg_cons_ne _ _ _ hk0]
      rfl

/-- Two argument vectors that differ only in the obscured argument, by contents of the
same length, leave the same text in the buffer. -/
theorem dumpArgsBuffer_obscured (pre post : List String) (x y : String)
    (hxy : strlen x = strlen y) :
    dumpArgsBuffer (pre ++ x :: post) (pre.length : Int) =
      dumpArgsBuffer (pre ++ y :: post) (pre.length : Int) := by
  unfold dumpArgsBuffer
  have h := dumpArgsLoop_obscured (pre ++ x :: post).length x y post hxy pre 0 ""
  rw [Nat.zero_add] at h
  rw [h]
  congr 1
  simp

theorem logged_append (a b : List CmdCall) : logged (a ++ b) = logged a ++ logged b := by
  unfold logged
  rw [List.filterMap_append]

theorem loggedFrom_refl (t : List CmdCall) : LoggedFrom [] t t := ⟨[], by simp, rfl⟩

/-- A call that is not a log line. -/
theorem loggedFrom_call (env : CmdEnv) (c : CmdCall) (L : List String) (t u : List CmdCall)
    (h : LoggedFrom L t u) (hc : logged [c] = []) : LoggedFrom L t (cmdCall env c u).2 := by
  obtain ⟨cs, hu, hl⟩ := h
  refine ⟨cs ++ [c], by simp [cmdCall, hu], ?_⟩
  rw [logged_append, hl, hc, List.append_nil]

theorem loggedFrom_dumpArgs (env : CmdEnv) (argv : List String) (k : Int) (L : List String)
    (t u : List CmdCall) (h : LoggedFrom L t u) :
    LoggedFrom (L ++ [dumpArgsBuffer argv k]) t (dumpArgs env argv k u) := by
  obtain ⟨cs, hu, hl⟩ := h
  refine ⟨cs ++ [CmdCall.SLOGD (dumpArgsBuffer argv k)], by simp [dumpArgs, cmdCall, hu], ?_⟩
  rw [logged_append, hl]
  rfl

theorem loggedFrom_usageErrorUnlock (env : CmdEnv) (usage : String) (L : List String)
    (t u : List CmdCall) (h : LoggedFrom L t u) :
    LoggedFrom L t (usageErrorUnlock env usage u).2 :=
  loggedFrom_call env _ L t _ (loggedFrom_call env _ L t u h rfl) rfl

theorem loggedFrom_runCommandResult (env : CmdEnv) (what : String) (rc : Int)
    (L : List String) (t u : List CmdCall) (h : LoggedFrom L t u) :
    LoggedFrom L t (runCommandResult env what rc u).2 := by
  unfold runCommandResult
  simp only []
  split_ifs
  · exact loggedFrom_call env _ L t _ (loggedFrom_call env _ L t u h rfl) rfl
  · exact loggedFrom_call env _ L t _
      (loggedFrom_call env _ L t _ (loggedFrom_call env _ L t u h rfl) rfl) rfl

theorem loggedFrom_cryptfsResult (env : CmdEnv) (rc : Int) (L : List String)
    (t u : List CmdCall) (h : LoggedFrom L t u) :
    LoggedFrom L t (CryptfsCmd.runCommandResult env rc u).2 :=
  loggedFrom_call env _ L t u h rfl

/-- `asec create` logs its arguments with index 5 obscured. -/
theorem asecCreate_logged (env : CmdEnv) (argv : List String) (t : List CmdCall)
    (hlen : 2 ≤ argv.length) (h1 : argvAt argv 1 = "create") :
    LoggedFrom [dumpArgsBuffer argv 5] t (AsecCmd.runCommand env argv t).2 := by
  have hd := loggedFrom_dumpArgs env argv 5 [] t _
    (loggedFrom_call env CmdCall.lockActiveContainers [] t t (loggedFrom_refl t) rfl)
  unfold AsecCmd.runCommand AsecCmd.runCommandLocked
  rw [if_neg (by omega)]
  simp only [h1]
  rw [if_neg (by decide), if_pos trivial]
  split_ifs
  · exact loggedFrom_usageErrorUnlock env _ _ t _ hd
  · exact loggedFrom_runCommandResult env _ _ _ t _ (loggedFrom_call env _ _ t _ hd rfl)

/-- `asec mount` logs its arguments with index 3 obscured. -/
theorem asecMount_logged (env : CmdEnv) (argv : List String) (t : List CmdCall)
    (hlen : 2 ≤ argv.length) (h1 : argvAt argv 1 = "mount") :
    LoggedFrom [dumpArgsBuffer argv 3] t (AsecCmd.runCommand env argv t).2 := by
  have hd := loggedFrom_dumpArgs env argv 3 [] t _
    (loggedFrom_call env CmdCall.lockActiveContainers [] t t (loggedFrom_refl t) rfl)
  unfold AsecCmd.runCommand AsecCmd.runCommandLocked AsecCmd.runCommandRest
  rw [if_neg (by omega)]
  simp only [h1]
  rw [if_neg (by decide), if_neg (by decide), if_neg (by decide), if_neg (by decide),
    if_neg (by decide), if_pos trivial]
  split_ifs
  · exact loggedFrom_usageErrorUnlock env _ _ t _ hd
  · exact loggedFrom_runCommandResult env _ _ _ t _ (loggedFrom_call env _ _ t _ hd rfl)

/-- `obb mount` logs its arguments with index 3 obscured. -/
theorem obbMount_logged (env : CmdEnv) (argv : List String) (t : List CmdCall)
    (hlen : 2 ≤ argv.length) (h1 : argvAt argv 1 = "mount") :
    LoggedFrom [dumpArgsBuffer argv 3] t (ObbCmd.runCommand env argv t).2 := by
  have hd := loggedFrom_dumpArgs env argv 3 [] t _
    (loggedFrom_call env CmdCall.lockActiveContainers [] t t (loggedFrom_refl t) rfl)
  unfold ObbCmd.runCommand
  rw [if_neg (by omega)]
  simp only [h1]
  rw [if_neg (by decide), if_pos trivial]
  split_ifs
  · exact loggedFrom_usageErrorUnlock env _ _ t _ hd
  · exact loggedFrom_runCommandResult env _ _ _ t _ (loggedFrom_call env _ _ t _ hd rfl)

/-- `cryptfs checkpw <passwd>` from root or system logs its arguments with index 2
obscured. -/
theorem cryptfsCheckpw_logged (env : CmdEnv) (uid : Int) (argv : List String)
    (t : List CmdCall) (huid : uid = 0 ∨ uid = AID_SYSTEM) (hlen : argv.length = 3)
    (h1 : argvAt argv 1 = "checkpw") :
    LoggedFrom [dumpArgsBuffer argv 2] t (CryptfsCmd.runCommand env uid argv t).2 := by
  have hd := loggedFrom_dumpArgs env argv 2 [] t t (loggedFrom_refl t)
  unfold CryptfsCmd.runCommand
  rw [if_neg (by tauto), if_neg (by omega)]
  simp only [h1]
  rw [if_pos trivial, if_neg (by omega)]
  exact loggedFrom_cryptfsResult env _ _ t _ (loggedFrom_call env _ _ t _ hd rfl)

/-- `cryptfs enablecrypto <wipe|inplace> <passwd>` from root or system logs its arguments
with index 3 obscured. -/
theorem cryptfsEnablecrypto_logged (env : CmdEnv) (uid : Int) (argv : List String)
    (t : List CmdCall) (huid : uid = 0 ∨ uid = AID_SYSTEM) (hlen : argv.length = 4)
    (h1 : argvAt argv 1 = "enablecrypto")
    (h2 : argvAt argv 2 = "wipe" ∨ argvAt argv 2 = "inplace") :
    LoggedFrom [dumpArgsBuffer argv 3] t (CryptfsCmd.runCommand env uid argv t).2 := by
  have hd := loggedFrom_dumpArgs env argv 3 [] t t (loggedFrom_refl t)
  unfold CryptfsCmd.runCommand
  rw [if_neg (by tauto), if_neg (by omega)]
  simp only [h1]
  rw [if_neg (by decide), if_neg (by decide), if_neg (by decide), if_pos trivial,
    if_neg (by tauto)]
  exact loggedFrom_cryptfsResult env _ _ t _ (loggedFrom_call env _ _ t _ hd rfl)

/-- C30 (amended): dumpArgs never copies the argument at index argObscure into the logged
line. (1) Two argument vectors that differ only in the obscured argument, by contents of
the same length, give the same text. (2) For every argument vector whose arguments all
fit in the buffer, the text is the arguments with the obscured one replaced by the two
braces, separated by single spaces, followed by one more space when the obscured argument
is the last one. (3) For every argument vector the text is made of the pieces of some of
the arguments, in order: an argument that does not fit is skipped. (4) The line logged by
`asec create` obscures index 5, by `asec mount` and `obb mount` index 3, by
`cryptfs checkpw` index 2 and by `cryptfs enablecrypto` index 3. -/
theorem C30_dumpArgs_obscures (env : CmdEnv) (uid : Int) (argv : List String) (k : Int)
    (t : List CmdCall) (pre post : List String) (x y : String) :
    (strlen x = strlen y →
      dumpArgsBuffer (pre ++ x :: post) (pre.length : Int) =
        dumpArgsBuffer (pre ++ y :: post) (pre.length : Int)) ∧
    (argBytes argv + 2 < 4095 →
      dumpArgsBuffer argv k =
        " ".intercalate (obscureArg argv k) ++
          (if 0 ≤ k ∧ k + 1 = (argv.length : Int) then " " else "")) ∧
    (∃ l, List.Sublist l (argPieces argv.length k 0 argv) ∧
      dumpArgsBuffer argv k = l.foldl (fun acc p => acc ++ p) "") ∧
    (2 ≤ argv.length → argvAt argv 1 = "create" →
      ∃ cs, (AsecCmd.runCommand env argv t).2 = t ++ cs ∧
        logged cs = [dumpArgsBuffer argv 5]) ∧
    (2 ≤ argv.length → argvAt argv 1 = "mount" →
      ∃ cs, (AsecCmd.runCommand env argv t).2 = t ++ cs ∧
        logged cs = [dumpArgsBuffer argv 3]) ∧
    (2 ≤ argv.length → argvAt argv 1 = "mount" →
      ∃ cs, (ObbCmd.runCommand env argv t).2 = t ++ cs ∧
        logged cs = [dumpArgsBuffer argv 3]) ∧
    ((uid = 0 ∨ uid = AID_SYSTEM) → argv.length = 3 → argvAt argv 1 = "checkpw" →
      ∃ cs, (CryptfsCmd.runCommand env uid argv t).2 = t ++ cs ∧
        logged cs = [dumpArgsBuffer argv 2]) ∧
    ((uid = 0 ∨ uid = AID_SYSTEM) → argv.length = 4 → argvAt argv 1 = "enablecrypto" →
      (argvAt argv 2 = "wipe" ∨ argvAt argv 2 = "inplace") →
      ∃ cs, (CryptfsCmd.runCommand env uid argv t).2 = t ++ cs ∧
        logged cs = [dumpArgsBuffer argv 3]) :=
  ⟨dumpArgsBuffer_obscured pre post x y, dumpArgsBuffer_fits argv k,
    dumpArgsLoop_sublist argv.length k argv 0 "", asecCreate_logged env argv t,
    asecMount_logged env argv t, obbMount_logged env argv t,
    cryptfsCheckpw_logged env uid argv t, cryptfsEnablecrypto_logged env uid argv t⟩

/-- C30, witness: `cryptfs checkpw hunter2` and `cryptfs checkpw letmein` from root leave
the same text; `asec create foo 10 fat key 1000 1` is logged with the key replaced, and
the checkpw line is the one built with index 2. -/
theorem C30_dumpArgs_obscures_witness :
    (strlen "hunter2" = strlen "letmein" ∧
      dumpArgsBuffer (["cryptfs", "checkpw"] ++ "hunter2" :: [])
          ((["cryptfs", "checkpw"].length : Nat) : Int) =
        dumpArgsBuffer (["cryptfs", "checkpw"] ++ "letmein" :: [])
          ((["cryptfs", "checkpw"].length : Nat) : Int)) ∧
    (argBytes ["asec", "create", "foo", "10", "fat", "key", "1000", "1"] + 2 < 4095 ∧
      dumpArgsBuffer ["asec", "create", "foo", "10", "fat", "key", "1000", "1"] 5 =
        "asec create foo 10 fat \x7b\x7d 1000 1") ∧
    ((0 : Int) = 0 ∨ (0 : Int) = AID_SYSTEM) ∧
    (∃ cs, (CryptfsCmd.runCommand cmdEnvOk 0 ["cryptfs", "checkpw", "hunter2"] []).2 =
        [] ++ cs ∧
      logged cs = [dumpArgsBuffer ["cryptfs", "checkpw", "hunter2"] 2]) :=
  ⟨⟨by decide,
      (C30_dumpArgs_obscures cmdEnvOk 0 [] 0 [] ["cryptfs", "checkpw"] [] "hunter2"
        "letmein").1 (by decide)⟩,
    ⟨by decide,
      ((C30_dumpArgs_obscures cmdEnvOk 0
        ["asec", "create", "foo", "10", "fat", "key", "1000", "1"] 5 [] [] [] ""
        "").2.1 (by decide)).trans (by decide)⟩,
    Or.inl rfl,
    (C30_dumpArgs_obscures cmdEnvOk 0 ["cryptfs", "checkpw", "hunter2"] 2 [] [] [] ""
      "").2.2.2.2.2.2.1 (Or.inl rfl) (by decide) (by decide)⟩

/-- C30, counterexample: for `cryptfs checkpw hunter2` the obscured argument is the last
one. The arguments with the password replaced, separated by spaces, are
`cryptfs checkpw {}`; the text that dumpArgs leaves and the handler logs has one
more space at its end. -/
theorem C30_counterexample :
    " ".intercalate (obscureArg ["cryptfs", "checkpw", "hunter2"] 2) =
      "cryptfs checkpw \x7b\x7d" ∧
    dumpArgsBuffer ["cryptfs", "checkpw", "hunter2"] 2 = "cryptfs checkpw \x7b\x7d " ∧
    dumpArgsBuffer ["cryptfs", "checkpw", "hunter2"] 2 ≠
      " ".intercalate (obscureArg ["cryptfs", "checkpw", "hunter2"] 2) ∧
    (CryptfsCmd.runCommand cmdEnvOk 0 ["cryptfs", "checkpw", "hunter2"] []).2 =
      [CmdCall.SLOGD "cryptfs checkpw \x7b\x7d ", CmdCall.cryptfs_check_passwd "hunter2",
        CmdCall.sendMsg ReplyCode.CommandOkay "0" false] := by
  decide

end Vold
